import Mathlib

/-!
# Scholarship management front end: verification development

Shallow embedding of the widgets of the scholarship-management web client
(`src/components/Table.jsx`, `src/components/HierarchicalLocationDropdown.jsx`,
`src/components/TopBar.jsx`, `src/components/Sidebar.jsx`,
`src/components/ProtectedRoute.jsx`, `src/context/NotificationContext.jsx`,
`src/context/AuthContext.jsx`, `src/context/RoleViewContext.jsx`,
`src/utils/api.js`, `src/pages/Users.jsx`, `src/pages/Applications.jsx`,
`src/App.jsx`) and the properties proved about them.

Conventions of the embedding.

* A React component is a record of its props and `useState` slots. An event
  handler is a function from that record (and the event argument) to the next
  record plus the list of callbacks it invoked, in invocation order.
* JavaScript integers are `Int`; page sizes and list lengths are `Nat`.
* An optional callback prop is a `Bool` telling whether it was supplied; the
  calls made to it are recorded as effects.
* A network answer is a parameter of the handler that awaits it; a handler
  is run to completion, with no other event interleaved.
* Time is a counter of milliseconds; a pending timer fires when the counter
  reaches its due time.
* A block that can raise a `TypeError` returns an `Option`, `none` standing
  for the exception.
-/

namespace Scholarship

/-! ## Part I. Definitions -/

/-! ### JavaScript values and string helpers -/

/-- The cell values a table row can hold. `obj` stands for a non-array object
and carries the text `JSON.stringify` gives for it. Numbers are integers. -/
inductive JsValue where
  | null
  | undefined
  | bool (b : Bool)
  | num (n : Int)
  | str (s : String)
  | obj (json : String)
  deriving DecidableEq

/-- Lower case of a character of the ASCII and Latin-1 ranges: `A` to `Z`, and
U+00C0 to U+00DE without the multiplication sign U+00D7, move up by 32. -/
def lowerChar (c : Char) : Char :=
  if (65 ≤ c.toNat && c.toNat ≤ 90) ||
      (192 ≤ c.toNat && c.toNat ≤ 222 && c.toNat != 215) then Char.ofNat (c.toNat + 32)
  else c

/-- `String.prototype.toLowerCase`, for text whose cased letters lie in the
ASCII and Latin-1 ranges; a letter beyond them is left as it is. -/
def toLowerCase (s : String) : String :=
  ⟨s.data.map lowerChar⟩

/-- The code points ECMAScript counts as `WhiteSpace` or `LineTerminator`,
which `trim` and `parseInt` skip: TAB, LF, VT, FF, CR, space, U+00A0, U+1680,
U+2000 to U+200A, U+2028, U+2029, U+202F, U+205F, U+3000 and U+FEFF. -/
def isJsWhitespace (c : Char) : Bool :=
  (9 ≤ c.toNat && c.toNat ≤ 13) || c.toNat == 32 || c.toNat == 160 || c.toNat == 5760 ||
    (8192 ≤ c.toNat && c.toNat ≤ 8202) || c.toNat == 8232 || c.toNat == 8233 ||
    c.toNat == 8239 || c.toNat == 8287 || c.toNat == 12288 || c.toNat == 65279

/-- `String.prototype.trim`: white space and line terminators removed at both
ends. -/
def jsTrim (s : String) : String :=
  ⟨((s.data.dropWhile isJsWhitespace).reverse.dropWhile isJsWhitespace).reverse⟩

/-- `String.prototype.includes`: `t` occurs in `s` as a contiguous substring. -/
def includes (s t : String) : Bool :=
  s.data.tails.any (fun rest => t.data.isPrefixOf rest)

/-- Decimal digits of a natural number, most significant first; `fuel` bounds
the number of digits. -/
def natDigits : Nat → Nat → List Char
  | 0, _ => []
  | fuel + 1, n =>
    if n < 10 then [Char.ofNat (48 + n)]
    else natDigits fuel (n / 10) ++ [Char.ofNat (48 + n % 10)]

/-- `String(n)` for an integer-valued JavaScript number below 10^21 in
magnitude, where every digit is printed (from 10^21 on `String` switches to
exponent notation; record ids stay far below). -/
def numberToString (n : Int) : String :=
  if n < 0 then ⟨'-' :: natDigits (n.natAbs + 1) n.natAbs⟩
  else ⟨natDigits (n.natAbs + 1) n.natAbs⟩

/-- JavaScript truthiness. -/
def JsValue.truthy : JsValue → Bool
  | .null => false
  | .undefined => false
  | .bool b => b
  | .num n => n != 0
  | .str s => s != ""
  | .obj _ => true

/-- The conversion `String(v)`. -/
def JsValue.toJsString : JsValue → String
  | .null => "null"
  | .undefined => "undefined"
  | .bool true => "true"
  | .bool false => "false"
  | .num n => numberToString n
  | .str s => s
  | .obj _ => "[object Object]"

/-- Digits grouped in threes from the right, on a reversed digit list. -/
def groupRev : List Char → List Char
  | a :: b :: c :: rest => if rest.isEmpty then [a, b, c] else a :: b :: c :: ',' :: groupRev rest
  | ds => ds

/-- `n.toLocaleString()` for an integer in the `en-US` locale. -/
def toLocaleString (n : Int) : String :=
  let digits := (groupRev (natDigits (n.natAbs + 1) n.natAbs).reverse).reverse
  if n < 0 then ⟨'-' :: digits⟩ else ⟨digits⟩

/-- The operator `a || b`. -/
def JsValue.or (a b : JsValue) : JsValue :=
  if a.truthy then a else b

/-- The call `v.toLocaleString()` on a truthy value. -/
def JsValue.toLocaleText : JsValue → String
  | .num n => toLocaleString n
  | v => v.toJsString

/-- Two upper-case hexadecimal digits of a byte, after a percent sign. -/
def percentByte (b : Nat) : List Char :=
  let hex := fun (n : Nat) => if n < 10 then Char.ofNat (48 + n) else Char.ofNat (55 + n)
  ['%', hex (b / 16), hex (b % 16)]

/-- The UTF-8 bytes of a character. -/
def utf8Bytes (c : Char) : List Nat :=
  let n := c.toNat
  if n < 128 then [n]
  else if n < 2048 then [192 + n / 64, 128 + n % 64]
  else if n < 65536 then [224 + n / 4096, 128 + n / 64 % 64, 128 + n % 64]
  else [240 + n / 262144, 128 + n / 4096 % 64, 128 + n / 64 % 64, 128 + n % 64]

/-- `encodeURIComponent`: letters, digits and `- _ . ! ~ * ' ( )` are kept,
every other character is replaced by its percent-encoded UTF-8 bytes. -/
def encodeURIComponent (s : String) : String :=
  ⟨(s.data.map (fun c =>
      if c.isAlphanum || [45, 95, 46, 33, 126, 42, 39, 40, 41].contains c.toNat then [c]
      else ((utf8Bytes c).map percentByte).flatten)).flatten⟩

/-! ### Table.jsx -/

/-- A table row: an object, as the list of its properties. -/
abbrev Row := List (String × JsValue)

/-- Property read `row[key]`; a missing property is `undefined`. -/
def Row.get (row : Row) (key : String) : JsValue :=
  match row.find? (fun kv => kv.1 == key) with
  | some kv => kv.2
  | none => JsValue.undefined

/-- A column descriptor: its key and its optional `render` function. -/
structure Column where
  key : String
  render : Option (JsValue → Row → JsValue)

/-- Props and state of the `Table` component (Table.jsx lines 4-20). The
defaults are the defaults of the destructured props. -/
structure Table where
  columns : List Column
  data : List Row
  pagination : Bool := true
  currentPage : Int := 0
  totalPages : Int := 0
  totalElements : Int := 0
  pageSize : Nat := 10
  hasOnPageChange : Bool := false
  hasOnSearch : Bool := false
  clientSideSearch : Bool := true
  searchTerm : String := ""

/-- Callbacks invoked and state setters called by a table handler. -/
inductive TableEffect where
  | setSearchTerm (value : String)
  | onSearch (value : String)
  | onPageChange (page : Int)
  deriving DecidableEq

/-- The loop `for (let i = 0; i < total; i++) pages.push(i)`. -/
def pushUpTo (total : Int) : List Int :=
  (List.range total.toNat).map (fun (i : Nat) => (i : Int))

/-- The loop `for (let i = start; i <= end; i++) pages.push(i)`. -/
def pushFromTo (start stop : Int) : List Int :=
  (List.range (stop - start + 1).toNat).map (fun (i : Nat) => start + (i : Int))

/-- `getPageNumbers` (Table.jsx lines 154-180): reads `totalPages` and
`currentPage` of the component. -/
def getPageNumbers (t : Table) : List Int :=
  let maxVisible : Int := 5
  let total := t.totalPages
  if total ≤ maxVisible then
    pushUpTo total
  else
    let start := max 0 (t.currentPage - maxVisible / 2)
    let stop := min (total - 1) (start + maxVisible - 1)
    let start := if stop - start < maxVisible - 1 then max 0 (stop - maxVisible + 1) else start
    pushFromTo start stop

/-- `getPageNumbersForClientSide` (Table.jsx lines 183-205): the strip for a
given `total`, around the `currentPage` of the component. -/
def getPageNumbersForClientSide (t : Table) (total : Int) : List Int :=
  let maxVisible : Int := 5
  if total ≤ maxVisible then
    pushUpTo total
  else
    let start := max 0 (t.currentPage - maxVisible / 2)
    let stop := min (total - 1) (start + maxVisible - 1)
    let start := if stop - start < maxVisible - 1 then max 0 (stop - maxVisible + 1) else start
    pushFromTo start stop

/-- The callback of `columns.some` inside `filterData` (Table.jsx lines 32-83):
whether the cell of `row` under column `col` matches the lower-cased, trimmed
`term`. -/
def cellMatches (term : String) (row : Row) (col : Column) : Bool :=
  let value := row.get col.key
  match value with
  | .null => false
  | .undefined => false
  | _ =>
    match col.render with
    | some render =>
      let renderedValue := render value row
      -- raw value: only a string is checked here
      (match value with
        | .str s => includes (toLowerCase s) term
        | _ => false)
      -- rendered value, converted to a string
      || (renderedValue.truthy && includes (toLowerCase renderedValue.toJsString) term)
      -- nested objects
      || (match value with
        | .obj json => includes (toLowerCase json) term
        | _ => false)
    | none =>
      (match value with
        | .str s => includes (toLowerCase s) term
        | _ => false)
      -- numbers: `String(value).includes(term)`, not lower-cased
      || (match value with
        | .num n => includes (numberToString n) term
        | _ => false)
      || (match value with
        | .obj json => includes (toLowerCase json) term
        | _ => false)

/-- `filterData` (Table.jsx lines 23-85). -/
def filterData (data : List Row) (searchTerm : String) (columns : List Column) : List Row :=
  if searchTerm == "" || jsTrim searchTerm == "" then
    data
  else
    let term := jsTrim (toLowerCase searchTerm)
    data.filter (fun row => columns.any (fun col => cellMatches term row col))

/-- `filteredData` (Table.jsx lines 88-93). -/
def filteredData (t : Table) : List Row :=
  if t.clientSideSearch && t.searchTerm != "" then
    filterData t.data t.searchTerm t.columns
  else
    t.data

/-- `Array.prototype.slice(start, end)`: a negative bound counts from the end
and both bounds are clamped to the length. -/
def jsSlice (xs : List Row) (start stop : Int) : List Row :=
  let len : Int := xs.length
  let from_ := if start < 0 then max (len + start) 0 else min start len
  let to_ := if stop < 0 then max (len + stop) 0 else min stop len
  (xs.drop from_.toNat).take (to_ - from_).toNat

/-- `clientSidePaginatedData` (Table.jsx lines 96-103). -/
def clientSidePaginatedData (t : Table) : List Row :=
  if t.clientSideSearch && t.searchTerm != "" && t.pagination then
    let start := t.currentPage * (t.pageSize : Int)
    let stop := start + (t.pageSize : Int)
    jsSlice (filteredData t) start stop
  else
    filteredData t

/-- The rows of the table body, `displayData` (Table.jsx line 267). -/
def displayData (t : Table) : List Row :=
  if t.clientSideSearch && t.searchTerm != "" then clientSidePaginatedData t else t.data

/-- The rows displayed when the owner of the table puts it on page `p`. -/
def displayedPage (t : Table) (p : Nat) : List Row :=
  displayData { t with currentPage := (p : Int) }

/-- `Math.ceil(a / b)` for a length `a` and a positive integer `b`. -/
def ceilDiv (a b : Nat) : Nat :=
  (a + b - 1) / b

/-- `effectiveTotalPages` (Table.jsx lines 106-111). -/
def effectiveTotalPages (t : Table) : Int :=
  if t.clientSideSearch && t.searchTerm != "" then
    (ceilDiv (filteredData t).length t.pageSize : Nat)
  else
    t.totalPages

/-- `effectiveTotalElements` (Table.jsx lines 114-119). -/
def effectiveTotalElements (t : Table) : Int :=
  if t.clientSideSearch && t.searchTerm != "" then
    ((filteredData t).length : Nat)
  else
    t.totalElements

/-- `handleSearch` (Table.jsx lines 121-135) for the input value `value`: the
next component state and the calls made, in order. -/
def handleSearch (t : Table) (value : String) : Table × List TableEffect :=
  ({ t with searchTerm := value },
    [TableEffect.setSearchTerm value]
      ++ (if !t.clientSideSearch && t.hasOnSearch then [TableEffect.onSearch value] else [])
      ++ (if t.clientSideSearch && t.hasOnPageChange then [TableEffect.onPageChange 0] else []))

/-- `clearSearch` (Table.jsx lines 137-145). -/
def clearSearch (t : Table) : Table × List TableEffect :=
  ({ t with searchTerm := "" },
    [TableEffect.setSearchTerm ""]
      ++ (if !t.clientSideSearch && t.hasOnSearch then [TableEffect.onSearch ""] else [])
      ++ (if t.hasOnPageChange then [TableEffect.onPageChange 0] else []))

/-- `handlePageChange` (Table.jsx lines 147-151): the calls made. -/
def handlePageChange (t : Table) (newPage : Int) : List TableEffect :=
  if 0 ≤ newPage && newPage < t.totalPages && t.hasOnPageChange then
    [TableEffect.onPageChange newPage]
  else
    []

/-- The page the "Next page" button asks for and whether it is disabled
(Table.jsx lines 381-388). -/
def nextButton (t : Table) : Int × Bool :=
  (t.currentPage + 1,
    decide (t.currentPage ≥
      (if t.clientSideSearch && t.searchTerm != "" then effectiveTotalPages t else t.totalPages) - 1))

/-- The page the "Last page" button asks for and whether it is disabled
(Table.jsx lines 389-396). -/
def lastButton (t : Table) : Int × Bool :=
  ((if t.clientSideSearch && t.searchTerm != "" then effectiveTotalPages t else t.totalPages) - 1,
    decide (t.currentPage ≥
      (if t.clientSideSearch && t.searchTerm != "" then effectiveTotalPages t else t.totalPages) - 1))

/-! ### Users.jsx -/

/-- The state slots of the `Users` page that its search handler writes
(Users.jsx lines 13-16). -/
structure UsersPage where
  currentPage : Int := 0
  totalPages : Int := 0
  totalElements : Int := 0
  searchTerm : String := ""

/-- `handleSearch` of the `Users` page (Users.jsx lines 54-57), the `onSearch`
prop it hands to its table. -/
def UsersPage.handleSearch (u : UsersPage) (term : String) : UsersPage :=
  { u with searchTerm := term, currentPage := 0 }

/-- `setCurrentPage`, the `onPageChange` prop the `Users` page hands to its
table (Users.jsx line 210). -/
def UsersPage.setCurrentPage (u : UsersPage) (page : Int) : UsersPage :=
  { u with currentPage := page }

/-- Delivery of the table's callbacks to the `Users` page, in order. -/
def UsersPage.deliver (u : UsersPage) : List TableEffect → UsersPage
  | [] => u
  | TableEffect.setSearchTerm _ :: rest => UsersPage.deliver u rest
  | TableEffect.onSearch term :: rest => UsersPage.deliver (u.handleSearch term) rest
  | TableEffect.onPageChange page :: rest => UsersPage.deliver (u.setCurrentPage page) rest

/-! ### HierarchicalLocationDropdown.jsx -/

/-- A location record as the backend returns it. -/
structure Location where
  id : Int
  name : String
  code : String
  type : String := ""
  deriving DecidableEq

/-- The outcome of an awaited `api.get`: the promise rejects, or it resolves
with a body; `none` is a body that is not an array. -/
inductive ApiResponse where
  | failed
  | ok (data : Option (List Location))

/-- The backend as seen by one handler run: the answer to each request path. -/
abbrev Api := String → ApiResponse

/-- Requests issued and `onChange` events emitted by the dropdown. -/
inductive DropdownEffect where
  | get (url : String)
  | onChange (value : String)
  deriving DecidableEq

/-- Props and state of the dropdown (HierarchicalLocationDropdown.jsx lines
4-25). -/
structure Dropdown where
  value : String := ""
  hasOnChange : Bool := true
  provinces : List Location := []
  districts : List Location := []
  sectors : List Location := []
  cells : List Location := []
  villages : List Location := []
  selectedProvince : String := ""
  selectedDistrict : String := ""
  selectedSector : String := ""
  selectedCell : String := ""
  selectedVillage : String := ""
  loading : Bool := false
  hierarchyLoaded : Bool := false

/-- Value of a run of decimal digits. -/
def digitsValue (ds : List Char) : Nat :=
  ds.foldl (fun acc c => 10 * acc + (c.toNat - 48)) 0

/-- `parseInt(s)`: leading white space, an optional sign and the leading run
of decimal digits; `none` is `NaN`. -/
def parseInt (s : String) : Option Int :=
  let cs := s.data.dropWhile isJsWhitespace
  let (negative, rest) :=
    match cs with
    | '-' :: r => (true, r)
    | '+' :: r => (false, r)
    | r => (false, r)
  let ds := rest.takeWhile Char.isDigit
  if ds.isEmpty then none
  else if negative then some (-(digitsValue ds : Int)) else some (digitsValue ds : Int)

/-- A parsed id inside a template literal. -/
def idText : Option Int → String
  | some n => numberToString n
  | none => "NaN"

/-- The event `onChange({ target: { name, value: '' } })`, when `onChange` is
supplied. -/
def emitEmpty (d : Dropdown) : List DropdownEffect :=
  if d.hasOnChange then [DropdownEffect.onChange ""] else []

/-- `Array.isArray(response.data) ? response.data : []`. -/
def arrayOrEmpty (data : Option (List Location)) : List Location :=
  data.getD []

/-- `fetchDistricts` (lines 141-165). -/
def fetchDistricts (api : Api) (d : Dropdown) (provinceCode : String) :
    Dropdown × List DropdownEffect :=
  let url := "/locations/provinces/" ++ provinceCode ++ "/districts"
  match api url with
  | .ok data =>
    ({ d with
        districts := arrayOrEmpty data
        selectedSector := "", selectedCell := "", selectedVillage := ""
        sectors := [], cells := [], villages := []
        loading := false },
      DropdownEffect.get url :: emitEmpty d)
  | .failed => ({ d with districts := [], loading := false }, [DropdownEffect.get url])

/-- `fetchSectors` (lines 167-187). -/
def fetchSectors (api : Api) (d : Dropdown) (districtId : Option Int) :
    Dropdown × List DropdownEffect :=
  let url := "/locations/districts/" ++ idText districtId ++ "/sectors"
  match api url with
  | .ok data =>
    ({ d with
        sectors := arrayOrEmpty data
        selectedCell := "", selectedVillage := ""
        cells := [], villages := []
        loading := false },
      DropdownEffect.get url :: emitEmpty d)
  | .failed => ({ d with sectors := [], loading := false }, [DropdownEffect.get url])

/-- `fetchCells` (lines 189-207). -/
def fetchCells (api : Api) (d : Dropdown) (sectorId : Option Int) :
    Dropdown × List DropdownEffect :=
  let url := "/locations/sectors/" ++ idText sectorId ++ "/cells"
  match api url with
  | .ok data =>
    ({ d with
        cells := arrayOrEmpty data
        selectedVillage := ""
        villages := []
        loading := false },
      DropdownEffect.get url :: emitEmpty d)
  | .failed => ({ d with cells := [], loading := false }, [DropdownEffect.get url])

/-- `fetchVillages` (lines 209-224). -/
def fetchVillages (api : Api) (d : Dropdown) (cellId : Option Int) :
    Dropdown × List DropdownEffect :=
  let url := "/locations/cells/" ++ idText cellId ++ "/villages"
  match api url with
  | .ok data =>
    ({ d with villages := arrayOrEmpty data, loading := false },
      DropdownEffect.get url :: emitEmpty d)
  | .failed => ({ d with villages := [], loading := false }, [DropdownEffect.get url])

/-- `handleProvinceChange` (lines 226-250), run to completion with the fetch
it awaits. -/
def handleProvinceChange (api : Api) (d : Dropdown) (provinceId : String) :
    Dropdown × List DropdownEffect :=
  let d1 := { d with selectedProvince := provinceId, hierarchyLoaded := false }
  let (d2, effects) :=
    if provinceId != "" then
      match d.provinces.find? (fun p => numberToString p.id == provinceId) with
      | some province => fetchDistricts api d1 province.code
      | none => (d1, [])
    else
      ({ d1 with
          districts := [], sectors := [], cells := [], villages := []
          selectedDistrict := "", selectedSector := "", selectedCell := ""
          selectedVillage := "" }, [])
  (d2, effects ++ emitEmpty d)

/-- `handleDistrictChange` (lines 252-270). -/
def handleDistrictChange (api : Api) (d : Dropdown) (districtId : String) :
    Dropdown × List DropdownEffect :=
  let d1 := { d with selectedDistrict := districtId }
  let (d2, effects) :=
    if districtId != "" then
      fetchSectors api d1 (parseInt districtId)
    else
      ({ d1 with
          sectors := [], cells := [], villages := []
          selectedSector := "", selectedCell := "", selectedVillage := "" }, [])
  (d2, effects ++ emitEmpty d)

/-- `handleSectorChange` (lines 272-288). -/
def handleSectorChange (api : Api) (d : Dropdown) (sectorId : String) :
    Dropdown × List DropdownEffect :=
  let d1 := { d with selectedSector := sectorId }
  let (d2, effects) :=
    if sectorId != "" then
      fetchCells api d1 (parseInt sectorId)
    else
      ({ d1 with cells := [], villages := [], selectedCell := "", selectedVillage := "" }, [])
  (d2, effects ++ emitEmpty d)

/-- `handleCellChange` (lines 290-304). -/
def handleCellChange (api : Api) (d : Dropdown) (cellId : String) :
    Dropdown × List DropdownEffect :=
  let d1 := { d with selectedCell := cellId }
  let (d2, effects) :=
    if cellId != "" then
      fetchVillages api d1 (parseInt cellId)
    else
      ({ d1 with villages := [], selectedVillage := "" }, [])
  (d2, effects ++ emitEmpty d)

/-- `handleVillageChange` (lines 306-313). -/
def handleVillageChange (d : Dropdown) (villageId : String) :
    Dropdown × List DropdownEffect :=
  ({ d with selectedVillage := villageId },
    if d.hasOnChange then [DropdownEffect.onChange villageId] else [])

/-- `fetchProvinces` (lines 40-92). The health check that precedes the request
only logs, whatever its outcome, so only its request is recorded; the
diagnostics written to the console are left out. -/
def fetchProvinces (api : Api) (d : Dropdown) : Dropdown × List DropdownEffect :=
  match api "/locations/provinces" with
  | .ok data =>
    ({ d with provinces := arrayOrEmpty data, loading := false },
      [DropdownEffect.get "/locations/health", DropdownEffect.get "/locations/provinces"])
  | .failed =>
    ({ d with provinces := [], loading := false },
      [DropdownEffect.get "/locations/health", DropdownEffect.get "/locations/provinces"])

/-- The lookup `hierarchyMap[type]` after the loop
`hierarchy.forEach(loc => { hierarchyMap[loc.type] = loc })` (lines 101-104):
the last entry of that type. -/
def hierarchyEntry (hierarchy : List Location) (type : String) : Option Location :=
  hierarchy.reverse.find? (fun loc => loc.type == type)

/-- The expression `response.data || []` of `fetchLocationHierarchy`; a body
that is not an array is taken to be an empty one (`null` or `''`). -/
def bodyOrEmpty (data : Option (List Location)) : List Location :=
  data.getD []

/-- The block `if (hierarchyMap.VILLAGE)` (lines 127-129). -/
def loadVillage (hierarchy : List Location) (d : Dropdown) : Dropdown :=
  match hierarchyEntry hierarchy "VILLAGE" with
  | some village => { d with selectedVillage := numberToString village.id }
  | none => d

/-- The block `if (hierarchyMap.CELL)` (lines 122-130); a failed request ends
the whole `try` block. -/
def loadCell (api : Api) (hierarchy : List Location) (d : Dropdown) :
    Dropdown × List DropdownEffect :=
  match hierarchyEntry hierarchy "CELL" with
  | some cell =>
    let url := "/locations/cells/" ++ numberToString cell.id ++ "/villages"
    match api url with
    | .ok data =>
      (loadVillage hierarchy
        { d with selectedCell := numberToString cell.id, villages := bodyOrEmpty data },
        [DropdownEffect.get url])
    | .failed => ({ d with selectedCell := numberToString cell.id }, [DropdownEffect.get url])
  | none => (d, [])

/-- The block `if (hierarchyMap.SECTOR)` (lines 117-131). -/
def loadSector (api : Api) (hierarchy : List Location) (d : Dropdown) :
    Dropdown × List DropdownEffect :=
  match hierarchyEntry hierarchy "SECTOR" with
  | some sector =>
    let url := "/locations/sectors/" ++ numberToString sector.id ++ "/cells"
    match api url with
    | .ok data =>
      let below := loadCell api hierarchy
        { d with selectedSector := numberToString sector.id, cells := bodyOrEmpty data }
      (below.1, DropdownEffect.get url :: below.2)
    | .failed => ({ d with selectedSector := numberToString sector.id }, [DropdownEffect.get url])
  | none => (d, [])

/-- The block `if (hierarchyMap.DISTRICT)` (lines 112-132). -/
def loadDistrict (api : Api) (hierarchy : List Location) (d : Dropdown) :
    Dropdown × List DropdownEffect :=
  match hierarchyEntry hierarchy "DISTRICT" with
  | some district =>
    let url := "/locations/districts/" ++ numberToString district.id ++ "/sectors"
    match api url with
    | .ok data =>
      let below := loadSector api hierarchy
        { d with selectedDistrict := numberToString district.id, sectors := bodyOrEmpty data }
      (below.1, DropdownEffect.get url :: below.2)
    | .failed =>
      ({ d with selectedDistrict := numberToString district.id }, [DropdownEffect.get url])
  | none => (d, [])

/-- The block `if (hierarchyMap.PROVINCE)` (lines 107-133). -/
def loadProvince (api : Api) (hierarchy : List Location) (d : Dropdown) :
    Dropdown × List DropdownEffect :=
  match hierarchyEntry hierarchy "PROVINCE" with
  | some province =>
    let url := "/locations/provinces/" ++ province.code ++ "/districts"
    match api url with
    | .ok data =>
      let below := loadDistrict api hierarchy
        { d with selectedProvince := numberToString province.id, districts := bodyOrEmpty data }
      (below.1, DropdownEffect.get url :: below.2)
    | .failed =>
      ({ d with selectedProvince := numberToString province.id }, [DropdownEffect.get url])
  | none => (d, [])

/-- `fetchLocationHierarchy` (lines 94-139), run to completion with the
requests it awaits. -/
def fetchLocationHierarchy (api : Api) (d : Dropdown) (locationId : String) :
    Dropdown × List DropdownEffect :=
  let url := "/locations/" ++ locationId ++ "/hierarchy"
  match api url with
  | .ok data =>
    let loaded := loadProvince api (bodyOrEmpty data) d
    ({ loaded.1 with loading := false }, DropdownEffect.get url :: loaded.2)
  | .failed => ({ d with loading := false }, [DropdownEffect.get url])

/-- The five selections, top-down. -/
def selections (d : Dropdown) : List String :=
  [d.selectedProvince, d.selectedDistrict, d.selectedSector, d.selectedCell, d.selectedVillage]

/-- The `type` tags of the five levels, top-down. -/
def levelTypes : List String :=
  ["PROVINCE", "DISTRICT", "SECTOR", "CELL", "VILLAGE"]

/-- The request `fetchLocationHierarchy` makes for the children of the entry
at a level (0 for the province). -/
def childrenUrl (level : Nat) (loc : Location) : String :=
  match level with
  | 0 => "/locations/provinces/" ++ loc.code ++ "/districts"
  | 1 => "/locations/districts/" ++ numberToString loc.id ++ "/sectors"
  | 2 => "/locations/sectors/" ++ numberToString loc.id ++ "/cells"
  | _ => "/locations/cells/" ++ numberToString loc.id ++ "/villages"

/-- Whether a request was answered. -/
def ApiResponse.isOk : ApiResponse → Bool
  | .ok _ => true
  | .failed => false

/-- The levels that have a change handler awaiting a child fetch. -/
inductive Level where
  | province
  | district
  | sector
  | cell
  deriving DecidableEq

/-- The change handler of a level. -/
def handleChange (api : Api) (d : Dropdown) : Level → String → Dropdown × List DropdownEffect
  | .province, id => handleProvinceChange api d id
  | .district, id => handleDistrictChange api d id
  | .sector, id => handleSectorChange api d id
  | .cell, id => handleCellChange api d id

/-- Whether an effect is a network request. -/
def DropdownEffect.isGet : DropdownEffect → Bool
  | .get _ => true
  | .onChange _ => false

/-- The selections at the levels below a level, top-down. -/
def selectionsBelow (d : Dropdown) : Level → List String
  | .province => [d.selectedDistrict, d.selectedSector, d.selectedCell, d.selectedVillage]
  | .district => [d.selectedSector, d.selectedCell, d.selectedVillage]
  | .sector => [d.selectedCell, d.selectedVillage]
  | .cell => [d.selectedVillage]

/-- The option lists at the levels below a level, top-down. -/
def optionsBelow (d : Dropdown) : Level → List (List Location)
  | .province => [d.districts, d.sectors, d.cells, d.villages]
  | .district => [d.sectors, d.cells, d.villages]
  | .sector => [d.cells, d.villages]
  | .cell => [d.villages]

/-- The selections and option lists at the levels above a level. -/
def levelsAbove (d : Dropdown) : Level → List String × List (List Location)
  | .province => ([], [])
  | .district => ([d.selectedProvince], [d.provinces])
  | .sector => ([d.selectedProvince, d.selectedDistrict], [d.provinces, d.districts])
  | .cell =>
    ([d.selectedProvince, d.selectedDistrict, d.selectedSector],
      [d.provinces, d.districts, d.sectors])

/-- What can happen to the dropdown: the parent supplies a new `value`, the
province list is (re)loaded, the user changes the selection of a non-leaf
level, or the user picks a village. -/
inductive WidgetEvent where
  | setValue (value : String)
  | loadProvinces
  | select (level : Level) (id : String)
  | selectVillage (id : String)

/-- The state writes of an event's handler, run to completion. -/
def handleEvent (api : Api) (d : Dropdown) : WidgetEvent → Dropdown
  | .setValue value => { d with value := value }
  | .loadProvinces => (fetchProvinces api d).1
  | .select level id => (handleChange api d level id).1
  | .selectVillage id => (handleVillageChange d id).1

/-- Whether the dependencies `[value, provinces, hierarchyLoaded]` of the
resolution effect changed; `setProvinces` always stores a new array. -/
def depsChanged (before after : Dropdown) : WidgetEvent → Bool
  | .loadProvinces => true
  | _ => before.value != after.value || before.hierarchyLoaded != after.hierarchyLoaded

/-- The resolution effect (lines 33-38): the state once the resolution it
starts has completed, and the number of resolutions started. -/
def hierarchyEffect (api : Api) (d : Dropdown) : Dropdown × Nat :=
  if d.value != "" && decide (d.provinces.length > 0) && !d.hierarchyLoaded then
    ({ (fetchLocationHierarchy api d d.value).1 with hierarchyLoaded := true }, 1)
  else
    (d, 0)

/-- One event: its handler, then the resolution effect when its dependencies
changed. The second component counts the resolutions started. -/
def Dropdown.step (api : Api) (d : Dropdown) (ev : WidgetEvent) : Dropdown × Nat :=
  if depsChanged d (handleEvent api d ev) ev then hierarchyEffect api (handleEvent api d ev)
  else (handleEvent api d ev, 0)

/-- A sequence of events, oldest first, with the total of resolutions started. -/
def Dropdown.run (api : Api) (d : Dropdown) : List WidgetEvent → Dropdown × Nat
  | [] => (d, 0)
  | ev :: rest =>
    ((Dropdown.run api (d.step api ev).1 rest).1,
      (d.step api ev).2 + (Dropdown.run api (d.step api ev).1 rest).2)

/-- Whether an event is a province change by the user. -/
def WidgetEvent.isProvinceChange : WidgetEvent → Bool
  | .select .province _ => true
  | _ => false

/-- Whether the dropdown of a level is rendered (lines 322, 350, 378, 406,
434): level 0 is the province, level 4 the village. -/
def visible (d : Dropdown) : Nat → Bool
  | 0 => true
  | 1 => d.selectedProvince != ""
  | 2 => d.selectedDistrict != ""
  | 3 => d.selectedSector != ""
  | 4 => d.selectedCell != ""
  | _ => false

/-- The selection of a level, 0 for the province; the empty string beyond the
village. -/
def selectionAt (d : Dropdown) (level : Nat) : String :=
  (selections d).getD level ""

/-- Whether the user can fire an event: the dropdown of its level is rendered. -/
def enabled (d : Dropdown) : WidgetEvent → Bool
  | .setValue _ => true
  | .loadProvinces => true
  | .select .province _ => visible d 0
  | .select .district _ => visible d 1
  | .select .sector _ => visible d 2
  | .select .cell _ => visible d 3
  | .selectVillage _ => visible d 4

/-- The states the widget can reach from its initial state, in which every
list and selection is empty, by events whose dropdown is rendered; the
backend may answer differently at each step. -/
inductive Reachable : Dropdown → Prop where
  | init (value : String) (hasOnChange : Bool) :
    Reachable { value := value, hasOnChange := hasOnChange }
  | step (api : Api) (d : Dropdown) (ev : WidgetEvent) :
    Reachable d → enabled d ev = true → Reachable (d.step api ev).1

/-- Every non-empty selection below the province has a non-empty selection
right above it. -/
def PrefixSelected (d : Dropdown) : Prop :=
  (d.selectedDistrict ≠ "" → d.selectedProvince ≠ "") ∧
  (d.selectedSector ≠ "" → d.selectedDistrict ≠ "") ∧
  (d.selectedCell ≠ "" → d.selectedSector ≠ "") ∧
  (d.selectedVillage ≠ "" → d.selectedCell ≠ "")

/-! ### TopBar.jsx -/

/-- An entry of the merged result list of the global search. The title and the
subtitle are whatever the record holds, `undefined` included. -/
structure SearchResult where
  type : String
  id : Int
  title : JsValue
  subtitle : JsValue
  path : String
  deriving DecidableEq

/-- State of the `TopBar` component (TopBar.jsx lines 9-21);
`searchTimeoutRef` is the content of the ref: `none` for `null`, else the id
of the last timer set. -/
structure TopBar where
  hasOnSearch : Bool := false
  searchTerm : String := ""
  searchResults : List SearchResult := []
  showResults : Bool := false
  showNotifications : Bool := false
  isSearching : Bool := false
  selectedIndex : Int := -1
  searchTimeoutRef : Option Nat := none

/-- A timer set with `setTimeout` and not yet fired or cleared: its id, the
time in milliseconds at which it is due, and the term its callback closes
over. -/
structure Timer where
  id : Nat
  due : Nat
  term : String
  deriving DecidableEq

/-- The component together with the browser's clock and timer table and the
log of requests issued so far. Timer ids are handed out from `nextTimerId`,
which starts at 1. -/
structure TopBarEnv where
  bar : TopBar := {}
  now : Nat := 0
  timers : List Timer := []
  nextTimerId : Nat := 1
  requestLog : List String := []

/-- `String.prototype.length`: the number of UTF-16 code units. -/
def jsLength (s : String) : Nat :=
  (s.data.map (fun c => if c.toNat > 65535 then 2 else 1)).sum

/-- `clearTimeout(id)`. -/
def clearTimeout (timers : List Timer) (id : Nat) : List Timer :=
  timers.filter (fun tm => tm.id != id)

/-- The statement `if (searchTimeoutRef.current) clearTimeout(...)`
(TopBar.jsx lines 26-28): the timer table afterwards. -/
def clearPrevious (e : TopBarEnv) : List Timer :=
  match e.bar.searchTimeoutRef with
  | some id => if id != 0 then clearTimeout e.timers id else e.timers
  | none => e.timers

/-- `handleGlobalSearch` (TopBar.jsx lines 24-128), up to its return: the
previous timer is cleared, then either the results are reset or a timer due in
300 ms is set for the term. `none` is a `null` or `undefined` term. -/
def handleGlobalSearch (e : TopBarEnv) (term : Option String) : TopBarEnv :=
  let timers := clearPrevious e
  let ignored :=
    match term with
    | none => true
    | some t => t == "" || decide (jsLength (jsTrim t) < 2)
  if ignored then
    { e with
        timers := timers
        bar := { e.bar with searchResults := [], showResults := false, isSearching := false } }
  else
    { e with
        timers := timers ++ [{ id := e.nextTimerId, due := e.now + 300, term := term.getD "" }]
        nextTimerId := e.nextTimerId + 1
        bar := { e.bar with searchTimeoutRef := some e.nextTimerId } }

/-- `handleSearchChange` (TopBar.jsx lines 130-134). -/
def handleSearchChange (e : TopBarEnv) (value : String) : TopBarEnv :=
  handleGlobalSearch { e with bar := { e.bar with searchTerm := value } } (some value)

/-- The five requests of one fan-out, in the order they are issued (TopBar.jsx
lines 44-48). -/
def fanOutUrls (term : String) : List String :=
  ["/users/search?searchTerm=" ++ encodeURIComponent term ++ "&page=0&size=5",
   "/scholarships/search?searchTerm=" ++ encodeURIComponent term ++ "&page=0&size=5",
   "/applications/search?searchTerm=" ++ encodeURIComponent term ++ "&page=0&size=5",
   "/payments/search?searchTerm=" ++ encodeURIComponent term ++ "&page=0&size=5",
   "/locations/search?searchTerm=" ++ encodeURIComponent term ++ "&page=0&size=5"]

/-- The timer callback up to its `await` (TopBar.jsx lines 38-49): the timer
leaves the table, the spinner is shown, the cursor is reset and the five
requests are issued. -/
def fireTimer (e : TopBarEnv) (tm : Timer) : TopBarEnv :=
  { e with
      timers := clearTimeout e.timers tm.id
      requestLog := e.requestLog ++ fanOutUrls tm.term
      bar := { e.bar with isSearching := true, selectedIndex := -1 } }

/-- The clock advances by `dt` milliseconds; the timers due by then fire, in
the order they were set. -/
def elapse (e : TopBarEnv) (dt : Nat) : TopBarEnv :=
  (e.timers.filter (fun tm => decide (tm.due ≤ e.now + dt))).foldl fireTimer
    { e with now := e.now + dt }

/-- What can happen to the search box: a call of `handleGlobalSearch`, or time
passing. -/
inductive TopBarEvent where
  | search (term : Option String)
  | wait (dt : Nat)

/-- One event. -/
def TopBarEnv.step (e : TopBarEnv) : TopBarEvent → TopBarEnv
  | .search term => handleGlobalSearch e term
  | .wait dt => elapse e dt

/-- A sequence of events, oldest first. -/
def TopBarEnv.run (e : TopBarEnv) (events : List TopBarEvent) : TopBarEnv :=
  events.foldl TopBarEnv.step e

/-- A burst of keystrokes: a first call, then calls each made `delay`
milliseconds after the previous one. -/
def TopBarEnv.burst (e : TopBarEnv) (first : Option String)
    (rest : List (Nat × Option String)) : TopBarEnv :=
  rest.foldl (fun acc call => handleGlobalSearch (elapse acc call.1) call.2)
    (handleGlobalSearch e first)

/-- The term of the last call of a burst. -/
def lastTerm (first : Option String) : List (Nat × Option String) → Option String
  | [] => first
  | call :: rest => lastTerm call.2 rest

/-- The test `!term || term.trim().length < 2` (TopBar.jsx line 30). -/
def tooShort (term : Option String) : Bool :=
  match term with
  | none => true
  | some t => t == "" || decide (jsLength (jsTrim t) < 2)

/-- The debounce invariant: timer ids are positive and at most one timer is
pending, namely the one the ref points to. -/
def Debounced (e : TopBarEnv) : Prop :=
  e.nextTimerId ≠ 0 ∧ e.timers.length ≤ 1 ∧
    ∀ tm ∈ e.timers, e.bar.searchTimeoutRef = some tm.id ∧ tm.id ≠ 0

/-- A user record of a search response. -/
structure UserHit where
  id : Int
  firstName : JsValue := JsValue.undefined
  lastName : JsValue := JsValue.undefined
  email : JsValue := JsValue.undefined
  username : JsValue := JsValue.undefined

/-- A scholarship record of a search response. -/
structure ScholarshipHit where
  id : Int
  name : JsValue := JsValue.undefined
  amount : JsValue := JsValue.undefined

/-- The `scholarship` object of an application record. -/
structure ScholarshipRef where
  name : JsValue := JsValue.undefined

/-- The `applicant` object of an application record. -/
structure ApplicantRef where
  firstName : JsValue := JsValue.undefined
  lastName : JsValue := JsValue.undefined

/-- An application record of a search response; `none` is an absent (or
`null`) nested object. -/
structure ApplicationHit where
  id : Int
  scholarship : Option ScholarshipRef := none
  applicant : Option ApplicantRef := none

/-- A payment record of a search response. -/
structure PaymentHit where
  id : Int
  amount : JsValue := JsValue.undefined

/-- A location record of a search response. -/
structure LocationHit where
  id : Int
  name : JsValue := JsValue.undefined
  code : JsValue := JsValue.undefined
  type : JsValue := JsValue.undefined

/-- One entry of the array `Promise.allSettled` resolves to: the request was
rejected, or fulfilled with a body whose `content` is absent (`none`) or a
list of records. -/
inductive Settled (α : Type) where
  | rejected
  | fulfilled (content : Option (List α))

/-- The records a settled entry contributes: the test
`res.status === 'fulfilled' && res.value.data.content`. -/
def Settled.records {α : Type} : Settled α → List α
  | .rejected => []
  | .fulfilled none => []
  | .fulfilled (some records) => records

/-- The five settled entries of one fan-out. -/
structure FanOutOutcome where
  users : Settled UserHit
  scholarships : Settled ScholarshipHit
  applications : Settled ApplicationHit
  payments : Settled PaymentHit
  locations : Settled LocationHit

/-- The entry pushed for a user (TopBar.jsx lines 55-62). -/
def userResult (user : UserHit) : SearchResult :=
  { type := "user"
    id := user.id
    title := JsValue.str (user.firstName.toJsString ++ " " ++ user.lastName.toJsString)
    subtitle := user.email.or user.username
    path := "/users/" ++ numberToString user.id }

/-- The amount line of a scholarship or payment entry. -/
def amountSubtitle (amount : JsValue) : JsValue :=
  if amount.truthy then JsValue.str ("Amount: " ++ amount.toLocaleText ++ " RWF")
  else JsValue.str "No amount specified"

/-- The entry pushed for a scholarship (TopBar.jsx lines 68-75). -/
def scholarshipResult (scholarship : ScholarshipHit) : SearchResult :=
  { type := "scholarship"
    id := scholarship.id
    title := scholarship.name
    subtitle := amountSubtitle scholarship.amount
    path := "/scholarships/" ++ numberToString scholarship.id }

/-- The subtitle of an application entry (TopBar.jsx line 85). The expression
parses as `(scholarship?.name || applicant) ? applicant-name : 'N/A'`; `none`
is the `TypeError` raised on reading `firstName` of an absent applicant. -/
def applicationSubtitle (application : ApplicationHit) : Option JsValue :=
  let scholarshipName :=
    match application.scholarship with
    | some scholarship => scholarship.name
    | none => JsValue.undefined
  if scholarshipName.truthy || application.applicant.isSome then
    match application.applicant with
    | some applicant =>
      some (JsValue.str (applicant.firstName.toJsString ++ " " ++ applicant.lastName.toJsString))
    | none => none
  else
    some (JsValue.str "N/A")

/-- The entry pushed for an application (TopBar.jsx lines 81-88), or `none`
when building it raises. -/
def applicationResult (application : ApplicationHit) : Option SearchResult :=
  (applicationSubtitle application).map (fun subtitle =>
    { type := "application"
      id := application.id
      title := JsValue.str ("Application #" ++ numberToString application.id)
      subtitle := subtitle
      path := "/applications/" ++ numberToString application.id })

/-- The entry pushed for a payment (TopBar.jsx lines 94-101). -/
def paymentResult (payment : PaymentHit) : SearchResult :=
  { type := "payment"
    id := payment.id
    title := JsValue.str ("Payment #" ++ numberToString payment.id)
    subtitle := amountSubtitle payment.amount
    path := "/payments/" ++ numberToString payment.id }

/-- The entry pushed for a location (TopBar.jsx lines 107-114). -/
def locationResult (location : LocationHit) : SearchResult :=
  { type := "location"
    id := location.id
    title := location.name
    subtitle := JsValue.str (location.code.toJsString ++ " - " ++ location.type.toJsString)
    path := "/locations/" ++ numberToString location.id }

/-- The loop `content.forEach(application => results.push(...))` over the
application records: the entries pushed, or `none` when one of them raises. -/
def pushApplications : List ApplicationHit → Option (List SearchResult)
  | [] => some []
  | application :: rest =>
    match applicationResult application with
    | some entry => (pushApplications rest).map (fun entries => entry :: entries)
    | none => none

/-- The body of the `try` block after the join (TopBar.jsx lines 51-116): the
array `results`, or `none` when a `TypeError` interrupts the block. -/
def mergeResults (o : FanOutOutcome) : Option (List SearchResult) :=
  match pushApplications o.applications.records with
  | some applications =>
    some (o.users.records.map userResult ++ o.scholarships.records.map scholarshipResult
      ++ applications ++ o.payments.records.map paymentResult
      ++ o.locations.records.map locationResult)
  | none => none

/-- The timer callback after its `await` (TopBar.jsx lines 51-126), for the
five settled entries `o`. -/
def settleSearch (b : TopBar) (o : FanOutOutcome) : TopBar :=
  match mergeResults o with
  | some results =>
    { b with searchResults := results, showResults := decide (results.length > 0)
             isSearching := false }
  | none => { b with searchResults := [], showResults := false, isSearching := false }

/-- What the keyboard and click handlers of the search box do besides writing
component state. -/
inductive TopBarEffect where
  | preventDefault
  | navigate (path : String)
  | onSearch (result : SearchResult)
  deriving DecidableEq

/-- `handleResultClick` (TopBar.jsx lines 136-142). -/
def handleResultClick (b : TopBar) (result : SearchResult) : TopBar × List TopBarEffect :=
  ({ b with searchTerm := "", showResults := false, selectedIndex := -1 },
    TopBarEffect.navigate result.path
      :: (if b.hasOnSearch then [TopBarEffect.onSearch result] else []))

/-- `handleKeyDown` (TopBar.jsx lines 145-172) for the key name `key`. -/
def handleKeyDown (b : TopBar) (key : String) : TopBar × List TopBarEffect :=
  if !b.showResults || b.searchResults.length == 0 then
    (b, [])
  else if key == "ArrowDown" then
    ({ b with selectedIndex :=
        if b.selectedIndex < (b.searchResults.length : Int) - 1 then b.selectedIndex + 1
        else b.selectedIndex },
      [TopBarEffect.preventDefault])
  else if key == "ArrowUp" then
    ({ b with selectedIndex := if b.selectedIndex > 0 then b.selectedIndex - 1 else -1 },
      [TopBarEffect.preventDefault])
  else if key == "Enter" then
    if 0 ≤ b.selectedIndex ∧ b.selectedIndex < (b.searchResults.length : Int) then
      match b.searchResults[b.selectedIndex.toNat]? with
      | some result =>
        ((handleResultClick b result).1,
          TopBarEffect.preventDefault :: (handleResultClick b result).2)
      | none => (b, [TopBarEffect.preventDefault])
    else
      (b, [TopBarEffect.preventDefault])
  else if key == "Escape" then
    ({ b with showResults := false, selectedIndex := -1 }, [])
  else
    (b, [])

/-! ### NotificationContext.jsx -/

/-- A stored notification. -/
structure Notification where
  id : Int
  type : String
  title : String
  message : String
  read : Bool
  createdAt : String
  link : Option String := none
  deriving DecidableEq

/-- The object handed to `addNotification`; an `id` of its own replaces the
generated one, while a `read` or `createdAt` of its own is overwritten. -/
structure NotificationInput where
  id : Option Int := none
  type : String
  title : String
  message : String
  link : Option String := none

/-- State of the `NotificationProvider` (NotificationContext.jsx lines 16-18)
with the local storage it writes: `user` is the id of the logged-in user,
`storage uid` the parsed content of the key `notifications_uid`. -/
structure NotificationProvider where
  user : Option Int := none
  notifications : List Notification := []
  unreadCount : Nat := 0
  storage : Int → Option (List Notification) := fun _ => none

/-- The count `list.filter(n => !n.read).length`. -/
def countUnread (list : List Notification) : Nat :=
  (list.filter (fun n => !n.read)).length

/-- `loadNotifications` (lines 30-43). -/
def loadNotifications (p : NotificationProvider) : NotificationProvider :=
  match p.user with
  | none => p
  | some uid =>
    match p.storage uid with
    | some parsed => { p with notifications := parsed, unreadCount := countUnread parsed }
    | none => p

/-- `saveNotifications` (lines 45-50). -/
def saveNotifications (p : NotificationProvider) (newNotifications : List Notification) :
    NotificationProvider :=
  match p.user with
  | none => p
  | some uid =>
    { p with
        storage := fun key => if key = uid then some newNotifications else p.storage key
        notifications := newNotifications
        unreadCount := countUnread newNotifications }

/-- The object `newNotification` of `addNotification` (lines 55-60), for the
clock reading `now` (`Date.now()`) and its ISO text `createdAt`. -/
def newNotification (now : Int) (createdAt : String) (n : NotificationInput) : Notification :=
  { id := n.id.getD now, type := n.type, title := n.title, message := n.message,
    read := false, createdAt := createdAt, link := n.link }

/-- `addNotification` (lines 52-64). -/
def addNotification (p : NotificationProvider) (now : Int) (createdAt : String)
    (n : NotificationInput) : NotificationProvider :=
  match p.user with
  | none => p
  | some _ => saveNotifications p ((newNotification now createdAt n :: p.notifications).take 50)

/-- `markAsRead` (lines 66-71). -/
def markAsRead (p : NotificationProvider) (id : Int) : NotificationProvider :=
  saveNotifications p (p.notifications.map (fun n => if n.id = id then { n with read := true } else n))

/-- `markAllAsRead` (lines 73-76). -/
def markAllAsRead (p : NotificationProvider) : NotificationProvider :=
  saveNotifications p (p.notifications.map (fun n => { n with read := true }))

/-- `clearNotifications` (lines 78-83). -/
def clearNotifications (p : NotificationProvider) : NotificationProvider :=
  match p.user with
  | none => p
  | some uid =>
    { p with
        storage := fun key => if key = uid then none else p.storage key
        notifications := []
        unreadCount := 0 }

/-- `removeNotification` (lines 85-88). -/
def removeNotification (p : NotificationProvider) (id : Int) : NotificationProvider :=
  saveNotifications p (p.notifications.filter (fun n => n.id != id))

/-! ### AuthContext.jsx -/

/-- An element of `user.roles`: a role name, or a role object with its `name`
property. -/
inductive RoleEntry where
  | name (s : String)
  | object (name : JsValue)
  deriving DecidableEq

/-- The stored user as far as the role checks read it; `roles` is `none` when
the property is missing. -/
structure AuthUser where
  id : Int
  email : String
  roles : Option (List RoleEntry)

/-- State of the `AuthProvider` (AuthContext.jsx lines 15-16). -/
structure Auth where
  user : Option AuthUser := none
  loading : Bool := false

/-- `hasRole` (AuthContext.jsx lines 103-111). -/
def hasRole (a : Auth) (roleName : String) : Bool :=
  match a.user with
  | none => false
  | some user =>
    match user.roles with
    | none => false
    | some roles =>
      roles.any (fun role =>
        match role with
        | .name s => s == roleName
        | .object n => n == JsValue.str roleName)

/-- `isAdmin` (AuthContext.jsx line 113). -/
def isAdmin (a : Auth) : Bool := hasRole a "ADMIN"

/-- `isApplicant` (AuthContext.jsx line 114). -/
def isApplicant (a : Auth) : Bool := hasRole a "APPLICANT"

/-- `isFinanceOfficer` (AuthContext.jsx line 116). -/
def isFinanceOfficer (a : Auth) : Bool := hasRole a "ADMIN" || hasRole a "FINANCE_OFFICER"

/-- `isReviewer` (AuthContext.jsx line 117). -/
def isReviewer (a : Auth) : Bool := hasRole a "ADMIN" || hasRole a "REVIEWER"

/-- `isScholarshipOfficer` (AuthContext.jsx line 118). -/
def isScholarshipOfficer (a : Auth) : Bool := hasRole a "SCHOLARSHIP_OFFICER"

/-! ### RoleViewContext.jsx -/

/-- State of the `RoleViewProvider` with the storage key it writes: `roleView`
is the state slot (`none` for `null`), `stored` the content of the key
`adminRoleView` (`none` when absent). -/
structure RoleViewProvider where
  roleView : Option String := none
  stored : Option String := none
  deriving DecidableEq

/-- The two mount effects (RoleViewContext.jsx lines 19-34), in order. -/
def RoleViewProvider.mount (a : Auth) (stored : Option String) : RoleViewProvider :=
  let roleView := if stored == some "finance-officer" then stored else none
  if !isAdmin a then { roleView := none, stored := none }
  else { roleView := roleView, stored := stored }

/-- `switchRoleView` (RoleViewContext.jsx lines 36-49); the argument is any
JavaScript value. -/
def switchRoleView (a : Auth) (s : RoleViewProvider) (view : JsValue) : RoleViewProvider :=
  if !isAdmin a then s
  else
    match view with
    | .str v =>
      if v == "finance-officer" then
        { roleView := some v, stored := if view.truthy then some v else none }
      else s
    | .null => { roleView := none, stored := none }
    | _ => s

/-- `resetToAdminView` (RoleViewContext.jsx lines 51-54). -/
def resetToAdminView (_s : RoleViewProvider) : RoleViewProvider :=
  { roleView := none, stored := none }

/-- `isFinanceOfficerView` (RoleViewContext.jsx line 56). -/
def isFinanceOfficerView (s : RoleViewProvider) : Bool :=
  s.roleView == some "finance-officer"

/-- `isAdminView` (RoleViewContext.jsx line 57): `!roleView || roleView === null`. -/
def isAdminView (s : RoleViewProvider) : Bool :=
  match s.roleView with
  | none => true
  | some v => v == ""

/-- A call made on the role-view context. -/
inductive RoleViewCall where
  | switch (a : Auth) (view : JsValue)
  | reset

/-- The state after a call. -/
def RoleViewProvider.call (s : RoleViewProvider) : RoleViewCall → RoleViewProvider
  | .switch a view => switchRoleView a s view
  | .reset => resetToAdminView s

/-- The role view and the stored key agree: both absent, or both
"finance-officer". -/
def RoleViewProvider.Consistent (s : RoleViewProvider) : Prop :=
  (s.roleView = none ∧ s.stored = none) ∨
    (s.roleView = some "finance-officer" ∧ s.stored = some "finance-officer")

/-! ### api.js -/

/-- The request configuration as far as the interceptor can touch it. -/
structure RequestConfig where
  url : String
  method : String
  headers : String → Option String
  params : List (String × String) := []
  body : Option String := none

/-- The assignment `config.headers[name] = value`. -/
def RequestConfig.setHeader (config : RequestConfig) (name value : String) : RequestConfig :=
  { config with headers := fun key => if key = name then some value else config.headers key }

/-- The local storage keys the interceptor reads; `none` is an absent key. -/
structure AuthStorage where
  token : Option String := none
  user : Option String := none

/-- What `JSON.parse` yields for the stored user, seen through the test
`user && user.id`: a falsy value, or a truthy value with its `id` property
(`undefined` when it has none). -/
inductive ParsedUser where
  | falsy
  | value (id : JsValue)

/-- The request interceptor (api.js lines 14-35). `jsonParse` is `JSON.parse`,
`none` standing for the `SyntaxError` it raises, which the `try` block
swallows. -/
def requestInterceptor (jsonParse : String → Option ParsedUser) (storage : AuthStorage)
    (config : RequestConfig) : RequestConfig :=
  let config1 :=
    match storage.token with
    | some token =>
      if token != "" then config.setHeader "Authorization" ("Bearer " ++ token) else config
    | none => config
  match storage.user with
  | some userStr =>
    if userStr != "" then
      match jsonParse userStr with
      | some (.value id) =>
        if id.truthy then config1.setHeader "X-User-Id" id.toJsString else config1
      | some .falsy => config1
      | none => config1
    else config1
  | none => config1

/-! ### Applications.jsx -/

/-- An object payload of a failed response: its `message` and `error`
properties and the text `JSON.stringify` gives for it. -/
structure PayloadObject where
  message : JsValue := JsValue.undefined
  error : JsValue := JsValue.undefined
  json : String

/-- The value `error.response?.data` of a failed request: falsy (no response,
or an empty body), a non-empty string, or another truthy value. -/
inductive Payload where
  | falsy
  | text (s : String)
  | object (o : PayloadObject)

/-- The failure caught by `handleApprove` and `handleReview`: the payload and
the `message` of the error object. -/
structure RequestFailure where
  data : Payload := Payload.falsy
  message : Option String := none

/-- The value `message` computed in the `catch` blocks (Applications.jsx lines
141-142 and 189-190), as the text the string concatenation yields. -/
def failureText (e : RequestFailure) : String :=
  match e.data with
  | .text s => s
  | .object o => if o.message.truthy then o.message.toJsString else o.json
  | .falsy =>
    match e.message with
    | some m => if m != "" then m else "Unknown error"
    | none => "Unknown error"

/-- The alert of `handleApprove` (Applications.jsx line 143). -/
def approveAlert (e : RequestFailure) : String :=
  "Failed to approve application: " ++ failureText e

/-- The alert of `handleReview` (Applications.jsx line 191). -/
def reviewAlert (e : RequestFailure) : String :=
  "Failed to review application: " ++ failureText e

/-- The choice the specification words: the payload's `message`, else the
payload's `error`, else the stringified payload, else a generic text. -/
def specFailureText (e : RequestFailure) (generic : String) : String :=
  match e.data with
  | .object o =>
    if o.message.truthy then o.message.toJsString
    else if o.error.truthy then o.error.toJsString
    else o.json
  | .text s => s
  | .falsy => generic

/-! ### Sidebar.jsx, ProtectedRoute.jsx, App.jsx -/

/-- An entry of `allMenuItems` (Sidebar.jsx lines 21-27), without its icon. -/
structure MenuItem where
  path : String
  label : String
  roles : List String
  views : List String
  deriving DecidableEq

/-- `allMenuItems` (Sidebar.jsx lines 21-27). -/
def allMenuItems : List MenuItem :=
  [⟨"/dashboard", "Dashboard", ["all"], ["all"]⟩,
   ⟨"/users", "Users", ["ADMIN", "SCHOLARSHIP_OFFICER"], ["admin"]⟩,
   ⟨"/scholarships", "Scholarships", ["all"], ["all"]⟩,
   ⟨"/applications", "Applications", ["all"], ["all"]⟩,
   ⟨"/payments", "Payments", ["ADMIN", "APPLICANT"], ["admin", "finance-officer"]⟩]

/-- `menuItems` (Sidebar.jsx lines 30-39): the view filter. -/
def menuItems (a : Auth) (s : RoleViewProvider) : List MenuItem :=
  allMenuItems.filter (fun item =>
    if isAdmin a && isFinanceOfficerView s && !item.views.contains "finance-officer" &&
        !item.views.contains "all" then false
    else if isAdmin a && isAdminView s && !item.views.contains "admin" &&
        !item.views.contains "all" then false
    else true)

/-- `canAccess` (Sidebar.jsx lines 41-50). -/
def canAccess (a : Auth) (roles : List String) : Bool :=
  if roles.contains "all" then true
  else if isAdmin a then true
  else if roles.contains "APPLICANT" && isApplicant a then true
  else if roles.contains "REVIEWER" && isReviewer a then true
  else if roles.contains "FINANCE_OFFICER" && (isAdmin a || isFinanceOfficer a) then true
  else if roles.contains "SCHOLARSHIP_OFFICER" && isScholarshipOfficer a then true
  else false

/-- `filteredMenuItems` (Sidebar.jsx line 52): the links the sidebar renders. -/
def filteredMenuItems (a : Auth) (s : RoleViewProvider) : List MenuItem :=
  (menuItems a s).filter (fun item => canAccess a item.roles)

/-- What a `ProtectedRoute` renders. -/
inductive RouteOutcome where
  | spinner
  | toLogin
  | accessDenied
  | children
  deriving DecidableEq

/-- `ProtectedRoute` (ProtectedRoute.jsx lines 5-49). -/
def protectedRoute (a : Auth) (requiredRoles : List String) : RouteOutcome :=
  if a.loading then RouteOutcome.spinner
  else if a.user.isNone then RouteOutcome.toLogin
  else if requiredRoles.length > 0 then
    if isAdmin a || requiredRoles.any (fun role => hasRole a role) then RouteOutcome.children
    else RouteOutcome.accessDenied
  else RouteOutcome.children

/-- A `Route` of App.jsx: its path pattern and the `requiredRoles` of the
`ProtectedRoute` around its page; `none` for a route without a
`ProtectedRoute`, the empty list for a `ProtectedRoute` without the prop. -/
structure AppRoute where
  path : String
  requiredRoles : Option (List String)
  deriving DecidableEq

/-- The routes of App.jsx (lines 38-252), in order. -/
def routes : List AppRoute :=
  [⟨"/login", none⟩, ⟨"/signup", none⟩, ⟨"/forgot-password", none⟩, ⟨"/reset-password", none⟩,
   ⟨"/dashboard", some []⟩,
   ⟨"/users", some ["ADMIN", "SCHOLARSHIP_OFFICER"]⟩,
   ⟨"/scholarships", some []⟩,
   ⟨"/scholarships/new", some ["ADMIN", "SCHOLARSHIP_OFFICER"]⟩,
   ⟨"/scholarships/:id", some []⟩,
   ⟨"/applications", some []⟩,
   ⟨"/applications/new", some []⟩,
   ⟨"/applications/:id", some []⟩,
   ⟨"/payments", some ["ADMIN", "APPLICANT"]⟩,
   ⟨"/payments/new", some ["ADMIN"]⟩,
   ⟨"/payments/:id", some ["ADMIN", "APPLICANT"]⟩,
   ⟨"/users/new", some ["ADMIN"]⟩,
   ⟨"/profile/:id", some ["ADMIN", "SCHOLARSHIP_OFFICER"]⟩,
   ⟨"/users/:id", some ["ADMIN", "SCHOLARSHIP_OFFICER"]⟩,
   ⟨"/users/:id/edit", some ["ADMIN", "SCHOLARSHIP_OFFICER"]⟩,
   ⟨"/locations", some ["ADMIN", "SCHOLARSHIP_OFFICER"]⟩,
   ⟨"/locations/new", some ["ADMIN", "SCHOLARSHIP_OFFICER"]⟩,
   ⟨"/locations/:id", some ["ADMIN", "SCHOLARSHIP_OFFICER"]⟩,
   ⟨"/profile", some []⟩,
   ⟨"/profile/edit", some []⟩,
   ⟨"/", none⟩]

/-- The route a sidebar link leads to. The link paths have one literal
segment, so the only pattern that matches one is the pattern equal to it. -/
def routeFor (path : String) : Option AppRoute :=
  routes.find? (fun route => route.path == path)

/-- Whether the page of a route is rendered for the user. -/
def routeGrants (a : Auth) (route : AppRoute) : Bool :=
  match route.requiredRoles with
  | none => true
  | some requiredRoles => protectedRoute a requiredRoles == RouteOutcome.children

/-! ### Example inputs -/

/-- A component on page 7 of 10, used to instantiate the strip theorems. -/
def stripExample : Table :=
  { columns := [], data := [], currentPage := 7, totalPages := 10 }

/-- A component with a search term and other totals, on page 7 of 10 too. -/
def stripExample2 : Table :=
  { columns := [], data := [[("id", JsValue.num 1)]], currentPage := 7, totalPages := 10,
    totalElements := 30, pageSize := 3, searchTerm := "x" }

/-- The `render` of the amount column of the payments and scholarships pages
(Payments.jsx line 91, Scholarships.jsx line 110). -/
def renderAmount (value : JsValue) (_row : Row) : JsValue :=
  if value.truthy then
    match value with
    | .num n => JsValue.str (toLocaleString n ++ " RWF")
    | v => JsValue.str (v.toJsString ++ " RWF")
  else JsValue.str "N/A"

/-- The amount column with its `render` function. -/
def amountColumn : Column :=
  { key := "amount", render := some renderAmount }

/-- The amount column without a `render` function. -/
def plainAmountColumn : Column :=
  { key := "amount", render := none }

/-- A payment row with amount 250000. -/
def paymentRow : Row :=
  [("id", JsValue.num 1), ("amount", JsValue.num 250000), ("status", JsValue.str "PENDING")]

/-- A user row. -/
def userRow (id : Int) (firstName email : String) : Row :=
  [("id", JsValue.num id), ("firstName", JsValue.str firstName), ("email", JsValue.str email)]

/-- Seven user rows, two of which contain "ann". -/
def sevenUsers : List Row :=
  [userRow 1 "Anne" "anne@example.org", userRow 2 "Bob" "bob@example.org",
   userRow 3 "Carl" "carl@example.org", userRow 4 "Dina" "dina@example.org",
   userRow 5 "Joanna" "jo@example.org", userRow 6 "Eric" "eric@example.org",
   userRow 7 "Fred" "fred@example.org"]

/-- Plain columns of the user rows. -/
def userColumns : List Column :=
  [{ key := "id", render := none }, { key := "firstName", render := none },
   { key := "email", render := none }]

/-- A client-side table over the seven users, searched for "Ann", with the
backend totals of a seven-row set. -/
def searchExample : Table :=
  { columns := userColumns, data := sevenUsers, totalPages := 3, totalElements := 7,
    pageSize := 3, hasOnPageChange := true, hasOnSearch := true, searchTerm := "Ann" }

/-- A client-side table holding four rows that all match "example", paged by
two, whose backend reported a single page. -/
def filteredPagesExample : Table :=
  { columns := userColumns, data := sevenUsers.take 4, totalPages := 1, totalElements := 4,
    pageSize := 2, hasOnPageChange := true, searchTerm := "example" }

/-- A backend-mode table with both callbacks supplied. -/
def backendExample : Table :=
  { columns := userColumns, data := sevenUsers.take 3, totalPages := 3, totalElements := 7,
    pageSize := 3, hasOnPageChange := true, hasOnSearch := true, clientSideSearch := false }

/-- The `Users` page on its third page. -/
def usersOnPageTwo : UsersPage :=
  { currentPage := 2, totalPages := 3, totalElements := 7 }

/-- Two provinces. -/
def twoProvinces : List Location :=
  [{ id := 1, name := "Kigali", code := "01", type := "PROVINCE" },
   { id := 2, name := "East", code := "05", type := "PROVINCE" }]

/-- A dropdown drilled down to a village of province 1. -/
def drilledDown : Dropdown :=
  { provinces := twoProvinces
    districts := [{ id := 10, name := "Gasabo", code := "0101", type := "DISTRICT" }]
    sectors := [{ id := 100, name := "Remera", code := "010101", type := "SECTOR" }]
    cells := [{ id := 1000, name := "Rukiri", code := "01010101", type := "CELL" }]
    villages := [{ id := 10000, name := "Amahoro", code := "0101010101", type := "VILLAGE" }]
    selectedProvince := "1", selectedDistrict := "10", selectedSector := "100"
    selectedCell := "1000", selectedVillage := "10000" }

/-- A backend that knows the districts of province 05 and the villages of
cell 1000, and fails every other request. -/
def eastApi : Api := fun url =>
  if url == "/locations/provinces/05/districts" then
    ApiResponse.ok (some [{ id := 50, name := "Bugesera", code := "0501", type := "DISTRICT" }])
  else if url == "/locations/cells/1000/villages" then
    ApiResponse.ok (some [⟨10000, "Amahoro", "0101010101", "VILLAGE"⟩])
  else ApiResponse.failed

/-- A backend that fails every request. -/
def downApi : Api := fun _ => ApiResponse.failed

/-- A top bar showing one result, with timer 4 pending for the term "ann". -/
def pendingSearch : TopBarEnv :=
  { bar :=
      { searchTerm := "ann"
        searchResults := [⟨"user", 1, JsValue.str "Anne A", JsValue.str "a@x.org", "/users/1"⟩]
        showResults := true, searchTimeoutRef := some 4 }
    now := 1000
    timers := [{ id := 4, due := 1200, term := "ann" }]
    nextTimerId := 5 }

/-- Three keystrokes typing "ann", 120 ms and 80 ms apart. -/
def typingAnn : List (Nat × Option String) :=
  [(120, some "an"), (80, some "ann")]

/-- A user found by the search. -/
def anneHit : UserHit :=
  { id := 1, firstName := JsValue.str "Anne", lastName := JsValue.str "Abe",
    email := JsValue.str "anne@example.org" }

/-- A location found by the search. -/
def kigaliHit : LocationHit :=
  { id := 3, name := JsValue.str "Kigali", code := JsValue.str "01",
    type := JsValue.str "PROVINCE" }

/-- An application record with a scholarship name and no applicant object. -/
def orphanApplication : ApplicationHit :=
  { id := 7, scholarship := some { name := JsValue.str "Merit Award" } }

/-- The same application record with its applicant. -/
def ownedApplication : ApplicationHit :=
  { id := 7, scholarship := some { name := JsValue.str "Merit Award" },
    applicant := some { firstName := JsValue.str "Bob", lastName := JsValue.str "Ba" } }

/-- A fan-out in which the scholarship and payment requests were rejected and
the application found has a scholarship name but no applicant object. -/
def mixedOutcome : FanOutOutcome :=
  { users := Settled.fulfilled (some [anneHit])
    scholarships := Settled.rejected
    applications := Settled.fulfilled (some [orphanApplication])
    payments := Settled.rejected
    locations := Settled.fulfilled (some [kigaliHit]) }

/-- The same fan-out, the application now carrying its applicant. -/
def completeOutcome : FanOutOutcome :=
  { mixedOutcome with applications := Settled.fulfilled (some [ownedApplication]) }

/-- A top bar whose fan-out is in flight. -/
def searchingBar : TopBar :=
  { searchTerm := "me", isSearching := true }

/-- A top bar with the panel open on three results, the second highlighted. -/
def openPanel : TopBar :=
  { hasOnSearch := true, searchTerm := "me", showResults := true, selectedIndex := 1
    searchResults := (mergeResults completeOutcome).getD [] }

/-- A notification synthesised after a deletion. -/
def deletedNotice : NotificationInput :=
  { type := "success", title := "User Deleted", message := "User Bob B has been deleted." }

/-- The inbox of user 9 holding fifty read notifications numbered 1 to 50. -/
def fullInbox : NotificationProvider :=
  { user := some 9
    notifications := (List.range 50).map (fun (i : Nat) =>
      { id := (i : Int) + 1, type := "info", title := "t", message := "m", read := true,
        createdAt := "2024-01-01T00:00:00.000Z" }) }

/-- A backend whose hierarchy for location 50 holds a province and a district
only, and which answers the two child requests along that chain. -/
def midTreeApi : Api := fun url =>
  if url == "/locations/50/hierarchy" then
    ApiResponse.ok (some [⟨2, "East", "05", "PROVINCE"⟩, ⟨50, "Bugesera", "0501", "DISTRICT"⟩])
  else if url == "/locations/provinces/05/districts" then
    ApiResponse.ok (some [⟨50, "Bugesera", "0501", "DISTRICT"⟩])
  else if url == "/locations/districts/50/sectors" then
    ApiResponse.ok (some [⟨500, "Nyamata", "050101", "SECTOR"⟩])
  else ApiResponse.failed

/-- The same hierarchy answer from a backend that fails every other request. -/
def hierarchyOnlyApi : Api := fun url =>
  if url == "/locations/50/hierarchy" then
    ApiResponse.ok (some [⟨2, "East", "05", "PROVINCE"⟩, ⟨50, "Bugesera", "0501", "DISTRICT"⟩])
  else ApiResponse.failed

/-- A freshly mounted dropdown whose provinces are loaded. -/
def freshDropdown : Dropdown :=
  { value := "50", provinces := twoProvinces }

/-- An inbox of user 9 with three notifications, two of them unread. -/
def smallInbox : NotificationProvider :=
  { user := some 9
    notifications :=
      [⟨3, "info", "c", "m", false, "2024-01-03T00:00:00.000Z", none⟩,
       ⟨2, "info", "b", "m", true, "2024-01-02T00:00:00.000Z", none⟩,
       ⟨1, "info", "a", "m", false, "2024-01-01T00:00:00.000Z", none⟩]
    unreadCount := 2 }

/-- A logged-in administrator. -/
def adminAuth : Auth :=
  { user := some { id := 1, email := "admin@example.org", roles := some [RoleEntry.name "ADMIN"] } }

/-- A logged-in applicant. -/
def applicantAuth : Auth :=
  { user := some { id := 2, email := "anne@example.org", roles := some [RoleEntry.name "APPLICANT"] } }

/-- A request about to be sent, carrying a header of its own. -/
def listUsersRequest : RequestConfig :=
  { url := "/users", method := "get", params := [("page", "0"), ("size", "3")]
    headers := fun key => if key = "Content-Type" then some "application/json" else none }

/-- A `JSON.parse` that knows three stored texts. -/
def sampleParse : String → Option ParsedUser := fun text =>
  if text == "user-7" then some (ParsedUser.value (JsValue.num 7))
  else if text == "user-0" then some (ParsedUser.value (JsValue.num 0))
  else if text == "null" then some ParsedUser.falsy
  else none

/-- A failed response whose body is the object with the single property
`error: "Forbidden"`. -/
def forbiddenFailure : RequestFailure :=
  { data := Payload.object
      { error := JsValue.str "Forbidden", json := "\x7b\x22error\x22:\x22Forbidden\x22\x7d" }
    message := some "Request failed with status code 403" }

/-- A backend for an edit form whose stored location is district 50. -/
def editFormApi : Api := fun url =>
  if url == "/locations/provinces" then ApiResponse.ok (some twoProvinces)
  else if url == "/locations/50/hierarchy" then
    ApiResponse.ok (some [⟨2, "East", "05", "PROVINCE"⟩, ⟨50, "Bugesera", "0501", "DISTRICT"⟩])
  else if url == "/locations/provinces/05/districts" then
    ApiResponse.ok (some [⟨50, "Bugesera", "0501", "DISTRICT"⟩])
  else if url == "/locations/provinces/01/districts" then
    ApiResponse.ok (some [⟨10, "Gasabo", "0101", "DISTRICT"⟩])
  else if url == "/locations/districts/50/sectors" then
    ApiResponse.ok (some [⟨500, "Nyamata", "050101", "SECTOR"⟩])
  else ApiResponse.failed

/-- The edit form once its provinces are loaded and its stored location is
resolved. -/
def resolvedForm : Dropdown :=
  (Dropdown.step editFormApi { value := "50" } WidgetEvent.loadProvinces).1

/-- A logged-in scholarship officer. -/
def officerAuth : Auth :=
  { user := some { id := 3, email := "olga@example.org",
                   roles := some [RoleEntry.name "SCHOLARSHIP_OFFICER"] } }

/-! ## Part II. Theorems -/

theorem pushFromTo_five (a b : Int) (h : b = a + 4) :
    pushFromTo a b = [a, a + 1, a + 2, a + 3, a + 4] := by
  have h5 : (b - a + 1).toNat = 5 := by omega
  simp [pushFromTo, h5, List.range_succ]

theorem mem_pushUpTo (total p : Int) : p ∈ pushUpTo total ↔ 0 ≤ p ∧ p < total := by
  unfold pushUpTo
  simp only [List.mem_map, List.mem_range]
  constructor
  · rintro ⟨i, hi, rfl⟩
    omega
  · rintro ⟨h0, h1⟩
    refine ⟨p.toNat, by omega, ?_⟩
    beta_reduce
    omega

theorem mem_pushFromTo (a b p : Int) : p ∈ pushFromTo a b ↔ a ≤ p ∧ p ≤ b := by
  unfold pushFromTo
  simp only [List.mem_map, List.mem_range]
  constructor
  · rintro ⟨i, hi, rfl⟩
    omega
  · rintro ⟨h0, h1⟩
    refine ⟨(p - a).toNat, by omega, ?_⟩
    beta_reduce
    omega

theorem ceilDiv_eq_ceil (a b : Nat) (hb : 0 < b) :
    ((ceilDiv a b : Nat) : Int) = ⌈(a : ℚ) / (b : ℚ)⌉ := by
  symm
  rw [Int.ceil_eq_iff]
  have hbq : (0 : ℚ) < (b : ℚ) := by exact_mod_cast hb
  have h1 := Nat.div_add_mod (a + b - 1) b
  have h2 := Nat.mod_lt (a + b - 1) hb
  unfold ceilDiv
  set q := (a + b - 1) / b with hq
  constructor
  · rw [lt_div_iff₀ hbq]
    have : (b * q : Nat) < a + b := by omega
    have h3 : ((b * q : Nat) : ℚ) < ((a + b : Nat) : ℚ) := by exact_mod_cast this
    push_cast at h3 ⊢
    linarith
  · rw [div_le_iff₀ hbq]
    have : a ≤ b * q := by omega
    have h3 : ((a : Nat) : ℚ) ≤ ((b * q : Nat) : ℚ) := by exact_mod_cast this
    push_cast at h3 ⊢
    linarith

/-! ### Page strip (Table.jsx `getPageNumbers`) -/

theorem getPageNumbers_small (t : Table) (h : t.totalPages ≤ 5) :
    getPageNumbers t = pushUpTo t.totalPages := by
  unfold getPageNumbers
  simp only [if_pos h]

theorem getPageNumbers_large (t : Table) (h : 5 < t.totalPages) :
    getPageNumbers t =
      pushFromTo (max 0 (min (t.currentPage - 2) (t.totalPages - 5)))
        (max 0 (min (t.currentPage - 2) (t.totalPages - 5)) + 4) := by
  have hnot : ¬ t.totalPages ≤ 5 := by omega
  unfold getPageNumbers
  simp only [if_neg hnot]
  congr 1
  · split <;> omega
  · omega

/-- C3. Every page number returned by `getPageNumbers` lies in
`[0, totalPages)`, and two components that agree on `currentPage` and
`totalPages` get the same strip, whatever their other props and state. This
holds for every integer `currentPage` and `totalPages`, the non-negative ones
in particular. -/
theorem getPageNumbers_in_range_and_pure (t : Table) :
    (∀ p ∈ getPageNumbers t, 0 ≤ p ∧ p < t.totalPages) ∧
    (∀ t2 : Table, t2.currentPage = t.currentPage → t2.totalPages = t.totalPages →
      getPageNumbers t2 = getPageNumbers t) := by
  constructor
  · intro p hp
    by_cases h : t.totalPages ≤ 5
    · rw [getPageNumbers_small t h] at hp
      exact (mem_pushUpTo _ _).1 hp
    · rw [getPageNumbers_large t (by omega), mem_pushFromTo] at hp
      omega
  · intro t2 h1 h2
    unfold getPageNumbers
    rw [h1, h2]

theorem getPageNumbers_in_range_and_pure_witness :
    (∀ p ∈ getPageNumbers stripExample, 0 ≤ p ∧ p < 10) ∧
    getPageNumbers stripExample2 = getPageNumbers stripExample :=
  ⟨(getPageNumbers_in_range_and_pure stripExample).1,
    (getPageNumbers_in_range_and_pure stripExample).2 stripExample2 rfl rfl⟩

/-- C4. The strip has at most 5 entries: it is a run of exactly
`min 5 totalPages` consecutive ascending page numbers from some first page.
This holds for every integer `currentPage` and `totalPages`, the non-negative
ones in particular. -/
theorem getPageNumbers_length_and_run (t : Table) :
    (getPageNumbers t).length ≤ 5 ∧
    (getPageNumbers t).length = (min 5 t.totalPages).toNat ∧
    ∃ first : Int, getPageNumbers t =
      (List.range (min 5 t.totalPages).toNat).map (fun (i : Nat) => first + (i : Int)) := by
  have key : ∃ first : Int, getPageNumbers t =
      (List.range (min 5 t.totalPages).toNat).map (fun (i : Nat) => first + (i : Int)) := by
    by_cases h : t.totalPages ≤ 5
    · refine ⟨0, ?_⟩
      have h5 : (min 5 t.totalPages).toNat = t.totalPages.toNat := by
        congr 1
        omega
      rw [getPageNumbers_small t h, h5]
      unfold pushUpTo
      simp
    · refine ⟨max 0 (min (t.currentPage - 2) (t.totalPages - 5)), ?_⟩
      have h5 : (min 5 t.totalPages).toNat = 5 := by omega
      rw [getPageNumbers_large t (by omega), h5]
      unfold pushFromTo
      congr 2
      omega
  obtain ⟨first, hfirst⟩ := key
  refine ⟨?_, ?_, first, hfirst⟩
  · rw [hfirst]
    simp only [List.length_map, List.length_range]
    omega
  · rw [hfirst]
    simp only [List.length_map, List.length_range]

/-- C5. With more than 5 pages and a current page inside the range, the strip
contains the current page; it is the window centred on it away from the ends,
`[0..4]` near the start and the last five pages near the end. -/
theorem getPageNumbers_window (t : Table)
    (ht : 5 < t.totalPages) (hc0 : 0 ≤ t.currentPage) (hc1 : t.currentPage < t.totalPages) :
    t.currentPage ∈ getPageNumbers t ∧
    (2 ≤ t.currentPage ∧ t.currentPage ≤ t.totalPages - 3 →
      getPageNumbers t = [t.currentPage - 2, t.currentPage - 1, t.currentPage,
        t.currentPage + 1, t.currentPage + 2]) ∧
    (t.currentPage < 2 → getPageNumbers t = [0, 1, 2, 3, 4]) ∧
    (t.currentPage > t.totalPages - 3 →
      getPageNumbers t = [t.totalPages - 5, t.totalPages - 4, t.totalPages - 3,
        t.totalPages - 2, t.totalPages - 1]) := by
  rw [getPageNumbers_large t ht, pushFromTo_five _ _ rfl]
  refine ⟨?_, ?_, ?_, ?_⟩
  · simp only [List.mem_cons, List.mem_singleton, List.not_mem_nil, or_false]
    omega
  · rintro ⟨h2, h3⟩
    have h : max 0 (min (t.currentPage - 2) (t.totalPages - 5)) = t.currentPage - 2 := by omega
    rw [h]
    simp only [List.cons.injEq, and_true, true_and]
    omega
  · intro h2
    have h : max 0 (min (t.currentPage - 2) (t.totalPages - 5)) = 0 := by omega
    rw [h]
    simp
  · intro h3
    have h : max 0 (min (t.currentPage - 2) (t.totalPages - 5)) = t.totalPages - 5 := by omega
    rw [h]
    simp only [List.cons.injEq, and_true, true_and]
    omega

theorem getPageNumbers_window_witness :
    stripExample.currentPage ∈ getPageNumbers stripExample ∧
    (2 ≤ stripExample.currentPage ∧ stripExample.currentPage ≤ stripExample.totalPages - 3 →
      getPageNumbers stripExample = [stripExample.currentPage - 2, stripExample.currentPage - 1,
        stripExample.currentPage, stripExample.currentPage + 1, stripExample.currentPage + 2]) ∧
    (stripExample.currentPage < 2 → getPageNumbers stripExample = [0, 1, 2, 3, 4]) ∧
    (stripExample.currentPage > stripExample.totalPages - 3 →
      getPageNumbers stripExample = [stripExample.totalPages - 5, stripExample.totalPages - 4,
        stripExample.totalPages - 3, stripExample.totalPages - 2,
        stripExample.totalPages - 1]) :=
  getPageNumbers_window stripExample (by decide) (by decide) (by decide)

/-! ### Page changes (Table.jsx `handlePageChange`) -/

theorem handlePageChange_outside (t : Table) (n : Int) (h : n < 0 ∨ t.totalPages ≤ n) :
    handlePageChange t n = [] := by
  unfold handlePageChange
  have : (decide (0 ≤ n) && decide (n < t.totalPages) && t.hasOnPageChange) = false := by
    rcases h with h | h
    · have : decide (0 ≤ n) = false := by simp; omega
      simp [this]
    · have : decide (n < t.totalPages) = false := by simp; omega
      simp [this]
  simp [this]

theorem handlePageChange_inside (t : Table) (n : Int) (h0 : 0 ≤ n) (h1 : n < t.totalPages)
    (hp : t.hasOnPageChange = true) :
    handlePageChange t n = [TableEffect.onPageChange n] := by
  unfold handlePageChange
  simp [h0, h1, hp]

/-- C6. In client-side mode with the search term "example", four matching
rows paged by two give `effectiveTotalPages = 2`; the "Next page" button is
enabled and asks for page 1, which lies in `[0, effectiveTotalPages)`, yet
`handlePageChange 1` calls nothing, because its guard compares with the
backend `totalPages` (here 1). -/
theorem handlePageChange_ignores_filtered_range :
    filteredPagesExample.clientSideSearch = true ∧
    filteredPagesExample.hasOnPageChange = true ∧
    effectiveTotalPages filteredPagesExample = 2 ∧
    nextButton filteredPagesExample = (1, false) ∧
    handlePageChange filteredPagesExample 1 = [] := by
  decide

/-! ### Search (Table.jsx `handleSearch`, Users.jsx `handleSearch`) -/

/-- C7, as stated, fails: in backend mode with both callbacks supplied, the
new term "ann" is handed to `onSearch` and no `onPageChange 0` is emitted. -/
theorem handleSearch_backend_no_page_reset :
    backendExample.hasOnPageChange = true ∧
    (handleSearch backendExample "ann").2 =
      [TableEffect.setSearchTerm "ann", TableEffect.onSearch "ann"] ∧
    TableEffect.onPageChange 0 ∉ (handleSearch backendExample "ann").2 := by
  decide

/-- C7, amended. With `onPageChange` supplied (and, in backend mode,
`onSearch` supplied): in client-side mode `handleSearch` stores the term and
emits `onPageChange 0` and never `onSearch`; in backend mode it stores the
term and emits only `onSearch`, never `onPageChange`; in both modes, once the
emitted callbacks reach the owning page (`Users`: `onSearch` is its
`handleSearch`, `onPageChange` its `setCurrentPage`), that page's
`currentPage` is 0. -/
theorem handleSearch_page_reset (t : Table) (u : UsersPage) (value : String)
    (hp : t.hasOnPageChange = true)
    (hs : t.clientSideSearch = false → t.hasOnSearch = true) :
    (handleSearch t value).1.searchTerm = value ∧
    (t.clientSideSearch = true →
      (handleSearch t value).2 =
        [TableEffect.setSearchTerm value, TableEffect.onPageChange 0]) ∧
    (t.clientSideSearch = false →
      (handleSearch t value).2 =
        [TableEffect.setSearchTerm value, TableEffect.onSearch value]) ∧
    (u.deliver (handleSearch t value).2).currentPage = 0 := by
  cases hc : t.clientSideSearch
  · have hs2 := hs hc
    simp [handleSearch, hc, hp, hs2, UsersPage.deliver, UsersPage.handleSearch]
  · simp [handleSearch, hc, hp, UsersPage.deliver, UsersPage.setCurrentPage]

theorem handleSearch_page_reset_witness :
    (handleSearch backendExample "ann").1.searchTerm = "ann" ∧
    (backendExample.clientSideSearch = true →
      (handleSearch backendExample "ann").2 =
        [TableEffect.setSearchTerm "ann", TableEffect.onPageChange 0]) ∧
    (backendExample.clientSideSearch = false →
      (handleSearch backendExample "ann").2 =
        [TableEffect.setSearchTerm "ann", TableEffect.onSearch "ann"]) ∧
    (usersOnPageTwo.deliver (handleSearch backendExample "ann").2).currentPage = 0 :=
  handleSearch_page_reset backendExample usersOnPageTwo "ann" (by decide) (by decide)

/-! ### Client-side totals (Table.jsx `effectiveTotalPages`, `effectiveTotalElements`) -/

theorem filterData_of_nonblank (data : List Row) (term : String) (columns : List Column)
    (h : jsTrim term ≠ "") :
    filterData data term columns =
      data.filter (fun row =>
        columns.any (fun col => cellMatches (jsTrim (toLowerCase term)) row col)) := by
  have hne : term ≠ "" := by
    intro h0
    apply h
    rw [h0]
    decide
  unfold filterData
  simp [hne, h]

/-- C8. In client-side mode with a non-empty search term and a positive page
size, whatever totals the backend supplied, `effectiveTotalElements` is the
number of rows `filterData` keeps and `effectiveTotalPages` is the ceiling of
that number over the page size; for a non-blank term the rows kept are those
with a matching cell in some column. -/
theorem effective_totals_client_side (t : Table) (totalElements totalPages : Int)
    (hc : t.clientSideSearch = true) (hs : t.searchTerm ≠ "") (hp : 0 < t.pageSize) :
    effectiveTotalElements { t with totalElements := totalElements, totalPages := totalPages } =
      ((filterData t.data t.searchTerm t.columns).length : Int) ∧
    effectiveTotalPages { t with totalElements := totalElements, totalPages := totalPages } =
      ⌈((filterData t.data t.searchTerm t.columns).length : ℚ) / (t.pageSize : ℚ)⌉ ∧
    (jsTrim t.searchTerm ≠ "" →
      (filterData t.data t.searchTerm t.columns).length =
        t.data.countP (fun row =>
          t.columns.any (fun col => cellMatches (jsTrim (toLowerCase t.searchTerm)) row col))) := by
  refine ⟨?_, ?_, ?_⟩
  · simp [effectiveTotalElements, filteredData, hc, hs]
  · rw [← ceilDiv_eq_ceil _ _ hp]
    simp [effectiveTotalPages, filteredData, hc, hs]
  · intro hb
    rw [filterData_of_nonblank _ _ _ hb, List.countP_eq_length_filter]

theorem effective_totals_client_side_witness :
    effectiveTotalElements { searchExample with totalElements := 700, totalPages := 234 } =
      ((filterData sevenUsers "Ann" userColumns).length : Int) ∧
    effectiveTotalPages { searchExample with totalElements := 700, totalPages := 234 } =
      ⌈((filterData sevenUsers "Ann" userColumns).length : ℚ) / ((3 : Nat) : ℚ)⌉ ∧
    (jsTrim "Ann" ≠ "" →
      (filterData sevenUsers "Ann" userColumns).length =
        sevenUsers.countP (fun row =>
          userColumns.any (fun col => cellMatches (jsTrim (toLowerCase "Ann")) row col))) :=
  effective_totals_client_side searchExample 700 234 (by decide) (by decide) (by decide)

theorem searchExample_totals :
    sevenUsers.length = 7 ∧ (filterData sevenUsers "Ann" userColumns).length = 2 ∧
    effectiveTotalElements searchExample = 2 ∧ effectiveTotalPages searchExample = 1 := by
  decide

/-! ### Row filter (Table.jsx `filterData`) -/

/-- C9. The payment row holds the number 250000 under `amount`, and that number
written as text contains the term "250000". With the amount column as the
payments page declares it (with a `render` function) `filterData` drops the
row; with the same column without `render` it keeps the row. -/
theorem filterData_drops_rendered_number :
    paymentRow.get "amount" = JsValue.num 250000 ∧
    includes (numberToString 250000) "250000" = true ∧
    renderAmount (JsValue.num 250000) paymentRow = JsValue.str "250,000 RWF" ∧
    filterData [paymentRow] "250000" [amountColumn] = [] ∧
    filterData [paymentRow] "250000" [plainAmountColumn] = [paymentRow] := by
  decide

/-! ### Cascading selector (HierarchicalLocationDropdown.jsx) -/

/-- C1. From a dropdown drilled down to a village of province 1: choosing
province 2, whose districts the backend returns, leaves the district selection
"10" in place; the same choice with a failing backend leaves the district,
sector, cell and village selections and the sector, cell and village option
lists in place; and re-choosing cell 1000, whose villages the backend returns,
leaves the village selection in place. -/
theorem handleChange_keeps_stale_levels :
    (handleProvinceChange eastApi drilledDown "2").2 =
      [DropdownEffect.get "/locations/provinces/05/districts",
       DropdownEffect.onChange "", DropdownEffect.onChange ""] ∧
    selectionsBelow (handleProvinceChange eastApi drilledDown "2").1 Level.province =
      ["10", "", "", ""] ∧
    selectionsBelow (handleProvinceChange downApi drilledDown "2").1 Level.province =
      ["10", "100", "1000", "10000"] ∧
    optionsBelow (handleProvinceChange downApi drilledDown "2").1 Level.province =
      [[], drilledDown.sectors, drilledDown.cells, drilledDown.villages] ∧
    selectionsBelow (handleCellChange eastApi drilledDown "1000").1 Level.cell = ["10000"] := by
  decide

/-- C2. Running the change handler of any level with the empty id leaves every
level below it with an empty selection and an empty option list, issues no
request, and leaves the selections and option lists of the levels above it as
they were. -/
theorem handleChange_empty_clears_below (api : Api) (d : Dropdown) (k : Level) :
    (∀ sel ∈ selectionsBelow (handleChange api d k "").1 k, sel = "") ∧
    (∀ opts ∈ optionsBelow (handleChange api d k "").1 k, opts = []) ∧
    (∀ e ∈ (handleChange api d k "").2, e.isGet = false) ∧
    levelsAbove (handleChange api d k "").1 k = levelsAbove d k := by
  cases k <;>
    simp [handleChange, handleProvinceChange, handleDistrictChange, handleSectorChange,
      handleCellChange, selectionsBelow, optionsBelow, levelsAbove, emitEmpty] <;>
    (cases d.hasOnChange <;> simp [DropdownEffect.isGet])

/-! ### Global search (TopBar.jsx `handleGlobalSearch`) -/

theorem mem_clearPrevious (e : TopBarEnv) (tm : Timer) (h : tm ∈ clearPrevious e) :
    tm ∈ e.timers ∧ ∀ id, e.bar.searchTimeoutRef = some id → id ≠ 0 → tm.id ≠ id := by
  unfold clearPrevious at h
  cases hr : e.bar.searchTimeoutRef with
  | none =>
    rw [hr] at h
    exact ⟨h, fun id hid => by cases hid⟩
  | some r =>
    rw [hr] at h
    by_cases h0 : r = 0
    · subst h0
      simp only [bne_self_eq_false, Bool.false_eq_true, if_false] at h
      refine ⟨h, fun id hid hne => ?_⟩
      cases hid
      exact absurd rfl hne
    · have hb : (r != 0) = true := by simpa using h0
      simp only [hb, if_true, clearTimeout, List.mem_filter] at h
      refine ⟨h.1, fun id hid _ => ?_⟩
      cases hid
      simpa using h.2

/-- C10. For a term that is `null`/`undefined` or whose trimmed length is
below 2, `handleGlobalSearch` clears the timer the ref points to, empties the
result list, closes the panel, stops the spinner, sets no timer (every timer
still pending was pending before, none has the id in the ref, and no timer id
is handed out) and issues no request. -/
theorem handleGlobalSearch_short_term (e : TopBarEnv) (term : Option String)
    (h : ∀ t, term = some t → jsLength (jsTrim t) < 2) :
    (handleGlobalSearch e term).bar.searchResults = [] ∧
    (handleGlobalSearch e term).bar.showResults = false ∧
    (handleGlobalSearch e term).bar.isSearching = false ∧
    (handleGlobalSearch e term).timers = clearPrevious e ∧
    (∀ tm ∈ (handleGlobalSearch e term).timers, tm ∈ e.timers ∧
      ∀ id, e.bar.searchTimeoutRef = some id → id ≠ 0 → tm.id ≠ id) ∧
    (handleGlobalSearch e term).nextTimerId = e.nextTimerId ∧
    (handleGlobalSearch e term).requestLog = e.requestLog := by
  have hrun : handleGlobalSearch e term =
      { e with
        timers := clearPrevious e
        bar := { e.bar with searchResults := [], showResults := false, isSearching := false } } := by
    unfold handleGlobalSearch
    cases term with
    | none => simp
    | some t => simp [h t rfl]
  rw [hrun]
  refine ⟨rfl, rfl, rfl, rfl, ?_, rfl, rfl⟩
  intro tm htm
  exact mem_clearPrevious e tm htm

theorem handleGlobalSearch_short_term_witness :
    (handleGlobalSearch pendingSearch (some " a ")).bar.searchResults = [] ∧
    (handleGlobalSearch pendingSearch (some " a ")).bar.showResults = false ∧
    (handleGlobalSearch pendingSearch (some " a ")).bar.isSearching = false ∧
    (handleGlobalSearch pendingSearch (some " a ")).timers = clearPrevious pendingSearch ∧
    (∀ tm ∈ (handleGlobalSearch pendingSearch (some " a ")).timers, tm ∈ pendingSearch.timers ∧
      ∀ id, pendingSearch.bar.searchTimeoutRef = some id → id ≠ 0 → tm.id ≠ id) ∧
    (handleGlobalSearch pendingSearch (some " a ")).nextTimerId = pendingSearch.nextTimerId ∧
    (handleGlobalSearch pendingSearch (some " a ")).requestLog = pendingSearch.requestLog :=
  handleGlobalSearch_short_term pendingSearch (some " a ") (by
    intro t ht
    cases ht
    decide)

theorem pendingSearch_cancelled :
    pendingSearch.timers.length = 1 ∧
    (handleGlobalSearch pendingSearch (some " a ")).timers = [] ∧
    (handleGlobalSearch pendingSearch none).timers = [] ∧
    (handleGlobalSearch pendingSearch (some "an")).timers =
      [{ id := 5, due := 1300, term := "an" }] := by
  decide

theorem unicode_blanks_are_trimmed :
    jsTrim ⟨[Char.ofNat 160, 'a', Char.ofNat 8232, Char.ofNat 65279]⟩ = "a" ∧
    tooShort (some ⟨[Char.ofNat 160, 'a', Char.ofNat 160]⟩) = true ∧
    (handleGlobalSearch pendingSearch (some ⟨[Char.ofNat 160, 'a', Char.ofNat 160]⟩)).timers
      = [] ∧
    parseInt ⟨[Char.ofNat 160, '4', '2']⟩ = some 42 ∧
    toLowerCase "RENÉ" = "rené" := by
  decide

/-! ### Debounce (TopBar.jsx `handleGlobalSearch` and its timer) -/

theorem debounced_initial : Debounced {} := by
  refine ⟨by decide, by decide, ?_⟩
  intro tm htm
  cases htm

theorem clearPrevious_of_debounced (e : TopBarEnv) (h : Debounced e) : clearPrevious e = [] := by
  obtain ⟨_, h1, h2⟩ := h
  unfold clearPrevious
  cases ht : e.timers with
  | nil => cases e.bar.searchTimeoutRef <;> simp [clearTimeout]
  | cons tm rest =>
    have hmem : tm ∈ e.timers := by rw [ht]; exact List.mem_cons_self _ _
    obtain ⟨href, hid⟩ := h2 tm hmem
    have hrest : rest = [] := by
      rw [ht] at h1
      cases rest with
      | nil => rfl
      | cons a l => simp at h1
    subst hrest
    rw [href]
    simp [clearTimeout, hid]

theorem handleGlobalSearch_of_debounced (e : TopBarEnv) (h : Debounced e)
    (term : Option String) :
    handleGlobalSearch e term =
      if tooShort term then
        { e with
            timers := []
            bar := { e.bar with searchResults := [], showResults := false, isSearching := false } }
      else
        { e with
            timers := [{ id := e.nextTimerId, due := e.now + 300, term := term.getD "" }]
            nextTimerId := e.nextTimerId + 1
            bar := { e.bar with searchTimeoutRef := some e.nextTimerId } } := by
  unfold handleGlobalSearch tooShort
  rw [clearPrevious_of_debounced e h]
  rfl

theorem debounced_handleGlobalSearch (e : TopBarEnv) (h : Debounced e) (term : Option String) :
    Debounced (handleGlobalSearch e term) := by
  rw [handleGlobalSearch_of_debounced e h]
  obtain ⟨h0, _, _⟩ := h
  split
  · refine ⟨h0, by simp, ?_⟩
    intro tm htm
    cases htm
  · refine ⟨by simp, by simp, ?_⟩
    intro tm htm
    simp only [List.mem_singleton] at htm
    subst htm
    exact ⟨rfl, h0⟩

theorem elapse_of_not_due (e : TopBarEnv) (dt : Nat) (h : ∀ tm ∈ e.timers, e.now + dt < tm.due) :
    elapse e dt = { e with now := e.now + dt } := by
  unfold elapse
  have hnone : e.timers.filter (fun tm => decide (tm.due ≤ e.now + dt)) = [] := by
    rw [List.filter_eq_nil_iff]
    intro tm htm
    have := h tm htm
    simp only [decide_eq_true_eq]
    omega
  rw [hnone]
  rfl

theorem elapse_of_due (e : TopBarEnv) (dt : Nat) (tm : Timer) (ht : e.timers = [tm])
    (h : tm.due ≤ e.now + dt) :
    elapse e dt =
      { e with
          now := e.now + dt
          timers := []
          requestLog := e.requestLog ++ fanOutUrls tm.term
          bar := { e.bar with isSearching := true, selectedIndex := -1 } } := by
  unfold elapse
  rw [ht]
  simp [h, fireTimer, clearTimeout, ht]

theorem debounced_elapse (e : TopBarEnv) (h : Debounced e) (dt : Nat) :
    Debounced (elapse e dt) := by
  obtain ⟨h0, h1, h2⟩ := h
  cases ht : e.timers with
  | nil =>
    rw [elapse_of_not_due e dt (by rw [ht]; intro tm htm; cases htm)]
    exact ⟨h0, h1, h2⟩
  | cons tm rest =>
    have hrest : rest = [] := by
      rw [ht] at h1
      cases rest with
      | nil => rfl
      | cons a l => simp at h1
    subst hrest
    by_cases hdue : tm.due ≤ e.now + dt
    · rw [elapse_of_due e dt tm ht hdue]
      refine ⟨h0, by simp, ?_⟩
      intro tm2 htm2
      cases htm2
    · rw [elapse_of_not_due e dt (by
        rw [ht]
        intro tm2 htm2
        simp only [List.mem_singleton] at htm2
        subst htm2
        omega)]
      exact ⟨h0, h1, h2⟩

theorem debounced_run (events : List TopBarEvent) (e : TopBarEnv) (h : Debounced e) :
    Debounced (e.run events) := by
  induction events generalizing e with
  | nil => exact h
  | cons ev rest ih =>
    unfold TopBarEnv.run
    rw [List.foldl_cons]
    apply ih
    cases ev with
    | search term => exact debounced_handleGlobalSearch e h term
    | wait dt => exact debounced_elapse e h dt

theorem burst_pending (rest : List (Nat × Option String)) (e : TopBarEnv) (h : Debounced e)
    (first : Option String) (hrest : ∀ call ∈ rest, call.1 < 300) :
    Debounced (e.burst first rest) ∧
    (e.burst first rest).requestLog = e.requestLog ∧
    (tooShort (lastTerm first rest) = true → (e.burst first rest).timers = []) ∧
    (tooShort (lastTerm first rest) = false → ∃ id, (e.burst first rest).timers =
      [{ id := id, due := (e.burst first rest).now + 300,
         term := (lastTerm first rest).getD "" }]) := by
  induction rest generalizing e first with
  | nil =>
    have hb : e.burst first [] = handleGlobalSearch e first := rfl
    rw [hb]
    refine ⟨debounced_handleGlobalSearch e h first, ?_, ?_, ?_⟩
    · rw [handleGlobalSearch_of_debounced e h]
      split <;> rfl
    · intro hs
      rw [handleGlobalSearch_of_debounced e h]
      simp [lastTerm] at hs
      simp [hs]
    · intro hs
      rw [handleGlobalSearch_of_debounced e h]
      simp [lastTerm] at hs
      simp [hs, lastTerm]
  | cons call rest ih =>
    have hd : call.1 < 300 := hrest call (List.mem_cons_self _ _)
    have hb : e.burst first (call :: rest) =
        (elapse (handleGlobalSearch e first) call.1).burst call.2 rest := rfl
    have hquiet : elapse (handleGlobalSearch e first) call.1 =
        { handleGlobalSearch e first with now := (handleGlobalSearch e first).now + call.1 } := by
      apply elapse_of_not_due
      rw [handleGlobalSearch_of_debounced e h]
      split
      · intro tm htm
        cases htm
      · intro tm htm
        simp only [List.mem_singleton] at htm
        subst htm
        show e.now + call.1 < e.now + 300
        omega
    have hlog : (elapse (handleGlobalSearch e first) call.1).requestLog = e.requestLog := by
      rw [hquiet, handleGlobalSearch_of_debounced e h]
      split <;> rfl
    have hdeb := debounced_elapse _ (debounced_handleGlobalSearch e h first) call.1
    obtain ⟨i1, i2, i3, i4⟩ := ih _ hdeb call.2 (fun c hc => hrest c (List.mem_cons_of_mem _ hc))
    rw [hb]
    exact ⟨i1, by rw [i2, hlog], i3, i4⟩

/-- C11. From any state that satisfies the debounce invariant (the initial
state does): after any sequence of `handleGlobalSearch` calls and waits at
most one timer is pending; after a call the only timer that can be pending is
the one that call set, so the previous one was cancelled before firing; and a
burst of calls from a state without pending timer, each less than 300 ms
after the previous one, followed by a wait, issues either no request or the
five requests of one fan-out for the term of the last call. -/
theorem debounce_single_fanout (e : TopBarEnv) (h : Debounced e) :
    (∀ events : List TopBarEvent, (e.run events).timers.length ≤ 1) ∧
    (∀ (term : Option String) (tm : Timer), tm ∈ (handleGlobalSearch e term).timers →
      tooShort term = false ∧
      tm = { id := e.nextTimerId, due := e.now + 300, term := term.getD "" }) ∧
    (∀ (first : Option String) (rest : List (Nat × Option String)) (dt : Nat),
      e.timers = [] → (∀ call ∈ rest, call.1 < 300) →
      (elapse (e.burst first rest) dt).requestLog =
        e.requestLog ++
          (if tooShort (lastTerm first rest) || decide (dt < 300) then []
           else fanOutUrls ((lastTerm first rest).getD ""))) := by
  refine ⟨fun events => (debounced_run events e h).2.1, ?_, ?_⟩
  · intro term tm htm
    rw [handleGlobalSearch_of_debounced e h] at htm
    cases hs : tooShort term
    · rw [hs] at htm
      simp only [Bool.false_eq_true, if_false, List.mem_singleton] at htm
      exact ⟨rfl, htm⟩
    · rw [hs] at htm
      simp at htm
  · intro first rest dt _ hrest
    obtain ⟨_, hlog, hshort, hlong⟩ := burst_pending rest e h first hrest
    cases hs : tooShort (lastTerm first rest)
    · obtain ⟨id, hid⟩ := hlong hs
      by_cases hdt : dt < 300
      · rw [elapse_of_not_due _ dt (by
          rw [hid]
          intro tm htm
          simp only [List.mem_singleton] at htm
          subst htm
          show (e.burst first rest).now + dt < (e.burst first rest).now + 300
          omega)]
        simp [hdt, hlog]
      · rw [elapse_of_due _ dt _ hid (by
          show (e.burst first rest).now + 300 ≤ (e.burst first rest).now + dt
          omega)]
        simp [hdt, hlog]
    · rw [elapse_of_not_due _ dt (by
        rw [hshort hs]
        intro tm htm
        cases htm)]
      simp [hlog]

theorem debounce_single_fanout_witness :
    (∀ events : List TopBarEvent, (({} : TopBarEnv).run events).timers.length ≤ 1) ∧
    (∀ (term : Option String) (tm : Timer),
      tm ∈ (handleGlobalSearch ({} : TopBarEnv) term).timers →
      tooShort term = false ∧
      tm = { id := ({} : TopBarEnv).nextTimerId, due := ({} : TopBarEnv).now + 300,
             term := term.getD "" }) ∧
    (elapse (({} : TopBarEnv).burst (some "a") typingAnn) 300).requestLog =
      ({} : TopBarEnv).requestLog ++
        (if tooShort (lastTerm (some "a") typingAnn) || decide (300 < 300) then []
         else fanOutUrls ((lastTerm (some "a") typingAnn).getD "")) :=
  ⟨(debounce_single_fanout {} debounced_initial).1,
    (debounce_single_fanout {} debounced_initial).2.1,
    (debounce_single_fanout {} debounced_initial).2.2 (some "a") typingAnn 300 rfl (by decide)⟩

theorem typingAnn_fans_out_once :
    (elapse (({} : TopBarEnv).burst (some "a") typingAnn) 299).requestLog = [] ∧
    (elapse (({} : TopBarEnv).burst (some "a") typingAnn) 300).requestLog = fanOutUrls "ann" ∧
    (elapse (({} : TopBarEnv).burst (some "a") typingAnn) 300).timers = [] ∧
    fanOutUrls "a b" =
      ["/users/search?searchTerm=a%20b&page=0&size=5",
       "/scholarships/search?searchTerm=a%20b&page=0&size=5",
       "/applications/search?searchTerm=a%20b&page=0&size=5",
       "/payments/search?searchTerm=a%20b&page=0&size=5",
       "/locations/search?searchTerm=a%20b&page=0&size=5"] := by
  decide

/-! ### Merge of the fan-out (TopBar.jsx lines 51-126) -/

theorem pushApplications_ids (records : List ApplicationHit) (entries : List SearchResult)
    (h : pushApplications records = some entries) :
    entries.map (fun r => (r.type, r.id)) = records.map (fun a => ("application", a.id)) := by
  induction records generalizing entries with
  | nil =>
    simp only [pushApplications, Option.some.injEq] at h
    subst h
    rfl
  | cons a rest ih =>
    unfold pushApplications at h
    cases ha : applicationResult a with
    | none => rw [ha] at h; cases h
    | some entry =>
      rw [ha] at h
      cases hr : pushApplications rest with
      | none => rw [hr] at h; cases h
      | some tail =>
        rw [hr] at h
        simp only [Option.map_some', Option.some.injEq] at h
        subst h
        have hentry : (entry.type, entry.id) = ("application", a.id) := by
          unfold applicationResult at ha
          cases hs : applicationSubtitle a with
          | none => rw [hs] at ha; cases ha
          | some sub =>
            rw [hs] at ha
            simp only [Option.map_some', Option.some.injEq] at ha
            subst ha
            rfl
        simp only [List.map_cons, hentry, ih tail hr]

theorem mergeResults_order (o : FanOutOutcome) (results : List SearchResult)
    (h : mergeResults o = some results) :
    results.map (fun r => (r.type, r.id)) =
      o.users.records.map (fun u => ("user", u.id))
        ++ o.scholarships.records.map (fun x => ("scholarship", x.id))
        ++ o.applications.records.map (fun a => ("application", a.id))
        ++ o.payments.records.map (fun x => ("payment", x.id))
        ++ o.locations.records.map (fun l => ("location", l.id)) := by
  unfold mergeResults at h
  cases hp : pushApplications o.applications.records with
  | none => rw [hp] at h; cases h
  | some apps =>
    rw [hp] at h
    simp only [Option.some.injEq] at h
    subst h
    simp only [List.map_append, List.map_map, pushApplications_ids _ _ hp]
    rfl

theorem completeOutcome_merged :
    ((settleSearch searchingBar completeOutcome).searchResults.map (fun r => (r.type, r.id)) =
      [("user", 1), ("application", 7), ("location", 3)]) ∧
    (settleSearch searchingBar completeOutcome).showResults = true ∧
    (settleSearch searchingBar completeOutcome).isSearching = false := by
  decide

/-- C12. With the user and location requests fulfilled (records 1 and 3) and
an application record that has a scholarship name but no applicant, the
concatenation the claim describes is user 1, application 7, location 3, but
the list the timer callback stores is empty. -/
theorem settleSearch_loses_fulfilled_groups :
    mixedOutcome.users.records.map (fun u => u.id) = [1] ∧
    mixedOutcome.applications.records.map (fun a => a.id) = [7] ∧
    mixedOutcome.locations.records.map (fun l => l.id) = [3] ∧
    (settleSearch searchingBar mixedOutcome).searchResults = [] := by
  decide

/-- C13. For the same five settled entries the fulfilled responses hold three
records in all, yet building the application entry raises, so the merge fails
and zero results are stored: the user and location results are removed. -/
theorem mergeResults_fails_on_missing_applicant :
    mixedOutcome.users.records.length + mixedOutcome.scholarships.records.length
      + mixedOutcome.applications.records.length + mixedOutcome.payments.records.length
      + mixedOutcome.locations.records.length = 3 ∧
    applicationSubtitle orphanApplication = none ∧
    mergeResults mixedOutcome = none ∧
    (settleSearch searchingBar mixedOutcome).searchResults.length = 0 ∧
    (settleSearch searchingBar mixedOutcome).showResults = false := by
  decide

/-! ### Keyboard navigation (TopBar.jsx `handleKeyDown`) -/

theorem handleKeyDown_arrow_frame (b : TopBar) (key : String)
    (hk : key = "ArrowDown" ∨ key = "ArrowUp") :
    (handleKeyDown b key).1.showResults = b.showResults ∧
    (handleKeyDown b key).1.searchResults = b.searchResults ∧
    (handleKeyDown b key).1.searchTerm = b.searchTerm := by
  unfold handleKeyDown
  rcases hk with hk | hk <;> subst hk <;> split <;> simp

theorem handleKeyDown_arrow_bounds (b : TopBar) (key : String)
    (hk : key = "ArrowDown" ∨ key = "ArrowUp")
    (hopen : b.showResults = true) (hn : 1 ≤ b.searchResults.length)
    (hi : -1 ≤ b.selectedIndex ∧ b.selectedIndex ≤ (b.searchResults.length : Int) - 1) :
    -1 ≤ (handleKeyDown b key).1.selectedIndex ∧
    (handleKeyDown b key).1.selectedIndex ≤ (b.searchResults.length : Int) - 1 := by
  have hguard : (!b.showResults || b.searchResults.length == 0) = false := by
    have : b.searchResults.length ≠ 0 := by omega
    simp [hopen, this]
  unfold handleKeyDown
  rw [hguard]
  rcases hk with hk | hk <;> subst hk <;> simp <;> split <;> omega

theorem pressAll_arrow_bounds (keys : List String) (b : TopBar)
    (hkeys : ∀ key ∈ keys, key = "ArrowDown" ∨ key = "ArrowUp")
    (hopen : b.showResults = true) (hn : 1 ≤ b.searchResults.length)
    (hi : -1 ≤ b.selectedIndex ∧ b.selectedIndex ≤ (b.searchResults.length : Int) - 1) :
    -1 ≤ (keys.foldl (fun acc key => (handleKeyDown acc key).1) b).selectedIndex ∧
    (keys.foldl (fun acc key => (handleKeyDown acc key).1) b).selectedIndex
      ≤ (b.searchResults.length : Int) - 1 := by
  induction keys generalizing b with
  | nil => exact hi
  | cons key rest ih =>
    rw [List.foldl_cons]
    have hk := hkeys key (List.mem_cons_self _ _)
    obtain ⟨f1, f2, _⟩ := handleKeyDown_arrow_frame b key hk
    have hb := handleKeyDown_arrow_bounds b key hk hopen hn hi
    have := ih (handleKeyDown b key).1 (fun k hk2 => hkeys k (List.mem_cons_of_mem _ hk2))
      (by rw [f1]; exact hopen) (by rw [f2]; exact hn) (by rw [f2]; exact hb)
    rw [f2] at this
    exact this

theorem handleKeyDown_guard (b : TopBar) (hopen : b.showResults = true)
    (hn : 1 ≤ b.searchResults.length) :
    (!b.showResults || b.searchResults.length == 0) = false := by
  have : b.searchResults.length ≠ 0 := by omega
  simp [hopen, this]

/-- C14. With the panel open on `n ≥ 1` results and the cursor `i` in
`[-1, n-1]`, ArrowDown moves the cursor to `min (i+1) (n-1)` and ArrowUp to
`max (i-1) (-1)`; the cursor stays in `[-1, n-1]` under any sequence of
ArrowDown and ArrowUp presses. -/
theorem arrow_keys_clamp (b : TopBar)
    (hopen : b.showResults = true) (hn : 1 ≤ b.searchResults.length)
    (hi : -1 ≤ b.selectedIndex ∧ b.selectedIndex ≤ (b.searchResults.length : Int) - 1) :
    (handleKeyDown b "ArrowDown").1.selectedIndex =
      min (b.selectedIndex + 1) ((b.searchResults.length : Int) - 1) ∧
    (handleKeyDown b "ArrowUp").1.selectedIndex = max (b.selectedIndex - 1) (-1) ∧
    (∀ keys : List String, (∀ key ∈ keys, key = "ArrowDown" ∨ key = "ArrowUp") →
      -1 ≤ (keys.foldl (fun acc key => (handleKeyDown acc key).1) b).selectedIndex ∧
      (keys.foldl (fun acc key => (handleKeyDown acc key).1) b).selectedIndex
        ≤ (b.searchResults.length : Int) - 1) := by
  have hguard := handleKeyDown_guard b hopen hn
  refine ⟨?_, ?_, fun keys hkeys => pressAll_arrow_bounds keys b hkeys hopen hn hi⟩
  · unfold handleKeyDown
    rw [hguard]
    simp only [Bool.false_eq_true, if_false, beq_self_eq_true, if_true]
    split <;> omega
  · unfold handleKeyDown
    rw [hguard]
    have hne : ("ArrowUp" == "ArrowDown") = false := by decide
    simp only [Bool.false_eq_true, if_false, beq_self_eq_true, if_true, hne]
    split <;> omega

theorem arrow_keys_clamp_witness :
    (handleKeyDown openPanel "ArrowDown").1.selectedIndex =
      min (openPanel.selectedIndex + 1) ((openPanel.searchResults.length : Int) - 1) ∧
    (handleKeyDown openPanel "ArrowUp").1.selectedIndex = max (openPanel.selectedIndex - 1) (-1) ∧
    (∀ keys : List String, (∀ key ∈ keys, key = "ArrowDown" ∨ key = "ArrowUp") →
      -1 ≤ (keys.foldl (fun acc key => (handleKeyDown acc key).1) openPanel).selectedIndex ∧
      (keys.foldl (fun acc key => (handleKeyDown acc key).1) openPanel).selectedIndex
        ≤ (openPanel.searchResults.length : Int) - 1) :=
  arrow_keys_clamp openPanel (by decide) (by decide) (by decide)

theorem openPanel_arrows :
    openPanel.searchResults.length = 3 ∧ openPanel.selectedIndex = 1 ∧
    (handleKeyDown openPanel "ArrowDown").1.selectedIndex = 2 ∧
    (handleKeyDown (handleKeyDown openPanel "ArrowDown").1 "ArrowDown").1.selectedIndex = 2 ∧
    (handleKeyDown openPanel "ArrowUp").1.selectedIndex = 0 ∧
    (handleKeyDown (handleKeyDown openPanel "ArrowUp").1 "ArrowUp").1.selectedIndex = -1 := by
  decide

/-- C15. With the panel open on a non-empty result list: when the cursor is in
`[0, n)`, Enter navigates to the path of the result under the cursor (then
clears the term, closes the panel, resets the cursor and reports the result to
`onSearch` when supplied); otherwise Enter changes no state and navigates
nowhere; Escape closes the panel and resets the cursor to -1, and leaves the
typed term and the result list as they were. -/
theorem enter_and_escape (b : TopBar)
    (hopen : b.showResults = true) (hn : 1 ≤ b.searchResults.length) :
    (0 ≤ b.selectedIndex ∧ b.selectedIndex < (b.searchResults.length : Int) →
      ∃ result, b.searchResults[b.selectedIndex.toNat]? = some result ∧
        handleKeyDown b "Enter" =
          ({ b with searchTerm := "", showResults := false, selectedIndex := -1 },
            TopBarEffect.preventDefault :: TopBarEffect.navigate result.path
              :: (if b.hasOnSearch then [TopBarEffect.onSearch result] else []))) ∧
    (¬ (0 ≤ b.selectedIndex ∧ b.selectedIndex < (b.searchResults.length : Int)) →
      handleKeyDown b "Enter" = (b, [TopBarEffect.preventDefault])) ∧
    handleKeyDown b "Escape" = ({ b with showResults := false, selectedIndex := -1 }, []) ∧
    (handleKeyDown b "Escape").1.searchTerm = b.searchTerm ∧
    (handleKeyDown b "Escape").1.searchResults = b.searchResults := by
  have hguard := handleKeyDown_guard b hopen hn
  have h1 : ("Enter" == "ArrowDown") = false := by decide
  have h2 : ("Enter" == "ArrowUp") = false := by decide
  have h3 : ("Escape" == "ArrowDown") = false := by decide
  have h4 : ("Escape" == "ArrowUp") = false := by decide
  have h5 : ("Escape" == "Enter") = false := by decide
  have hesc : handleKeyDown b "Escape" =
      ({ b with showResults := false, selectedIndex := -1 }, []) := by
    unfold handleKeyDown
    rw [hguard]
    simp only [Bool.false_eq_true, if_false, beq_self_eq_true, if_true, h3, h4, h5]
  refine ⟨?_, ?_, hesc, ?_, ?_⟩
  · intro hin
    have hlt : b.selectedIndex.toNat < b.searchResults.length := by omega
    refine ⟨b.searchResults[b.selectedIndex.toNat], List.getElem?_eq_getElem hlt, ?_⟩
    unfold handleKeyDown
    rw [hguard]
    simp only [Bool.false_eq_true, if_false, beq_self_eq_true, if_true, h1, h2, if_pos hin,
      List.getElem?_eq_getElem hlt, handleResultClick]
  · intro hout
    unfold handleKeyDown
    rw [hguard]
    simp only [Bool.false_eq_true, if_false, beq_self_eq_true, if_true, h1, h2, if_neg hout]
  · rw [hesc]
  · rw [hesc]

theorem enter_and_escape_witness :
    (0 ≤ openPanel.selectedIndex ∧
        openPanel.selectedIndex < (openPanel.searchResults.length : Int) →
      ∃ result, openPanel.searchResults[openPanel.selectedIndex.toNat]? = some result ∧
        handleKeyDown openPanel "Enter" =
          ({ openPanel with searchTerm := "", showResults := false, selectedIndex := -1 },
            TopBarEffect.preventDefault :: TopBarEffect.navigate result.path
              :: (if openPanel.hasOnSearch then [TopBarEffect.onSearch result] else []))) ∧
    (¬ (0 ≤ openPanel.selectedIndex ∧
        openPanel.selectedIndex < (openPanel.searchResults.length : Int)) →
      handleKeyDown openPanel "Enter" = (openPanel, [TopBarEffect.preventDefault])) ∧
    handleKeyDown openPanel "Escape" =
      ({ openPanel with showResults := false, selectedIndex := -1 }, []) ∧
    (handleKeyDown openPanel "Escape").1.searchTerm = openPanel.searchTerm ∧
    (handleKeyDown openPanel "Escape").1.searchResults = openPanel.searchResults :=
  enter_and_escape openPanel (by decide) (by decide)

theorem openPanel_enter :
    (handleKeyDown openPanel "Enter").2.take 2 =
      [TopBarEffect.preventDefault, TopBarEffect.navigate "/applications/7"] ∧
    (handleKeyDown { openPanel with selectedIndex := -1 } "Enter").2 =
      [TopBarEffect.preventDefault] ∧
    (handleKeyDown openPanel "Escape").1.searchTerm = "me" := by
  decide

/-! ### Notification inbox (NotificationContext.jsx) -/

theorem saveNotifications_list (p : NotificationProvider) (uid : Int) (hu : p.user = some uid)
    (list : List Notification) : (saveNotifications p list).notifications = list := by
  unfold saveNotifications
  rw [hu]

/-- C16. For a logged-in user and any prior inbox, `addNotification` yields a
list of at most 50 entries: the new notification, unread, followed by the
first 49 previous entries in their order, so only entries at the end are
dropped; and an inbox of at most 50 entries has at most 50 after each of
`addNotification`, `markAsRead`, `markAllAsRead`, `removeNotification` and
`clearNotifications`. -/
theorem inbox_capped (p : NotificationProvider) (uid : Int) (hu : p.user = some uid)
    (now : Int) (createdAt : String) (n : NotificationInput) :
    (addNotification p now createdAt n).notifications.length ≤ 50 ∧
    (addNotification p now createdAt n).notifications =
      newNotification now createdAt n :: p.notifications.take 49 ∧
    (newNotification now createdAt n).read = false ∧
    (addNotification p now createdAt n).notifications.tail ++ p.notifications.drop 49 =
      p.notifications ∧
    (p.notifications.length ≤ 50 →
      (∀ id, (markAsRead p id).notifications.length ≤ 50) ∧
      (markAllAsRead p).notifications.length ≤ 50 ∧
      (∀ id, (removeNotification p id).notifications.length ≤ 50) ∧
      (clearNotifications p).notifications.length ≤ 50) := by
  have hadd : (addNotification p now createdAt n).notifications =
      newNotification now createdAt n :: p.notifications.take 49 := by
    unfold addNotification
    rw [hu]
    simp only [saveNotifications_list p uid hu]
    rfl
  refine ⟨?_, hadd, rfl, ?_, ?_⟩
  · rw [hadd]
    simp only [List.length_cons, List.length_take]
    omega
  · rw [hadd]
    simp only [List.tail_cons, List.take_append_drop]
  · intro hlen
    refine ⟨?_, ?_, ?_, ?_⟩
    · intro id
      unfold markAsRead
      rw [saveNotifications_list p uid hu, List.length_map]
      exact hlen
    · unfold markAllAsRead
      rw [saveNotifications_list p uid hu, List.length_map]
      exact hlen
    · intro id
      unfold removeNotification
      rw [saveNotifications_list p uid hu]
      exact le_trans (List.length_filter_le _ _) hlen
    · unfold clearNotifications
      rw [hu]
      simp

theorem inbox_capped_witness :
    (addNotification fullInbox 1700000000000 "2023-11-14T22:13:20.000Z"
      deletedNotice).notifications.length ≤ 50 ∧
    (addNotification fullInbox 1700000000000 "2023-11-14T22:13:20.000Z"
      deletedNotice).notifications =
      newNotification 1700000000000 "2023-11-14T22:13:20.000Z" deletedNotice ::
        fullInbox.notifications.take 49 ∧
    (newNotification 1700000000000 "2023-11-14T22:13:20.000Z" deletedNotice).read = false ∧
    (addNotification fullInbox 1700000000000 "2023-11-14T22:13:20.000Z"
      deletedNotice).notifications.tail ++ fullInbox.notifications.drop 49 =
      fullInbox.notifications ∧
    (fullInbox.notifications.length ≤ 50 →
      (∀ id, (markAsRead fullInbox id).notifications.length ≤ 50) ∧
      (markAllAsRead fullInbox).notifications.length ≤ 50 ∧
      (∀ id, (removeNotification fullInbox id).notifications.length ≤ 50) ∧
      (clearNotifications fullInbox).notifications.length ≤ 50) :=
  inbox_capped fullInbox 9 rfl 1700000000000 "2023-11-14T22:13:20.000Z" deletedNotice

theorem fullInbox_add :
    fullInbox.notifications.length = 50 ∧
    (addNotification fullInbox 1700000000000 "2023-11-14T22:13:20.000Z"
      deletedNotice).notifications.length = 50 ∧
    ((addNotification fullInbox 1700000000000 "2023-11-14T22:13:20.000Z"
      deletedNotice).notifications.map (fun x => x.id)).take 3 = [1700000000000, 1, 2] ∧
    ((addNotification fullInbox 1700000000000 "2023-11-14T22:13:20.000Z"
      deletedNotice).notifications.map (fun x => x.id)).getLast? = some 49 := by
  decide

/-! ### Reverse resolution (HierarchicalLocationDropdown.jsx `fetchLocationHierarchy`) -/

/-- C17. Running `fetchLocationHierarchy` a second time for the same id,
against the same backend answers and right after the first run, leaves the
whole widget state (selections and option lists included) as the first run
left it, whatever the starting state. -/
theorem fetchLocationHierarchy_idem (api : Api) (d : Dropdown) (locationId : String) :
    (fetchLocationHierarchy api (fetchLocationHierarchy api d locationId).1 locationId).1 =
      (fetchLocationHierarchy api d locationId).1 := by
  unfold fetchLocationHierarchy
  cases h0 : api ("/locations/" ++ locationId ++ "/hierarchy") with
  | failed => simp [h0]
  | ok data =>
    simp only [h0]
    generalize bodyOrEmpty data = h
    unfold loadProvince
    cases hp : hierarchyEntry h "PROVINCE" with
    | none => simp
    | some p =>
      simp only
      cases h1 : api ("/locations/provinces/" ++ p.code ++ "/districts") with
      | failed => simp [h1]
      | ok ds =>
        simp only [h1]
        unfold loadDistrict
        cases hd : hierarchyEntry h "DISTRICT" with
        | none => simp
        | some dist =>
          simp only
          cases h2 : api ("/locations/districts/" ++ numberToString dist.id ++ "/sectors") with
          | failed => simp [h2]
          | ok ss =>
            simp only [h2]
            unfold loadSector
            cases hs : hierarchyEntry h "SECTOR" with
            | none => simp
            | some sec =>
              simp only
              cases h3 : api ("/locations/sectors/" ++ numberToString sec.id ++ "/cells") with
              | failed => simp [h3]
              | ok cs =>
                simp only [h3]
                unfold loadCell
                cases hc : hierarchyEntry h "CELL" with
                | none => simp
                | some cell =>
                  simp only
                  cases h4 : api ("/locations/cells/" ++ numberToString cell.id ++ "/villages") with
                  | failed => simp [h4]
                  | ok vs =>
                    simp only [h4]
                    unfold loadVillage
                    cases hv : hierarchyEntry h "VILLAGE" <;> simp

theorem ApiResponse.exists_of_isOk (r : ApiResponse) (h : r.isOk = true) :
    ∃ data, r = ApiResponse.ok data := by
  cases r with
  | failed => cases h
  | ok data => exact ⟨data, rfl⟩

theorem fetchLocationHierarchy_ok (api : Api) (d : Dropdown) (locationId : String)
    (data : Option (List Location))
    (h : api ("/locations/" ++ locationId ++ "/hierarchy") = ApiResponse.ok data) :
    fetchLocationHierarchy api d locationId =
      ({ (loadProvince api (bodyOrEmpty data) d).1 with loading := false },
        DropdownEffect.get ("/locations/" ++ locationId ++ "/hierarchy")
          :: (loadProvince api (bodyOrEmpty data) d).2) := by
  unfold fetchLocationHierarchy
  simp only [h]

theorem hierarchy_chain (api : Api) (d : Dropdown) (locationId : String)
    (hierarchy : List Location)
    (hresp : api ("/locations/" ++ locationId ++ "/hierarchy") = ApiResponse.ok (some hierarchy))
    (chain : List Location) (hne : chain ≠ [])
    (hchain : levelTypes.map (hierarchyEntry hierarchy) =
      chain.map some ++ List.replicate (5 - chain.length) none)
    (hok : ∀ (i : Nat) (loc : Location), i + 1 < chain.length → chain[i]? = some loc →
      (api (childrenUrl i loc)).isOk = true) :
    selections (fetchLocationHierarchy api d locationId).1 =
      chain.map (fun loc => numberToString loc.id) ++ (selections d).drop chain.length ∧
    (fetchLocationHierarchy api d locationId).1.loading = false := by
  rw [fetchLocationHierarchy_ok api d locationId _ hresp]
  simp only [bodyOrEmpty, Option.getD_some]
  match chain, hne, hchain, hok with
  | [p], _, hchain, _ =>
    simp [levelTypes, List.replicate] at hchain
    obtain ⟨hP, hD, hS, hC, hV⟩ := hchain
    unfold loadProvince
    rw [hP]
    simp only
    cases api ("/locations/provinces/" ++ p.code ++ "/districts") <;>
      simp [loadDistrict, hD, selections]
  | [p, dist], _, hchain, hok =>
    simp [levelTypes, List.replicate] at hchain
    obtain ⟨hP, hD, hS, hC, hV⟩ := hchain
    obtain ⟨ds, h1⟩ := ApiResponse.exists_of_isOk _ (hok 0 p (by simp) rfl)
    simp only [childrenUrl] at h1
    unfold loadProvince
    rw [hP]
    simp only [h1]
    unfold loadDistrict
    rw [hD]
    simp only
    cases api ("/locations/districts/" ++ numberToString dist.id ++ "/sectors") <;>
      simp [loadSector, hS, selections]
  | [p, dist, sec], _, hchain, hok =>
    simp [levelTypes, List.replicate] at hchain
    obtain ⟨hP, hD, hS, hC, hV⟩ := hchain
    obtain ⟨ds, h1⟩ := ApiResponse.exists_of_isOk _ (hok 0 p (by simp) rfl)
    obtain ⟨ss, h2⟩ := ApiResponse.exists_of_isOk _ (hok 1 dist (by simp) rfl)
    simp only [childrenUrl] at h1 h2
    unfold loadProvince
    rw [hP]
    simp only [h1]
    unfold loadDistrict
    rw [hD]
    simp only [h2]
    unfold loadSector
    rw [hS]
    simp only
    cases api ("/locations/sectors/" ++ numberToString sec.id ++ "/cells") <;>
      simp [loadCell, hC, selections]
  | [p, dist, sec, cell], _, hchain, hok =>
    simp [levelTypes, List.replicate] at hchain
    obtain ⟨hP, hD, hS, hC, hV⟩ := hchain
    obtain ⟨ds, h1⟩ := ApiResponse.exists_of_isOk _ (hok 0 p (by simp) rfl)
    obtain ⟨ss, h2⟩ := ApiResponse.exists_of_isOk _ (hok 1 dist (by simp) rfl)
    obtain ⟨cs, h3⟩ := ApiResponse.exists_of_isOk _ (hok 2 sec (by simp) rfl)
    simp only [childrenUrl] at h1 h2 h3
    unfold loadProvince
    rw [hP]
    simp only [h1]
    unfold loadDistrict
    rw [hD]
    simp only [h2]
    unfold loadSector
    rw [hS]
    simp only [h3]
    unfold loadCell
    rw [hC]
    simp only
    cases api ("/locations/cells/" ++ numberToString cell.id ++ "/villages") <;>
      simp [loadVillage, hV, selections]
  | [p, dist, sec, cell, vil], _, hchain, hok =>
    simp [levelTypes, List.replicate] at hchain
    obtain ⟨hP, hD, hS, hC, hV⟩ := hchain
    obtain ⟨ds, h1⟩ := ApiResponse.exists_of_isOk _ (hok 0 p (by simp) rfl)
    obtain ⟨ss, h2⟩ := ApiResponse.exists_of_isOk _ (hok 1 dist (by simp) rfl)
    obtain ⟨cs, h3⟩ := ApiResponse.exists_of_isOk _ (hok 2 sec (by simp) rfl)
    obtain ⟨vs, h4⟩ := ApiResponse.exists_of_isOk _ (hok 3 cell (by simp) rfl)
    simp only [childrenUrl] at h1 h2 h3 h4
    unfold loadProvince
    rw [hP]
    simp only [h1]
    unfold loadDistrict
    rw [hD]
    simp only [h2]
    unfold loadSector
    rw [hS]
    simp only [h3]
    unfold loadCell
    rw [hC]
    simp only [h4]
    simp [loadVillage, hV, selections]
  | _ :: _ :: _ :: _ :: _ :: _ :: _, _, hchain, _ =>
    have := congrArg List.length hchain
    simp [levelTypes] at this

/-- C18, as stated, fails: the hierarchy answer for location 50 holds exactly a
province and a district, but the request for the province's districts fails,
and the district selection stays empty. -/
theorem hierarchy_district_unselected_on_failure :
    (hierarchyOnlyApi "/locations/50/hierarchy").isOk = true ∧
    selections (fetchLocationHierarchy hierarchyOnlyApi freshDropdown "50").1 =
      ["2", "", "", "", ""] ∧
    (fetchLocationHierarchy hierarchyOnlyApi freshDropdown "50").2 =
      [DropdownEffect.get "/locations/50/hierarchy",
       DropdownEffect.get "/locations/provinces/05/districts"] := by
  decide

/-- C18, amended. Let the hierarchy request be answered. If the answer holds a
province and a district entry and no sector, cell or village entry, and the
request for the province's districts is answered, then the province and
district selections become those entries' ids as text, the sector, cell and
village selections and the cell and village option lists are left as they
were, and the run completes (`loading` is false), whether or not the sectors
request is answered. More generally, if the answer holds a chain of entries
for the first `j` levels and none below, and the child requests of the first
`j - 1` entries are answered, then exactly the first `j` selections are set to
the chain's ids and the others are left as they were. -/
theorem hierarchy_resolution (api : Api) (d : Dropdown) (locationId : String)
    (hierarchy : List Location)
    (hresp : api ("/locations/" ++ locationId ++ "/hierarchy") = ApiResponse.ok (some hierarchy)) :
    (∀ province district : Location,
      levelTypes.map (hierarchyEntry hierarchy) = [some province, some district, none, none, none] →
      (api (childrenUrl 0 province)).isOk = true →
      (fetchLocationHierarchy api d locationId).1.selectedProvince = numberToString province.id ∧
      (fetchLocationHierarchy api d locationId).1.selectedDistrict = numberToString district.id ∧
      (fetchLocationHierarchy api d locationId).1.selectedSector = d.selectedSector ∧
      (fetchLocationHierarchy api d locationId).1.selectedCell = d.selectedCell ∧
      (fetchLocationHierarchy api d locationId).1.selectedVillage = d.selectedVillage ∧
      (fetchLocationHierarchy api d locationId).1.cells = d.cells ∧
      (fetchLocationHierarchy api d locationId).1.villages = d.villages ∧
      (fetchLocationHierarchy api d locationId).1.loading = false) ∧
    (∀ chain : List Location, chain ≠ [] →
      levelTypes.map (hierarchyEntry hierarchy) =
        chain.map some ++ List.replicate (5 - chain.length) none →
      (∀ (i : Nat) (loc : Location), i + 1 < chain.length → chain[i]? = some loc →
        (api (childrenUrl i loc)).isOk = true) →
      selections (fetchLocationHierarchy api d locationId).1 =
        chain.map (fun loc => numberToString loc.id) ++ (selections d).drop chain.length) := by
  constructor
  · intro p dist hchain hok
    simp [levelTypes] at hchain
    obtain ⟨hP, hD, hS, hC, hV⟩ := hchain
    obtain ⟨ds, h1⟩ := ApiResponse.exists_of_isOk _ hok
    simp only [childrenUrl] at h1
    rw [fetchLocationHierarchy_ok api d locationId _ hresp]
    simp only [bodyOrEmpty, Option.getD_some]
    unfold loadProvince
    rw [hP]
    simp only [h1]
    unfold loadDistrict
    rw [hD]
    simp only
    cases api ("/locations/districts/" ++ numberToString dist.id ++ "/sectors") <;>
      simp [loadSector, hS]
  · intro chain hne hchain hok
    exact (hierarchy_chain api d locationId hierarchy hresp chain hne hchain hok).1

theorem hierarchy_resolution_witness :
    ((fetchLocationHierarchy midTreeApi freshDropdown "50").1.selectedProvince =
        numberToString 2 ∧
      (fetchLocationHierarchy midTreeApi freshDropdown "50").1.selectedDistrict =
        numberToString 50 ∧
      (fetchLocationHierarchy midTreeApi freshDropdown "50").1.selectedSector =
        freshDropdown.selectedSector ∧
      (fetchLocationHierarchy midTreeApi freshDropdown "50").1.selectedCell =
        freshDropdown.selectedCell ∧
      (fetchLocationHierarchy midTreeApi freshDropdown "50").1.selectedVillage =
        freshDropdown.selectedVillage ∧
      (fetchLocationHierarchy midTreeApi freshDropdown "50").1.cells = freshDropdown.cells ∧
      (fetchLocationHierarchy midTreeApi freshDropdown "50").1.villages = freshDropdown.villages ∧
      (fetchLocationHierarchy midTreeApi freshDropdown "50").1.loading = false) ∧
    selections (fetchLocationHierarchy midTreeApi freshDropdown "50").1 =
      [numberToString 2, numberToString 50] ++ (selections freshDropdown).drop 2 :=
  ⟨(hierarchy_resolution midTreeApi freshDropdown "50"
      [⟨2, "East", "05", "PROVINCE"⟩, ⟨50, "Bugesera", "0501", "DISTRICT"⟩] rfl).1
      ⟨2, "East", "05", "PROVINCE"⟩ ⟨50, "Bugesera", "0501", "DISTRICT"⟩ (by decide) rfl,
    (hierarchy_resolution midTreeApi freshDropdown "50"
      [⟨2, "East", "05", "PROVINCE"⟩, ⟨50, "Bugesera", "0501", "DISTRICT"⟩] rfl).2
      [⟨2, "East", "05", "PROVINCE"⟩, ⟨50, "Bugesera", "0501", "DISTRICT"⟩]
      (by decide) (by decide) (by
        intro i loc hi hloc
        have h0 : i = 0 := by
          simp only [List.length_cons, List.length_nil] at hi
          omega
        subst h0
        simp only [List.getElem?_cons_zero, Option.some.injEq] at hloc
        subst hloc
        rfl)⟩

theorem midTree_resolved :
    selections (fetchLocationHierarchy midTreeApi freshDropdown "50").1 =
      ["2", "50", "", "", ""] ∧
    (fetchLocationHierarchy midTreeApi freshDropdown "50").1.cells = [] ∧
    (fetchLocationHierarchy midTreeApi freshDropdown "50").1.villages = [] ∧
    (fetchLocationHierarchy midTreeApi freshDropdown "50").1.sectors =
      [⟨500, "Nyamata", "050101", "SECTOR"⟩] := by
  decide

/-! ### Emitted values and failed fetches (HierarchicalLocationDropdown.jsx) -/

theorem mem_emitEmpty (d : Dropdown) (value : String)
    (h : DropdownEffect.onChange value ∈ emitEmpty d) : value = "" := by
  unfold emitEmpty at h
  split at h
  · simp only [List.mem_singleton, DropdownEffect.onChange.injEq] at h
    exact h
  · cases h

theorem handleChange_emits_empty (api : Api) (d : Dropdown) (k : Level) (id value : String)
    (h : DropdownEffect.onChange value ∈ (handleChange api d k id).2) : value = "" := by
  cases k
  · simp only [handleChange, handleProvinceChange, fetchDistricts] at h
    rw [List.mem_append] at h
    rcases h with h | h
    · split at h
      · split at h
        · split at h
          · simp only [List.mem_cons, reduceCtorEq, false_or] at h
            exact mem_emitEmpty _ _ h
          · simp at h
        · simp at h
      · simp at h
    · exact mem_emitEmpty _ _ h
  · simp only [handleChange, handleDistrictChange, fetchSectors] at h
    rw [List.mem_append] at h
    rcases h with h | h
    · split at h
      · split at h
        · simp only [List.mem_cons, reduceCtorEq, false_or] at h
          exact mem_emitEmpty _ _ h
        · simp at h
      · simp at h
    · exact mem_emitEmpty _ _ h
  · simp only [handleChange, handleSectorChange, fetchCells] at h
    rw [List.mem_append] at h
    rcases h with h | h
    · split at h
      · split at h
        · simp only [List.mem_cons, reduceCtorEq, false_or] at h
          exact mem_emitEmpty _ _ h
        · simp at h
      · simp at h
    · exact mem_emitEmpty _ _ h
  · simp only [handleChange, handleCellChange, fetchVillages] at h
    rw [List.mem_append] at h
    rcases h with h | h
    · split at h
      · split at h
        · simp only [List.mem_cons, reduceCtorEq, false_or] at h
          exact mem_emitEmpty _ _ h
        · simp at h
      · simp at h
    · exact mem_emitEmpty _ _ h

/-- C19. With `onChange` supplied, `handleVillageChange id` emits exactly one
event, carrying the chosen id, issues no request, and writes only the village
selection; and every value a province, district, sector or cell change emits
is the empty string. -/
theorem village_change_emits_id (d : Dropdown) (villageId : String)
    (h : d.hasOnChange = true) :
    (handleVillageChange d villageId).2 = [DropdownEffect.onChange villageId] ∧
    (∀ e ∈ (handleVillageChange d villageId).2, e.isGet = false) ∧
    (handleVillageChange d villageId).1 = { d with selectedVillage := villageId } ∧
    (∀ (api : Api) (d2 : Dropdown) (k : Level) (id value : String),
      DropdownEffect.onChange value ∈ (handleChange api d2 k id).2 → value = "") := by
  refine ⟨?_, ?_, rfl, fun api d2 k id value hv => handleChange_emits_empty api d2 k id value hv⟩
  · unfold handleVillageChange
    simp [h]
  · unfold handleVillageChange
    simp [h, DropdownEffect.isGet]

theorem village_change_emits_id_witness :
    (handleVillageChange drilledDown "10001").2 = [DropdownEffect.onChange "10001"] ∧
    (∀ e ∈ (handleVillageChange drilledDown "10001").2, e.isGet = false) ∧
    (handleVillageChange drilledDown "10001").1 =
      { drilledDown with selectedVillage := "10001" } ∧
    (∀ (api : Api) (d2 : Dropdown) (k : Level) (id value : String),
      DropdownEffect.onChange value ∈ (handleChange api d2 k id).2 → value = "") :=
  village_change_emits_id drilledDown "10001" rfl

/-- C20. When its request fails, each of `fetchProvinces`, `fetchDistricts`,
`fetchSectors`, `fetchCells` and `fetchVillages` returns (it does not raise)
a state that differs from the one it started in only by that level's option
list, now empty, and the cleared `loading` flag: every other option list and
every selection is unchanged. -/
theorem fetch_failure_empties_own_level (api : Api) (d : Dropdown) :
    (api "/locations/provinces" = ApiResponse.failed →
      (fetchProvinces api d).1 = { d with provinces := [], loading := false }) ∧
    (∀ provinceCode : String,
      api ("/locations/provinces/" ++ provinceCode ++ "/districts") = ApiResponse.failed →
      (fetchDistricts api d provinceCode).1 = { d with districts := [], loading := false }) ∧
    (∀ districtId : Option Int,
      api ("/locations/districts/" ++ idText districtId ++ "/sectors") = ApiResponse.failed →
      (fetchSectors api d districtId).1 = { d with sectors := [], loading := false }) ∧
    (∀ sectorId : Option Int,
      api ("/locations/sectors/" ++ idText sectorId ++ "/cells") = ApiResponse.failed →
      (fetchCells api d sectorId).1 = { d with cells := [], loading := false }) ∧
    (∀ cellId : Option Int,
      api ("/locations/cells/" ++ idText cellId ++ "/villages") = ApiResponse.failed →
      (fetchVillages api d cellId).1 = { d with villages := [], loading := false }) := by
  refine ⟨?_, ?_, ?_, ?_, ?_⟩
  · intro h
    unfold fetchProvinces
    simp only [h]
  · intro code h
    unfold fetchDistricts
    simp only [h]
  · intro id h
    unfold fetchSectors
    simp only [h]
  · intro id h
    unfold fetchCells
    simp only [h]
  · intro id h
    unfold fetchVillages
    simp only [h]

theorem fetch_failure_empties_own_level_witness :
    (fetchProvinces downApi drilledDown).1 =
      { drilledDown with provinces := [], loading := false } ∧
    (fetchDistricts downApi drilledDown "05").1 =
      { drilledDown with districts := [], loading := false } ∧
    (fetchSectors downApi drilledDown (some 10)).1 =
      { drilledDown with sectors := [], loading := false } ∧
    (fetchCells downApi drilledDown (some 100)).1 =
      { drilledDown with cells := [], loading := false } ∧
    (fetchVillages downApi drilledDown (some 1000)).1 =
      { drilledDown with villages := [], loading := false } :=
  ⟨(fetch_failure_empties_own_level downApi drilledDown).1 rfl,
    (fetch_failure_empties_own_level downApi drilledDown).2.1 "05" rfl,
    (fetch_failure_empties_own_level downApi drilledDown).2.2.1 (some 10) rfl,
    (fetch_failure_empties_own_level downApi drilledDown).2.2.2.1 (some 100) rfl,
    (fetch_failure_empties_own_level downApi drilledDown).2.2.2.2 (some 1000) rfl⟩

theorem drilledDown_fetch_failures :
    selections (fetchDistricts downApi drilledDown "05").1 = selections drilledDown ∧
    (fetchDistricts downApi drilledDown "05").1.districts = [] ∧
    (fetchDistricts downApi drilledDown "05").1.sectors = drilledDown.sectors ∧
    (fetchProvinces downApi drilledDown).1.provinces = [] ∧
    (fetchProvinces downApi drilledDown).1.districts = drilledDown.districts := by
  decide

/-! ### Client-side strip and pages (Table.jsx) -/

/-- C25. For every component (so every `currentPage`) and every `total`,
`getPageNumbersForClientSide total` is the list `getPageNumbers` returns when
the component's `totalPages` is `total`. -/
theorem getPageNumbersForClientSide_eq (t : Table) (total : Int) :
    getPageNumbersForClientSide t total = getPageNumbers { t with totalPages := total } := by
  unfold getPageNumbersForClientSide getPageNumbers
  rfl

theorem jsSlice_nat (xs : List Row) (m n : Nat) :
    jsSlice xs (m : Int) ((m : Int) + (n : Int)) = (xs.drop m).take n := by
  unfold jsSlice
  have h1 : ¬ ((m : Int) < 0) := by omega
  have h2 : ¬ ((m : Int) + (n : Int) < 0) := by omega
  simp only [if_neg h1, if_neg h2]
  by_cases hle : m ≤ xs.length
  · have hfrom : (min (m : Int) (xs.length : Int)).toNat = m := by omega
    rw [hfrom]
    by_cases hfit : m + n ≤ xs.length
    · have hto : (min ((m : Int) + (n : Int)) (xs.length : Int)
          - min (m : Int) (xs.length : Int)).toNat = n := by omega
      rw [hto]
    · have hto : (min ((m : Int) + (n : Int)) (xs.length : Int)
          - min (m : Int) (xs.length : Int)).toNat = (xs.drop m).length := by
        rw [List.length_drop]
        omega
      rw [hto, List.take_length, List.take_of_length_le (by rw [List.length_drop]; omega)]
  · have hfrom : (min (m : Int) (xs.length : Int)).toNat = xs.length := by omega
    rw [hfrom, List.drop_length, List.drop_eq_nil_of_le (by omega)]
    simp

theorem jsSlice_page (xs : List Row) (p pageSize : Nat) :
    jsSlice xs ((p : Int) * (pageSize : Int)) ((p : Int) * (pageSize : Int) + (pageSize : Int)) =
      (xs.drop (p * pageSize)).take pageSize := by
  have hprod : ((p : Int) * (pageSize : Int)) = ((p * pageSize : Nat) : Int) := by push_cast; rfl
  rw [hprod]
  exact jsSlice_nat xs (p * pageSize) pageSize

theorem flatten_pages (pageSize : Nat) (k : Nat) (xs : List Row)
    (h : xs.length ≤ k * pageSize) :
    ((List.range k).map (fun p => (xs.drop (p * pageSize)).take pageSize)).flatten = xs := by
  induction k generalizing xs with
  | zero =>
    have : xs = [] := by
      apply List.eq_nil_of_length_eq_zero
      omega
    subst this
    rfl
  | succ k ih =>
    rw [List.range_succ_eq_map, List.map_cons, List.flatten_cons, List.map_map]
    have hfun : ((fun p => (xs.drop (p * pageSize)).take pageSize) ∘ Nat.succ) =
        (fun p => ((xs.drop pageSize).drop (p * pageSize)).take pageSize) := by
      funext p
      simp only [Function.comp, List.drop_drop]
      congr 2
      rw [Nat.succ_mul]
      omega
    rw [hfun, ih (xs.drop pageSize) (by
      rw [List.length_drop]
      have : (k + 1) * pageSize = k * pageSize + pageSize := Nat.succ_mul k pageSize
      omega)]
    simp

theorem le_ceilDiv_mul (a b : Nat) (hb : 0 < b) : a ≤ ceilDiv a b * b := by
  unfold ceilDiv
  have h1 := Nat.div_add_mod (a + b - 1) b
  have h2 := Nat.mod_lt (a + b - 1) hb
  have h3 : (a + b - 1) / b * b = b * ((a + b - 1) / b) := Nat.mul_comm _ _
  omega

theorem displayedPage_eq (t : Table) (hc : t.clientSideSearch = true) (hs : t.searchTerm ≠ "")
    (hpag : t.pagination = true) (p : Nat) :
    displayedPage t p = ((filteredData t).drop (p * t.pageSize)).take t.pageSize := by
  have h1 : (t.clientSideSearch && t.searchTerm != "") = true := by simp [hc, hs]
  have h2 : (t.clientSideSearch && t.searchTerm != "" && t.pagination) = true := by
    simp [hc, hs, hpag]
  have hd : displayedPage t p =
      jsSlice (filteredData t) ((p : Int) * (t.pageSize : Int))
        ((p : Int) * (t.pageSize : Int) + (t.pageSize : Int)) := by
    show (if (t.clientSideSearch && t.searchTerm != "") = true then
        (if (t.clientSideSearch && t.searchTerm != "" && t.pagination) = true then
          jsSlice (filteredData t) ((p : Int) * (t.pageSize : Int))
            ((p : Int) * (t.pageSize : Int) + (t.pageSize : Int))
        else filteredData t)
      else t.data) = _
    rw [if_pos h1, if_pos h2]
  rw [hd]
  exact jsSlice_page (filteredData t) p t.pageSize

/-- C29. In client-side mode with a non-empty search term, pagination on and a
positive page size: the rows displayed on page `p` are the slice of the
filtered rows from `p * pageSize` up to `p * pageSize + pageSize`; a page has at
most `pageSize` rows; the pages `0 .. effectiveTotalPages - 1`, concatenated in
order, are exactly the filtered rows; and a page at or beyond
`effectiveTotalPages` is empty. -/
theorem client_pages_partition (t : Table) (hc : t.clientSideSearch = true)
    (hs : t.searchTerm ≠ "") (hpag : t.pagination = true) (hp : 0 < t.pageSize) :
    (∀ p : Nat,
      displayedPage t p = ((filteredData t).drop (p * t.pageSize)).take t.pageSize) ∧
    (∀ p : Nat, (displayedPage t p).length ≤ t.pageSize) ∧
    ((List.range (effectiveTotalPages t).toNat).map (displayedPage t)).flatten =
      filteredData t ∧
    (∀ p : Nat, effectiveTotalPages t ≤ (p : Int) → displayedPage t p = []) := by
  have hpages : effectiveTotalPages t = ((ceilDiv (filteredData t).length t.pageSize : Nat) : Int) := by
    simp [effectiveTotalPages, hc, hs]
  have hfun : displayedPage t =
      fun p => ((filteredData t).drop (p * t.pageSize)).take t.pageSize := by
    funext p
    exact displayedPage_eq t hc hs hpag p
  refine ⟨fun p => displayedPage_eq t hc hs hpag p, ?_, ?_, ?_⟩
  · intro p
    rw [displayedPage_eq t hc hs hpag p, List.length_take]
    omega
  · rw [hpages, Int.toNat_ofNat, hfun]
    exact flatten_pages t.pageSize _ _ (le_ceilDiv_mul _ _ hp)
  · intro p hle
    rw [displayedPage_eq t hc hs hpag p]
    rw [hpages] at hle
    have h1 : ceilDiv (filteredData t).length t.pageSize ≤ p := by exact_mod_cast hle
    have h2 := le_ceilDiv_mul (filteredData t).length t.pageSize hp
    have h3 : ceilDiv (filteredData t).length t.pageSize * t.pageSize ≤ p * t.pageSize :=
      Nat.mul_le_mul_right _ h1
    rw [List.drop_eq_nil_of_le (by omega)]
    simp

theorem client_pages_partition_witness :
    (∀ p : Nat, displayedPage filteredPagesExample p =
      ((filteredData filteredPagesExample).drop
        (p * filteredPagesExample.pageSize)).take filteredPagesExample.pageSize) ∧
    (∀ p : Nat, (displayedPage filteredPagesExample p).length ≤ filteredPagesExample.pageSize) ∧
    ((List.range (effectiveTotalPages filteredPagesExample).toNat).map
      (displayedPage filteredPagesExample)).flatten = filteredData filteredPagesExample ∧
    (∀ p : Nat, effectiveTotalPages filteredPagesExample ≤ (p : Int) →
      displayedPage filteredPagesExample p = []) :=
  client_pages_partition filteredPagesExample (by decide) (by decide) (by decide) (by decide)

theorem filteredPagesExample_pages :
    effectiveTotalPages filteredPagesExample = 2 ∧
    (displayedPage filteredPagesExample 0).map (fun row => row.get "id") =
      [JsValue.num 1, JsValue.num 2] ∧
    (displayedPage filteredPagesExample 1).map (fun row => row.get "id") =
      [JsValue.num 3, JsValue.num 4] ∧
    displayedPage filteredPagesExample 2 = [] := by
  decide

/-! ### Unread count (NotificationContext.jsx) -/

theorem saveNotifications_unread (p : NotificationProvider) (uid : Int) (hu : p.user = some uid)
    (list : List Notification) : (saveNotifications p list).unreadCount = countUnread list := by
  unfold saveNotifications
  rw [hu]

theorem saveNotifications_twice (q : NotificationProvider) (uid : Int) (hq : q.user = some uid)
    (first second : List Notification) :
    saveNotifications (saveNotifications q first) second = saveNotifications q second := by
  unfold saveNotifications
  simp only [hq]
  congr 1
  funext k
  by_cases hk : k = uid
  · simp [hk]
  · simp [hk]

theorem countUnread_markAll (list : List Notification) :
    countUnread (list.map (fun n => { n with read := true })) = 0 := by
  unfold countUnread
  rw [List.length_eq_zero, List.filter_eq_nil_iff]
  intro n hn
  rw [List.mem_map] at hn
  obtain ⟨m, _, rfl⟩ := hn
  simp

theorem markAsRead_map_idem (list : List Notification) (id : Int) :
    (list.map (fun n => if n.id = id then { n with read := true } else n)).map
        (fun n => if n.id = id then { n with read := true } else n) =
      list.map (fun n => if n.id = id then { n with read := true } else n) := by
  rw [List.map_map]
  apply List.map_congr_left
  intro n _
  simp only [Function.comp]
  by_cases h : n.id = id
  · simp [h]
  · simp [h]

/-- C28. For a logged-in user: after each of `addNotification`, `markAsRead`,
`markAllAsRead`, `removeNotification` and `clearNotifications`, `unreadCount`
is the number of stored notifications whose `read` flag is false; `markAsRead
id` maps each entry with that id to the same entry with `read` set and leaves
the other entries as they are, and doing it twice is doing it once;
`markAllAsRead` leaves `unreadCount` at 0. -/
theorem unread_count_tracks_inbox (p : NotificationProvider) (uid : Int)
    (hu : p.user = some uid) (now : Int) (createdAt : String) (n : NotificationInput)
    (id : Int) :
    (addNotification p now createdAt n).unreadCount =
      countUnread (addNotification p now createdAt n).notifications ∧
    (markAsRead p id).unreadCount = countUnread (markAsRead p id).notifications ∧
    (markAllAsRead p).unreadCount = countUnread (markAllAsRead p).notifications ∧
    (removeNotification p id).unreadCount = countUnread (removeNotification p id).notifications ∧
    (clearNotifications p).unreadCount = countUnread (clearNotifications p).notifications ∧
    (markAsRead p id).notifications =
      p.notifications.map (fun x => if x.id = id then { x with read := true } else x) ∧
    markAsRead (markAsRead p id) id = markAsRead p id ∧
    (markAllAsRead p).unreadCount = 0 := by
  refine ⟨?_, ?_, ?_, ?_, ?_, ?_, ?_, ?_⟩
  · unfold addNotification
    rw [hu]
    simp only [saveNotifications_unread p uid hu, saveNotifications_list p uid hu]
  · unfold markAsRead
    rw [saveNotifications_unread p uid hu, saveNotifications_list p uid hu]
  · unfold markAllAsRead
    rw [saveNotifications_unread p uid hu, saveNotifications_list p uid hu]
  · unfold removeNotification
    rw [saveNotifications_unread p uid hu, saveNotifications_list p uid hu]
  · unfold clearNotifications
    rw [hu]
    rfl
  · unfold markAsRead
    rw [saveNotifications_list p uid hu]
  · unfold markAsRead
    rw [saveNotifications_list p uid hu, saveNotifications_twice p uid hu, markAsRead_map_idem]
  · unfold markAllAsRead
    rw [saveNotifications_unread p uid hu, countUnread_markAll]

theorem unread_count_tracks_inbox_witness :
    (addNotification smallInbox 1700000000000 "2023-11-14T22:13:20.000Z"
      deletedNotice).unreadCount =
      countUnread (addNotification smallInbox 1700000000000 "2023-11-14T22:13:20.000Z"
        deletedNotice).notifications ∧
    (markAsRead smallInbox 3).unreadCount = countUnread (markAsRead smallInbox 3).notifications ∧
    (markAllAsRead smallInbox).unreadCount = countUnread (markAllAsRead smallInbox).notifications ∧
    (removeNotification smallInbox 3).unreadCount =
      countUnread (removeNotification smallInbox 3).notifications ∧
    (clearNotifications smallInbox).unreadCount =
      countUnread (clearNotifications smallInbox).notifications ∧
    (markAsRead smallInbox 3).notifications =
      smallInbox.notifications.map (fun x => if x.id = 3 then { x with read := true } else x) ∧
    markAsRead (markAsRead smallInbox 3) 3 = markAsRead smallInbox 3 ∧
    (markAllAsRead smallInbox).unreadCount = 0 :=
  unread_count_tracks_inbox smallInbox 9 rfl 1700000000000 "2023-11-14T22:13:20.000Z"
    deletedNotice 3

theorem smallInbox_counts :
    (addNotification smallInbox 1700000000000 "2023-11-14T22:13:20.000Z"
      deletedNotice).unreadCount = 3 ∧
    (markAsRead smallInbox 3).unreadCount = 1 ∧
    (markAsRead smallInbox 2).unreadCount = 2 ∧
    (removeNotification smallInbox 1).unreadCount = 1 ∧
    (markAllAsRead smallInbox).unreadCount = 0 ∧
    (clearNotifications smallInbox).unreadCount = 0 := by
  decide

/-! ### Role view (RoleViewContext.jsx) -/

theorem consistent_call (s : RoleViewProvider) (h : s.Consistent) (c : RoleViewCall) :
    (s.call c).Consistent := by
  cases c with
  | reset => exact Or.inl ⟨rfl, rfl⟩
  | switch a view =>
    show (switchRoleView a s view).Consistent
    unfold switchRoleView
    split
    · exact h
    · split
      · rename_i v
        by_cases hv : v = "finance-officer"
        · subst hv
          exact Or.inr ⟨rfl, rfl⟩
        · have : (v == "finance-officer") = false := by simpa using hv
          simp only [this, Bool.false_eq_true, if_false]
          exact h
      · exact Or.inl ⟨rfl, rfl⟩
      · exact h

theorem consistent_calls (calls : List RoleViewCall) (s : RoleViewProvider) (h : s.Consistent) :
    (calls.foldl RoleViewProvider.call s).Consistent := by
  induction calls generalizing s with
  | nil => exact h
  | cons c rest ih =>
    rw [List.foldl_cons]
    exact ih _ (consistent_call s h c)

theorem consistent_mount (a : Auth) (stored : Option String)
    (h : stored = none ∨ stored = some "finance-officer") :
    (RoleViewProvider.mount a stored).Consistent := by
  unfold RoleViewProvider.mount RoleViewProvider.Consistent
  rcases h with h | h <;> subst h <;> cases isAdmin a <;> simp

/-- C24. From a state in which the role view and the stored key agree (as
after mounting on an absent or "finance-officer" key), after every sequence of
`switchRoleView` and `resetToAdminView` calls the role view is `null` or
"finance-officer" and the key `adminRoleView` holds "finance-officer" exactly
when the role view does and is absent otherwise; a `switchRoleView` by a
non-admin, or with a value other than "finance-officer" and `null`, returns
the state and the storage unchanged. -/
theorem role_view_invariant (s : RoleViewProvider) (h : s.Consistent) :
    (∀ calls : List RoleViewCall,
      ((calls.foldl RoleViewProvider.call s).roleView = none ∨
        (calls.foldl RoleViewProvider.call s).roleView = some "finance-officer") ∧
      ((calls.foldl RoleViewProvider.call s).stored = some "finance-officer" ↔
        (calls.foldl RoleViewProvider.call s).roleView = some "finance-officer") ∧
      ((calls.foldl RoleViewProvider.call s).roleView ≠ some "finance-officer" →
        (calls.foldl RoleViewProvider.call s).stored = none)) ∧
    (∀ (a : Auth) (view : JsValue), isAdmin a = false → switchRoleView a s view = s) ∧
    (∀ (a : Auth) (view : JsValue), view ≠ JsValue.str "finance-officer" → view ≠ JsValue.null →
      switchRoleView a s view = s) := by
  refine ⟨?_, ?_, ?_⟩
  · intro calls
    rcases consistent_calls calls s h with ⟨h1, h2⟩ | ⟨h1, h2⟩
    · rw [h1, h2]
      simp
    · rw [h1, h2]
      simp
  · intro a view ha
    unfold switchRoleView
    simp [ha]
  · intro a view h1 h2
    unfold switchRoleView
    split
    · rfl
    · split
      · rename_i v
        have hv : v ≠ "finance-officer" := by
          intro hv
          apply h1
          rw [hv]
        have : (v == "finance-officer") = false := by simpa using hv
        simp only [this, Bool.false_eq_true, if_false]
      · exact absurd rfl h2
      · rfl

theorem role_view_invariant_witness :
    (∀ calls : List RoleViewCall,
      ((calls.foldl RoleViewProvider.call (RoleViewProvider.mount adminAuth none)).roleView = none ∨
        (calls.foldl RoleViewProvider.call (RoleViewProvider.mount adminAuth none)).roleView =
          some "finance-officer") ∧
      ((calls.foldl RoleViewProvider.call (RoleViewProvider.mount adminAuth none)).stored =
          some "finance-officer" ↔
        (calls.foldl RoleViewProvider.call (RoleViewProvider.mount adminAuth none)).roleView =
          some "finance-officer") ∧
      ((calls.foldl RoleViewProvider.call (RoleViewProvider.mount adminAuth none)).roleView ≠
          some "finance-officer" →
        (calls.foldl RoleViewProvider.call (RoleViewProvider.mount adminAuth none)).stored = none)) ∧
    switchRoleView applicantAuth (RoleViewProvider.mount adminAuth none)
      (JsValue.str "finance-officer") = RoleViewProvider.mount adminAuth none ∧
    switchRoleView adminAuth (RoleViewProvider.mount adminAuth none) (JsValue.str "reviewer") =
      RoleViewProvider.mount adminAuth none :=
  ⟨(role_view_invariant (RoleViewProvider.mount adminAuth none)
      (consistent_mount adminAuth none (Or.inl rfl))).1,
    (role_view_invariant (RoleViewProvider.mount adminAuth none)
      (consistent_mount adminAuth none (Or.inl rfl))).2.1 applicantAuth
      (JsValue.str "finance-officer") (by decide),
    (role_view_invariant (RoleViewProvider.mount adminAuth none)
      (consistent_mount adminAuth none (Or.inl rfl))).2.2 adminAuth (JsValue.str "reviewer")
      (by decide) (by decide)⟩

theorem role_view_switching :
    switchRoleView adminAuth {} (JsValue.str "finance-officer") =
      { roleView := some "finance-officer", stored := some "finance-officer" } ∧
    switchRoleView adminAuth (switchRoleView adminAuth {} (JsValue.str "finance-officer"))
      JsValue.null = {} ∧
    resetToAdminView (switchRoleView adminAuth {} (JsValue.str "finance-officer")) = {} ∧
    switchRoleView adminAuth {} JsValue.undefined = {} := by
  decide

/-! ### Request interceptor (api.js) -/

/-- C22. For every configuration, storage and `JSON.parse`: when a non-empty
token is stored the `Authorization` header becomes "Bearer " followed by the
token, otherwise the header is left as it was; when the stored user text is
non-empty and parses to a truthy value with a truthy `id`, `X-User-Id` becomes
that id as text, otherwise (no stored user, unparsable text, falsy value,
missing or falsy `id`) the header is left as it was and nothing is raised;
the url, method, params, body and every other header are unchanged. -/
theorem interceptor_headers (jsonParse : String → Option ParsedUser) (storage : AuthStorage)
    (config : RequestConfig) :
    (∀ token, storage.token = some token → token ≠ "" →
      (requestInterceptor jsonParse storage config).headers "Authorization" =
        some ("Bearer " ++ token)) ∧
    (storage.token = none ∨ storage.token = some "" →
      (requestInterceptor jsonParse storage config).headers "Authorization" =
        config.headers "Authorization") ∧
    (∀ userStr id, storage.user = some userStr → userStr ≠ "" →
      jsonParse userStr = some (ParsedUser.value id) → id.truthy = true →
      (requestInterceptor jsonParse storage config).headers "X-User-Id" = some id.toJsString) ∧
    ((storage.user = none ∨ storage.user = some "" ∨
        ∃ userStr, storage.user = some userStr ∧
          (jsonParse userStr = none ∨ jsonParse userStr = some ParsedUser.falsy ∨
            ∃ id, jsonParse userStr = some (ParsedUser.value id) ∧ id.truthy = false)) →
      (requestInterceptor jsonParse storage config).headers "X-User-Id" =
        config.headers "X-User-Id") ∧
    (requestInterceptor jsonParse storage config).url = config.url ∧
    (requestInterceptor jsonParse storage config).method = config.method ∧
    (requestInterceptor jsonParse storage config).params = config.params ∧
    (requestInterceptor jsonParse storage config).body = config.body ∧
    (∀ name, name ≠ "Authorization" → name ≠ "X-User-Id" →
      (requestInterceptor jsonParse storage config).headers name = config.headers name) := by
  have hne : ("X-User-Id" : String) ≠ "Authorization" := by decide
  have hne2 : ("Authorization" : String) ≠ "X-User-Id" := by decide
  refine ⟨?_, ?_, ?_, ?_, ?_, ?_, ?_, ?_, ?_⟩
  · intro token ht hnz
    unfold requestInterceptor
    simp only [ht, bne_iff_ne, ne_eq, hnz, not_false_eq_true, if_true]
    repeat' split
    all_goals simp_all [RequestConfig.setHeader]
  · intro ht
    unfold requestInterceptor
    rcases ht with ht | ht
    · simp only [ht]
      repeat' split
      all_goals simp_all [RequestConfig.setHeader]
    · simp only [ht, bne_self_eq_false, Bool.false_eq_true, if_false]
      repeat' split
      all_goals simp_all [RequestConfig.setHeader]
  · intro userStr id hu hnz hp hid
    unfold requestInterceptor
    simp only [hu, bne_iff_ne, ne_eq, hnz, not_false_eq_true, if_true, hp, hid]
    simp [RequestConfig.setHeader]
  · intro hu
    unfold requestInterceptor
    rcases hu with hu | hu | ⟨userStr, hu, hp⟩
    · simp only [hu]
      repeat' split
      all_goals simp_all [RequestConfig.setHeader]
    · simp only [hu, bne_self_eq_false, Bool.false_eq_true, if_false]
      repeat' split
      all_goals simp_all [RequestConfig.setHeader]
    · rcases hp with hp | hp | ⟨id, hp, hid⟩
      · simp only [hu, hp]
        repeat' split
        all_goals simp_all [RequestConfig.setHeader]
      · simp only [hu, hp]
        repeat' split
        all_goals simp_all [RequestConfig.setHeader]
      · simp only [hu, hp, hid, Bool.false_eq_true, if_false]
        repeat' split
        all_goals simp_all [RequestConfig.setHeader]
  · unfold requestInterceptor
    repeat' split
    all_goals rfl
  · unfold requestInterceptor
    repeat' split
    all_goals rfl
  · unfold requestInterceptor
    repeat' split
    all_goals rfl
  · unfold requestInterceptor
    repeat' split
    all_goals rfl
  · intro name h1 h2
    unfold requestInterceptor
    repeat' split
    all_goals simp_all [RequestConfig.setHeader]

theorem interceptor_headers_witness :
    (requestInterceptor sampleParse { token := some "abc", user := some "user-7" }
      listUsersRequest).headers "Authorization" = some ("Bearer " ++ "abc") ∧
    (requestInterceptor sampleParse { token := none, user := some "user-7" }
      listUsersRequest).headers "Authorization" = listUsersRequest.headers "Authorization" ∧
    (requestInterceptor sampleParse { token := some "abc", user := some "user-7" }
      listUsersRequest).headers "X-User-Id" = some (JsValue.num 7).toJsString ∧
    (requestInterceptor sampleParse { token := some "abc", user := some "not json" }
      listUsersRequest).headers "X-User-Id" = listUsersRequest.headers "X-User-Id" ∧
    (requestInterceptor sampleParse { token := some "abc", user := some "user-7" }
      listUsersRequest).headers "Content-Type" = listUsersRequest.headers "Content-Type" :=
  ⟨(interceptor_headers sampleParse { token := some "abc", user := some "user-7" }
      listUsersRequest).1 "abc" rfl (by decide),
    (interceptor_headers sampleParse { token := none, user := some "user-7" }
      listUsersRequest).2.1 (Or.inl rfl),
    (interceptor_headers sampleParse { token := some "abc", user := some "user-7" }
      listUsersRequest).2.2.1 "user-7" (JsValue.num 7) rfl (by decide) rfl rfl,
    (interceptor_headers sampleParse { token := some "abc", user := some "not json" }
      listUsersRequest).2.2.2.1 (Or.inr (Or.inr ⟨"not json", rfl, Or.inl rfl⟩)),
    (interceptor_headers sampleParse { token := some "abc", user := some "user-7" }
      listUsersRequest).2.2.2.2.2.2.2.2 "Content-Type" (by decide) (by decide)⟩

theorem listUsersRequest_intercepted :
    (requestInterceptor sampleParse { token := some "abc", user := some "user-7" }
      listUsersRequest).headers "Authorization" = some "Bearer abc" ∧
    (requestInterceptor sampleParse { token := some "abc", user := some "user-7" }
      listUsersRequest).headers "X-User-Id" = some "7" ∧
    (requestInterceptor sampleParse { token := some "", user := some "user-0" }
      listUsersRequest).headers "Authorization" = none ∧
    (requestInterceptor sampleParse { token := some "", user := some "user-0" }
      listUsersRequest).headers "X-User-Id" = none ∧
    (requestInterceptor sampleParse { token := some "abc", user := some "null" }
      listUsersRequest).headers "X-User-Id" = none := by
  decide

/-! ### Failure alerts (Applications.jsx `handleApprove`, `handleReview`) -/

/-- C23, as stated, fails: for a failed response whose body is an object with
an `error` property and no `message`, the claim's order selects "Forbidden",
while both alerts show the stringified body. -/
theorem failure_alert_skips_error_field :
    specFailureText forbiddenFailure "Unknown error" = "Forbidden" ∧
    approveAlert forbiddenFailure =
      "Failed to approve application: \x7b\x22error\x22:\x22Forbidden\x22\x7d" ∧
    reviewAlert forbiddenFailure =
      "Failed to review application: \x7b\x22error\x22:\x22Forbidden\x22\x7d" := by
  decide

/-- C23, amended. The text after the alert's prefix is: the payload itself
when it is a non-empty string; else, for another truthy payload, its `message`
property when truthy and the stringified payload otherwise (an `error`
property is not consulted); else, without payload, the error object's own
message when non-empty and the generic "Unknown error" otherwise. -/
theorem failure_text_priority (e : RequestFailure) :
    approveAlert e = "Failed to approve application: " ++ failureText e ∧
    reviewAlert e = "Failed to review application: " ++ failureText e ∧
    (∀ s, e.data = Payload.text s → failureText e = s) ∧
    (∀ o, e.data = Payload.object o → o.message.truthy = true →
      failureText e = o.message.toJsString) ∧
    (∀ o, e.data = Payload.object o → o.message.truthy = false → failureText e = o.json) ∧
    (∀ m, e.data = Payload.falsy → e.message = some m → m ≠ "" → failureText e = m) ∧
    (e.data = Payload.falsy → (e.message = none ∨ e.message = some "") →
      failureText e = "Unknown error") := by
  refine ⟨rfl, rfl, ?_, ?_, ?_, ?_, ?_⟩
  · intro s hs
    unfold failureText
    rw [hs]
  · intro o ho hm
    unfold failureText
    rw [ho]
    simp [hm]
  · intro o ho hm
    unfold failureText
    rw [ho]
    simp [hm]
  · intro m hd hm hne
    unfold failureText
    rw [hd, hm]
    simp [hne]
  · intro hd hm
    unfold failureText
    rw [hd]
    rcases hm with hm | hm <;> simp [hm]

theorem failure_text_priority_witness :
    approveAlert forbiddenFailure =
      "Failed to approve application: " ++ failureText forbiddenFailure ∧
    reviewAlert forbiddenFailure =
      "Failed to review application: " ++ failureText forbiddenFailure ∧
    failureText { data := Payload.text "Already approved" } = "Already approved" ∧
    failureText { data := Payload.object { message := JsValue.str "Not pending", json := "x" } } =
      (JsValue.str "Not pending").toJsString ∧
    failureText forbiddenFailure = "\x7b\x22error\x22:\x22Forbidden\x22\x7d" ∧
    failureText { message := some "Network Error" } = "Network Error" ∧
    failureText {} = "Unknown error" :=
  ⟨(failure_text_priority forbiddenFailure).1,
    (failure_text_priority forbiddenFailure).2.1,
    (failure_text_priority { data := Payload.text "Already approved" }).2.2.1 _ rfl,
    (failure_text_priority
      { data := Payload.object { message := JsValue.str "Not pending", json := "x" } }).2.2.2.1
      _ rfl (by decide),
    (failure_text_priority forbiddenFailure).2.2.2.2.1 _ rfl (by decide),
    (failure_text_priority { message := some "Network Error" }).2.2.2.2.2.1 _ rfl rfl (by decide),
    (failure_text_priority {}).2.2.2.2.2.2 rfl (Or.inl rfl)⟩

/-! ### Request keys (HierarchicalLocationDropdown.jsx) -/

theorem digitChar_facts (d : Nat) (hd : d < 10) :
    (Char.ofNat (48 + d)).isDigit = true ∧ (Char.ofNat (48 + d)).toNat - 48 = d ∧
    isJsWhitespace (Char.ofNat (48 + d)) = false ∧ Char.ofNat (48 + d) ≠ '-' ∧
    Char.ofNat (48 + d) ≠ '+' := by
  interval_cases d <;> decide

theorem digitsValue_append (ds : List Char) (c : Char) :
    digitsValue (ds ++ [c]) = 10 * digitsValue ds + (c.toNat - 48) := by
  unfold digitsValue
  rw [List.foldl_append]
  rfl

theorem natDigits_spec (fuel : Nat) : ∀ k : Nat, k < fuel →
    (∀ c ∈ natDigits fuel k, c.isDigit = true) ∧
    (∃ d rest, d < 10 ∧ natDigits fuel k = Char.ofNat (48 + d) :: rest) ∧
    digitsValue (natDigits fuel k) = k := by
  induction fuel with
  | zero => intro k hk; omega
  | succ fuel ih =>
    intro k hk
    unfold natDigits
    by_cases h10 : k < 10
    · simp only [h10, if_true]
      obtain ⟨f1, f2, _⟩ := digitChar_facts k h10
      refine ⟨?_, ⟨k, [], h10, rfl⟩, ?_⟩
      · intro c hc
        simp only [List.mem_singleton] at hc
        subst hc
        exact f1
      · simp [digitsValue, f2]
    · simp only [h10, if_false]
      obtain ⟨i1, ⟨d, rest, hd, hrest⟩, i3⟩ := ih (k / 10) (by omega)
      obtain ⟨f1, f2, _⟩ := digitChar_facts (k % 10) (Nat.mod_lt _ (by omega))
      refine ⟨?_, ⟨d, rest ++ [Char.ofNat (48 + k % 10)], hd, by rw [hrest]; rfl⟩, ?_⟩
      · intro c hc
        rw [List.mem_append] at hc
        rcases hc with hc | hc
        · exact i1 c hc
        · simp only [List.mem_singleton] at hc
          subst hc
          exact f1
      · rw [digitsValue_append, i3, f2]
        omega

theorem parseInt_digits (cs : List Char) (d : Nat) (rest : List Char) (hd : d < 10)
    (hcs : cs = Char.ofNat (48 + d) :: rest) (hall : ∀ c ∈ cs, c.isDigit = true) :
    parseInt ⟨cs⟩ = some (digitsValue cs : Int) := by
  obtain ⟨_, _, fw, fm, fp⟩ := digitChar_facts d hd
  have hdrop : cs.dropWhile isJsWhitespace = cs := by
    rw [hcs, List.dropWhile_cons]
    simp [fw]
  have htake : cs.takeWhile Char.isDigit = cs := by
    rw [List.takeWhile_eq_self_iff]
    exact hall
  unfold parseInt
  simp only [hdrop]
  subst hcs
  have hne : ((Char.ofNat (48 + d) :: rest).isEmpty) = false := rfl
  split
  · rename_i h
    split at h
    · rename_i heq
      simp only [List.cons.injEq] at heq
      exact absurd heq.1 fm
    · rename_i heq
      simp only [List.cons.injEq] at heq
      exact absurd heq.1 fp
    · rw [htake, hne] at h
      cases h
  · split
    · rename_i h1 h2
      split at h2
      · rename_i heq
        simp only [List.cons.injEq] at heq
        exact absurd heq.1 fm
      · rename_i heq
        simp only [List.cons.injEq] at heq
        exact absurd heq.1 fp
      · cases h2
    · split
      · rename_i heq
        simp only [List.cons.injEq] at heq
        exact absurd heq.1 fm
      · rename_i heq
        simp only [List.cons.injEq] at heq
        exact absurd heq.1 fp
      · simp only [htake]

theorem parseInt_numberToString (n : Int) : parseInt (numberToString n) = some n := by
  obtain ⟨hall, ⟨d, rest, hd, hrest⟩, hval⟩ := natDigits_spec (n.natAbs + 1) n.natAbs (by omega)
  unfold numberToString
  by_cases hneg : n < 0
  · simp only [hneg, if_true]
    obtain ⟨_, _, fw, _, _⟩ := digitChar_facts d hd
    have hw : isJsWhitespace '-' = false := by decide
    have htake : (natDigits (n.natAbs + 1) n.natAbs).takeWhile Char.isDigit =
        natDigits (n.natAbs + 1) n.natAbs := by
      rw [List.takeWhile_eq_self_iff]
      exact hall
    unfold parseInt
    simp only [List.dropWhile_cons, hw, Bool.false_eq_true, if_false, htake, hval]
    rw [hrest]
    simp only [List.isEmpty_cons, Bool.false_eq_true, if_false, if_true]
    congr 1
    omega
  · simp only [hneg, if_false]
    rw [parseInt_digits _ d rest hd hrest hall, hval]
    congr 1
    omega

theorem numberToString_ne_empty (n : Int) : numberToString n ≠ "" := by
  obtain ⟨_, ⟨d, rest, _, hrest⟩, _⟩ := natDigits_spec (n.natAbs + 1) n.natAbs (by omega)
  unfold numberToString
  intro h
  have hdata := congrArg String.data h
  split at hdata
  · cases hdata
  · rw [hrest] at hdata
    cases hdata

theorem filter_isGet_emitEmpty (d : Dropdown) :
    (emitEmpty d).filter DropdownEffect.isGet = [] := by
  unfold emitEmpty
  cases d.hasOnChange <;> simp [DropdownEffect.isGet]

theorem gets_of_fetchDistricts (api : Api) (d : Dropdown) (code : String) :
    (fetchDistricts api d code).2.filter DropdownEffect.isGet =
      [DropdownEffect.get ("/locations/provinces/" ++ code ++ "/districts")] := by
  unfold fetchDistricts
  cases h : api ("/locations/provinces/" ++ code ++ "/districts") <;>
    simp [h, DropdownEffect.isGet, filter_isGet_emitEmpty]

theorem gets_of_fetchSectors (api : Api) (d : Dropdown) (id : Option Int) :
    (fetchSectors api d id).2.filter DropdownEffect.isGet =
      [DropdownEffect.get ("/locations/districts/" ++ idText id ++ "/sectors")] := by
  unfold fetchSectors
  cases h : api ("/locations/districts/" ++ idText id ++ "/sectors") <;>
    simp [h, DropdownEffect.isGet, filter_isGet_emitEmpty]

theorem gets_of_fetchCells (api : Api) (d : Dropdown) (id : Option Int) :
    (fetchCells api d id).2.filter DropdownEffect.isGet =
      [DropdownEffect.get ("/locations/sectors/" ++ idText id ++ "/cells")] := by
  unfold fetchCells
  cases h : api ("/locations/sectors/" ++ idText id ++ "/cells") <;>
    simp [h, DropdownEffect.isGet, filter_isGet_emitEmpty]

theorem gets_of_fetchVillages (api : Api) (d : Dropdown) (id : Option Int) :
    (fetchVillages api d id).2.filter DropdownEffect.isGet =
      [DropdownEffect.get ("/locations/cells/" ++ idText id ++ "/villages")] := by
  unfold fetchVillages
  cases h : api ("/locations/cells/" ++ idText id ++ "/villages") <;>
    simp [h, DropdownEffect.isGet, filter_isGet_emitEmpty]

/-- C26. Selecting a province whose id matches an entry of the province list
issues exactly one request, for `/locations/provinces/{code}/districts` with
that entry's code; selecting the district, sector or cell of a location (the
option value is its id as text) issues exactly one request, for
`/locations/districts/{id}/sectors`, `/locations/sectors/{id}/cells` or
`/locations/cells/{id}/villages` with that id; and the reverse resolution asks
for the children of the hierarchy entry of each level with the same path and
key. -/
theorem children_requested_by_key (api : Api) (d : Dropdown) :
    (∀ (provinceId : String) (province : Location), provinceId ≠ "" →
      d.provinces.find? (fun p => numberToString p.id == provinceId) = some province →
      (handleProvinceChange api d provinceId).2.filter DropdownEffect.isGet =
        [DropdownEffect.get ("/locations/provinces/" ++ province.code ++ "/districts")]) ∧
    (∀ loc : Location,
      (handleDistrictChange api d (numberToString loc.id)).2.filter DropdownEffect.isGet =
        [DropdownEffect.get ("/locations/districts/" ++ numberToString loc.id ++ "/sectors")]) ∧
    (∀ loc : Location,
      (handleSectorChange api d (numberToString loc.id)).2.filter DropdownEffect.isGet =
        [DropdownEffect.get ("/locations/sectors/" ++ numberToString loc.id ++ "/cells")]) ∧
    (∀ loc : Location,
      (handleCellChange api d (numberToString loc.id)).2.filter DropdownEffect.isGet =
        [DropdownEffect.get ("/locations/cells/" ++ numberToString loc.id ++ "/villages")]) ∧
    (∀ (hierarchy : List Location) (entry : Location),
      (hierarchyEntry hierarchy "PROVINCE" = some entry →
        (loadProvince api hierarchy d).2.head? =
          some (DropdownEffect.get ("/locations/provinces/" ++ entry.code ++ "/districts"))) ∧
      (hierarchyEntry hierarchy "DISTRICT" = some entry →
        (loadDistrict api hierarchy d).2.head? =
          some (DropdownEffect.get
            ("/locations/districts/" ++ numberToString entry.id ++ "/sectors"))) ∧
      (hierarchyEntry hierarchy "SECTOR" = some entry →
        (loadSector api hierarchy d).2.head? =
          some (DropdownEffect.get
            ("/locations/sectors/" ++ numberToString entry.id ++ "/cells"))) ∧
      (hierarchyEntry hierarchy "CELL" = some entry →
        (loadCell api hierarchy d).2.head? =
          some (DropdownEffect.get
            ("/locations/cells/" ++ numberToString entry.id ++ "/villages")))) := by
  refine ⟨?_, ?_, ?_, ?_, ?_⟩
  · intro provinceId province hne hfind
    have hb : (provinceId != "") = true := by simpa using hne
    unfold handleProvinceChange
    simp only [hb, if_true, hfind, List.filter_append, gets_of_fetchDistricts,
      filter_isGet_emitEmpty, List.append_nil]
  · intro loc
    have hb : (numberToString loc.id != "") = true := by
      simpa using numberToString_ne_empty loc.id
    unfold handleDistrictChange
    simp only [hb, if_true, List.filter_append, gets_of_fetchSectors, filter_isGet_emitEmpty,
      List.append_nil, parseInt_numberToString, idText]
  · intro loc
    have hb : (numberToString loc.id != "") = true := by
      simpa using numberToString_ne_empty loc.id
    unfold handleSectorChange
    simp only [hb, if_true, List.filter_append, gets_of_fetchCells, filter_isGet_emitEmpty,
      List.append_nil, parseInt_numberToString, idText]
  · intro loc
    have hb : (numberToString loc.id != "") = true := by
      simpa using numberToString_ne_empty loc.id
    unfold handleCellChange
    simp only [hb, if_true, List.filter_append, gets_of_fetchVillages, filter_isGet_emitEmpty,
      List.append_nil, parseInt_numberToString, idText]
  · intro hierarchy entry
    refine ⟨?_, ?_, ?_, ?_⟩
    · intro h
      unfold loadProvince
      rw [h]
      simp only
      cases api ("/locations/provinces/" ++ entry.code ++ "/districts") <;> rfl
    · intro h
      unfold loadDistrict
      rw [h]
      simp only
      cases api ("/locations/districts/" ++ numberToString entry.id ++ "/sectors") <;> rfl
    · intro h
      unfold loadSector
      rw [h]
      simp only
      cases api ("/locations/sectors/" ++ numberToString entry.id ++ "/cells") <;> rfl
    · intro h
      unfold loadCell
      rw [h]
      simp only
      cases api ("/locations/cells/" ++ numberToString entry.id ++ "/villages") <;> rfl

theorem children_requested_by_key_witness :
    (handleProvinceChange eastApi drilledDown "2").2.filter DropdownEffect.isGet =
      [DropdownEffect.get "/locations/provinces/05/districts"] ∧
    (handleDistrictChange eastApi drilledDown "10").2.filter DropdownEffect.isGet =
      [DropdownEffect.get "/locations/districts/10/sectors"] ∧
    (loadProvince midTreeApi
      [⟨2, "East", "05", "PROVINCE"⟩, ⟨50, "Bugesera", "0501", "DISTRICT"⟩] freshDropdown).2.head? =
      some (DropdownEffect.get "/locations/provinces/05/districts") ∧
    (loadDistrict midTreeApi
      [⟨2, "East", "05", "PROVINCE"⟩, ⟨50, "Bugesera", "0501", "DISTRICT"⟩] freshDropdown).2.head? =
      some (DropdownEffect.get "/locations/districts/50/sectors") :=
  ⟨(children_requested_by_key eastApi drilledDown).1 "2" ⟨2, "East", "05", "PROVINCE"⟩
      (by decide) (by decide),
    (children_requested_by_key eastApi drilledDown).2.1 ⟨10, "Gasabo", "0101", "DISTRICT"⟩,
    ((children_requested_by_key midTreeApi freshDropdown).2.2.2.2
      [⟨2, "East", "05", "PROVINCE"⟩, ⟨50, "Bugesera", "0501", "DISTRICT"⟩]
      ⟨2, "East", "05", "PROVINCE"⟩).1 (by decide),
    ((children_requested_by_key midTreeApi freshDropdown).2.2.2.2
      [⟨2, "East", "05", "PROVINCE"⟩, ⟨50, "Bugesera", "0501", "DISTRICT"⟩]
      ⟨50, "Bugesera", "0501", "DISTRICT"⟩).2.1 (by decide)⟩

/-! ### Visible levels (HierarchicalLocationDropdown.jsx) -/

theorem selected_chain_fetchLocationHierarchy (api : Api) (d : Dropdown) (locationId : String)
    (h : PrefixSelected d) : PrefixSelected (fetchLocationHierarchy api d locationId).1 := by
  obtain ⟨p1, p2, p3, p4⟩ := h
  have ne := numberToString_ne_empty
  unfold fetchLocationHierarchy
  cases h0 : api ("/locations/" ++ locationId ++ "/hierarchy") with
  | failed =>
    simp only [h0]
    exact ⟨p1, p2, p3, p4⟩
  | ok data =>
    simp only [h0]
    generalize bodyOrEmpty data = hier
    unfold loadProvince
    cases hp : hierarchyEntry hier "PROVINCE" with
    | none => exact ⟨p1, p2, p3, p4⟩
    | some p =>
      simp only
      cases h1 : api ("/locations/provinces/" ++ p.code ++ "/districts") with
      | failed =>
        simp only [h1]
        exact ⟨fun _ => ne _, p2, p3, p4⟩
      | ok ds =>
        simp only [h1]
        unfold loadDistrict
        cases hd : hierarchyEntry hier "DISTRICT" with
        | none => exact ⟨fun _ => ne _, p2, p3, p4⟩
        | some dist =>
          simp only
          cases h2 : api ("/locations/districts/" ++ numberToString dist.id ++ "/sectors") with
          | failed =>
            simp only [h2]
            exact ⟨fun _ => ne _, fun _ => ne _, p3, p4⟩
          | ok ss =>
            simp only [h2]
            unfold loadSector
            cases hs : hierarchyEntry hier "SECTOR" with
            | none => exact ⟨fun _ => ne _, fun _ => ne _, p3, p4⟩
            | some sec =>
              simp only
              cases h3 : api ("/locations/sectors/" ++ numberToString sec.id ++ "/cells") with
              | failed =>
                simp only [h3]
                exact ⟨fun _ => ne _, fun _ => ne _, fun _ => ne _, p4⟩
              | ok cs =>
                simp only [h3]
                unfold loadCell
                cases hc : hierarchyEntry hier "CELL" with
                | none => exact ⟨fun _ => ne _, fun _ => ne _, fun _ => ne _, p4⟩
                | some cell =>
                  simp only
                  cases h4 : api ("/locations/cells/" ++ numberToString cell.id ++ "/villages") with
                  | failed =>
                    simp only [h4]
                    exact ⟨fun _ => ne _, fun _ => ne _, fun _ => ne _, fun _ => ne _⟩
                  | ok vs =>
                    simp only [h4]
                    unfold loadVillage
                    cases hv : hierarchyEntry hier "VILLAGE" <;>
                      exact ⟨fun _ => ne _, fun _ => ne _, fun _ => ne _, fun _ => ne _⟩

theorem selected_chain_handleEvent (api : Api) (d : Dropdown) (ev : WidgetEvent)
    (h : PrefixSelected d) (hen : enabled d ev = true) :
    PrefixSelected (handleEvent api d ev) := by
  obtain ⟨p1, p2, p3, p4⟩ := h
  cases ev with
  | setValue v => exact ⟨p1, p2, p3, p4⟩
  | loadProvinces =>
    show PrefixSelected (fetchProvinces api d).1
    unfold fetchProvinces
    cases api "/locations/provinces" <;> exact ⟨p1, p2, p3, p4⟩
  | selectVillage id =>
    have hc : d.selectedCell ≠ "" := by simpa [enabled, visible] using hen
    exact ⟨p1, p2, p3, fun _ => hc⟩
  | select level id =>
    cases level with
    | province =>
      show PrefixSelected (handleProvinceChange api d id).1
      unfold handleProvinceChange
      by_cases hid : id = ""
      · subst hid
        simp [PrefixSelected]
      · have hb : (id != "") = true := by simpa using hid
        simp only [hb, if_true]
        cases hf : d.provinces.find? (fun p => numberToString p.id == id) with
        | none => exact ⟨fun _ => hid, p2, p3, p4⟩
        | some province =>
          simp only
          unfold fetchDistricts
          cases h1 : api ("/locations/provinces/" ++ province.code ++ "/districts") with
          | failed =>
            simp only [h1]
            exact ⟨fun _ => hid, p2, p3, p4⟩
          | ok data =>
            simp only [h1]
            exact ⟨fun _ => hid, fun hx => absurd rfl hx, fun hx => absurd rfl hx,
              fun hx => absurd rfl hx⟩
    | district =>
      have hv : d.selectedProvince ≠ "" := by simpa [enabled, visible] using hen
      show PrefixSelected (handleDistrictChange api d id).1
      unfold handleDistrictChange
      by_cases hid : id = ""
      · subst hid
        simp [PrefixSelected]
      · have hb : (id != "") = true := by simpa using hid
        simp only [hb, if_true]
        unfold fetchSectors
        cases h1 : api ("/locations/districts/" ++ idText (parseInt id) ++ "/sectors") with
        | failed =>
          simp only [h1]
          exact ⟨fun _ => hv, fun _ => hid, p3, p4⟩
        | ok data =>
          simp only [h1]
          exact ⟨fun _ => hv, fun _ => hid, fun hx => absurd rfl hx, fun hx => absurd rfl hx⟩
    | sector =>
      have hv : d.selectedDistrict ≠ "" := by simpa [enabled, visible] using hen
      show PrefixSelected (handleSectorChange api d id).1
      unfold handleSectorChange
      by_cases hid : id = ""
      · subst hid
        simp only [bne_self_eq_false, Bool.false_eq_true, if_false]
        exact ⟨p1, fun hx => absurd rfl hx, fun hx => absurd rfl hx, fun hx => absurd rfl hx⟩
      · have hb : (id != "") = true := by simpa using hid
        simp only [hb, if_true]
        unfold fetchCells
        cases h1 : api ("/locations/sectors/" ++ idText (parseInt id) ++ "/cells") with
        | failed =>
          simp only [h1]
          exact ⟨p1, fun _ => hv, fun _ => hid, p4⟩
        | ok data =>
          simp only [h1]
          exact ⟨p1, fun _ => hv, fun _ => hid, fun hx => absurd rfl hx⟩
    | cell =>
      have hv : d.selectedSector ≠ "" := by simpa [enabled, visible] using hen
      show PrefixSelected (handleCellChange api d id).1
      unfold handleCellChange
      by_cases hid : id = ""
      · subst hid
        simp only [bne_self_eq_false, Bool.false_eq_true, if_false]
        exact ⟨p1, p2, fun hx => absurd rfl hx, fun hx => absurd rfl hx⟩
      · have hb : (id != "") = true := by simpa using hid
        simp only [hb, if_true]
        unfold fetchVillages
        cases h1 : api ("/locations/cells/" ++ idText (parseInt id) ++ "/villages") with
        | failed =>
          simp only [h1]
          exact ⟨p1, p2, fun _ => hv, fun _ => hid⟩
        | ok data =>
          simp only [h1]
          exact ⟨p1, p2, fun _ => hv, fun _ => hid⟩
theorem selected_chain_hierarchyEffect (api : Api) (d : Dropdown) (h : PrefixSelected d) :
    PrefixSelected (hierarchyEffect api d).1 := by
  unfold hierarchyEffect
  split
  · exact selected_chain_fetchLocationHierarchy api d d.value h
  · exact h

theorem selected_chain_step (api : Api) (d : Dropdown) (ev : WidgetEvent)
    (h : PrefixSelected d) (hen : enabled d ev = true) :
    PrefixSelected (d.step api ev).1 := by
  unfold Dropdown.step
  split
  · exact selected_chain_hierarchyEffect api _ (selected_chain_handleEvent api d ev h hen)
  · exact selected_chain_handleEvent api d ev h hen

theorem selected_chain_of_reachable (d : Dropdown) (h : Reachable d) : PrefixSelected d := by
  induction h with
  | init value hasOnChange => exact ⟨fun hx => absurd rfl hx, fun hx => absurd rfl hx,
      fun hx => absurd rfl hx, fun hx => absurd rfl hx⟩
  | step api d ev _ hen ih => exact selected_chain_step api d ev ih hen

/-- C27: in every state the widget reaches from its all-empty initial state by
external value changes, province list loads and user selections made in a
rendered dropdown, a level below the province is rendered exactly when the
level right above it has a non-empty selection, a rendered level has every
level above it rendered, and a level with a non-empty selection has non-empty
selections at all levels above it. -/
theorem visible_levels_initial_segment (d : Dropdown) (h : Reachable d) :
    visible d 0 = true ∧
    (∀ level : Nat, 1 ≤ level → level ≤ 4 →
      (visible d level = true ↔ selectionAt d (level - 1) ≠ "")) ∧
    (∀ level : Nat, 1 ≤ level → visible d level = true → selectionAt d (level - 1) ≠ "") ∧
    (∀ level above : Nat, selectionAt d level ≠ "" → above < level →
      selectionAt d above ≠ "") ∧
    (∀ level above : Nat, visible d level = true → above < level →
      visible d above = true) := by
  obtain ⟨p1, p2, p3, p4⟩ := selected_chain_of_reachable d h
  have q2 : d.selectedSector ≠ "" → d.selectedProvince ≠ "" := fun hx => p1 (p2 hx)
  have q3 : d.selectedCell ≠ "" → d.selectedDistrict ≠ "" := fun hx => p2 (p3 hx)
  have q3b : d.selectedCell ≠ "" → d.selectedProvince ≠ "" := fun hx => q2 (p3 hx)
  have q4 : d.selectedVillage ≠ "" → d.selectedSector ≠ "" := fun hx => p3 (p4 hx)
  have q4b : d.selectedVillage ≠ "" → d.selectedDistrict ≠ "" := fun hx => q3 (p4 hx)
  have q4c : d.selectedVillage ≠ "" → d.selectedProvince ≠ "" := fun hx => q3b (p4 hx)
  refine ⟨rfl, ?_, ?_, ?_, ?_⟩
  · intro level h1 h4
    rcases level with _ | _ | _ | _ | _ | n
    · omega
    all_goals first
      | omega
      | simp [visible, selectionAt, selections]
  · intro level h1 hv
    rcases level with _ | _ | _ | _ | _ | n
    · omega
    all_goals simp_all [visible, selectionAt, selections]
  · intro level above hs hlt
    rcases level with _ | _ | _ | _ | _ | n
    · omega
    all_goals first
      | (rcases above with _ | _ | _ | _ | _ | m
         all_goals first
           | omega
           | simp_all [selectionAt, selections])
  · intro level above hv hlt
    rcases level with _ | _ | _ | _ | _ | n
    · omega
    all_goals first
      | (rcases above with _ | _ | _ | _ | _ | m
         all_goals first
           | omega
           | simp_all [visible])

theorem visible_levels_initial_segment_witness :
    Reachable resolvedForm ∧
    selectionAt resolvedForm 1 = "50" ∧
    selectionAt resolvedForm 0 ≠ "" ∧
    visible resolvedForm 1 = true ∧
    (visible resolvedForm 3 = true ↔ selectionAt resolvedForm 2 ≠ "") :=
  ⟨Reachable.step editFormApi { value := "50" } WidgetEvent.loadProvinces
      (Reachable.init "50" true) rfl,
    by decide,
    (visible_levels_initial_segment resolvedForm
      (Reachable.step editFormApi { value := "50" } WidgetEvent.loadProvinces
        (Reachable.init "50" true) rfl)).2.2.2.1 1 0 (by decide) (by decide),
    (visible_levels_initial_segment resolvedForm
      (Reachable.step editFormApi { value := "50" } WidgetEvent.loadProvinces
        (Reachable.init "50" true) rfl)).2.2.2.2 2 1 (by decide) (by decide),
    (visible_levels_initial_segment resolvedForm
      (Reachable.step editFormApi { value := "50" } WidgetEvent.loadProvinces
        (Reachable.init "50" true) rfl)).2.1 3 (by decide) (by decide)⟩

/-! ### The resolution guard (HierarchicalLocationDropdown.jsx) -/

theorem handleEvent_keeps_flag (api : Api) (d : Dropdown) (ev : WidgetEvent)
    (h : ev.isProvinceChange = false) :
    (handleEvent api d ev).hierarchyLoaded = d.hierarchyLoaded := by
  cases ev with
  | setValue v => rfl
  | loadProvinces =>
    show (fetchProvinces api d).1.hierarchyLoaded = _
    unfold fetchProvinces
    cases api "/locations/provinces" <;> rfl
  | selectVillage id => rfl
  | select level id =>
    cases level with
    | province => simp [WidgetEvent.isProvinceChange] at h
    | district =>
      show (handleDistrictChange api d id).1.hierarchyLoaded = _
      unfold handleDistrictChange fetchSectors
      by_cases hid : id = ""
      · simp [hid]
      · cases h1 : api ("/locations/districts/" ++ idText (parseInt id) ++ "/sectors") <;>
          simp [hid, h1]
    | sector =>
      show (handleSectorChange api d id).1.hierarchyLoaded = _
      unfold handleSectorChange fetchCells
      by_cases hid : id = ""
      · simp [hid]
      · cases h1 : api ("/locations/sectors/" ++ idText (parseInt id) ++ "/cells") <;>
          simp [hid, h1]
    | cell =>
      show (handleCellChange api d id).1.hierarchyLoaded = _
      unfold handleCellChange fetchVillages
      by_cases hid : id = ""
      · simp [hid]
      · cases h1 : api ("/locations/cells/" ++ idText (parseInt id) ++ "/villages") <;>
          simp [hid, h1]

theorem handleProvinceChange_guard (api : Api) (d : Dropdown) (id : String) :
    (handleProvinceChange api d id).1.value = d.value ∧
    (handleProvinceChange api d id).1.provinces = d.provinces ∧
    (handleProvinceChange api d id).1.hierarchyLoaded = false := by
  unfold handleProvinceChange
  by_cases hid : id = ""
  · simp [hid]
  · cases hf : d.provinces.find? (fun p => numberToString p.id == id) with
    | none => simp [hid, hf]
    | some province =>
      unfold fetchDistricts
      cases h1 : api ("/locations/provinces/" ++ province.code ++ "/districts") <;>
        simp [hid, hf, h1]

theorem hierarchyEffect_fires (api : Api) (d : Dropdown) :
    ((hierarchyEffect api d).2 = 1 ↔
      (d.value ≠ "" ∧ 0 < d.provinces.length ∧ d.hierarchyLoaded = false)) ∧
    (hierarchyEffect api d).2 ≤ 1 ∧
    ((hierarchyEffect api d).2 = 1 → (hierarchyEffect api d).1.hierarchyLoaded = true) ∧
    ((hierarchyEffect api d).2 = 0 → (hierarchyEffect api d).1 = d) := by
  unfold hierarchyEffect
  split <;> rename_i hc <;> simp_all

theorem step_count (api : Api) (d : Dropdown) (ev : WidgetEvent) :
    ((d.step api ev).2 = 1 ↔
      (depsChanged d (handleEvent api d ev) ev = true ∧ (handleEvent api d ev).value ≠ "" ∧
        0 < (handleEvent api d ev).provinces.length ∧
        (handleEvent api d ev).hierarchyLoaded = false)) ∧
    (d.step api ev).2 ≤ 1 ∧
    ((d.step api ev).2 = 1 → (d.step api ev).1.hierarchyLoaded = true) ∧
    ((d.step api ev).2 = 0 → (d.step api ev).1 = handleEvent api d ev) := by
  obtain ⟨e1, e2, e3, e4⟩ := hierarchyEffect_fires api (handleEvent api d ev)
  unfold Dropdown.step
  split
  · rename_i hc
    exact ⟨by rw [e1]; simp [hc], e2, e3, e4⟩
  · rename_i hc
    simp [hc]

theorem step_with_flag (api : Api) (d : Dropdown) (ev : WidgetEvent)
    (hflag : d.hierarchyLoaded = true) (hev : ev.isProvinceChange = false) :
    (d.step api ev).2 = 0 ∧ (d.step api ev).1.hierarchyLoaded = true := by
  have hk := handleEvent_keeps_flag api d ev hev
  obtain ⟨e1, e2, _, e4⟩ := step_count api d ev
  have h0 : (d.step api ev).2 = 0 := by
    by_contra hne
    have h1 : (d.step api ev).2 = 1 := by omega
    have := (e1.mp h1).2.2.2
    rw [hk, hflag] at this
    exact absurd this (by decide)
  exact ⟨h0, by rw [e4 h0, hk, hflag]⟩

theorem run_without_province_change (api : Api) (evs : List WidgetEvent) :
    ∀ d : Dropdown, (∀ ev ∈ evs, WidgetEvent.isProvinceChange ev = false) →
      (d.run api evs).2 ≤ 1 ∧ (d.hierarchyLoaded = true → (d.run api evs).2 = 0) := by
  induction evs with
  | nil => intro d _; simp [Dropdown.run]
  | cons ev rest ih =>
    intro d hall
    have hev : ev.isProvinceChange = false := hall ev (List.mem_cons_self _ _)
    have hrest : ∀ e ∈ rest, WidgetEvent.isProvinceChange e = false :=
      fun e he => hall e (List.mem_cons_of_mem _ he)
    obtain ⟨r1, r2⟩ := ih (d.step api ev).1 hrest
    obtain ⟨_, e2, e3, _⟩ := step_count api d ev
    simp only [Dropdown.run]
    constructor
    · by_cases h1 : (d.step api ev).2 = 1
      · have := r2 (e3 h1)
        omega
      · omega
    · intro hflag
      obtain ⟨s0, s1⟩ := step_with_flag api d ev hflag hev
      have := r2 s1
      omega

/-- C21. The failing input evaluated: an edit form whose stored location
"50" lies in province 2. Once the provinces are loaded the resolution runs and
selects province 2. The user then picks province 1: the handler stores "1" and
clears the flag, the effect starts a second resolution, and the selected
province is "2" again. A new external value "60" supplied to the resolved
form starts no resolution. -/
theorem resolution_rearmed_by_province_change :
    (resolvedForm.hierarchyLoaded = true ∧ resolvedForm.selectedProvince = "2" ∧
      resolvedForm.provinces = twoProvinces) ∧
    (Dropdown.run editFormApi { value := "50" }
      [WidgetEvent.loadProvinces, WidgetEvent.select Level.province "1"]).2 = 2 ∧
    (handleEvent editFormApi resolvedForm
      (WidgetEvent.select Level.province "1")).selectedProvince = "1" ∧
    (resolvedForm.step editFormApi (WidgetEvent.select Level.province "1")).1.selectedProvince
      = "2" ∧
    (resolvedForm.step editFormApi (WidgetEvent.setValue "60")).2 = 0 ∧
    (resolvedForm.step editFormApi (WidgetEvent.setValue "60")).1.value = "60" := by
  decide

/-- The resolution effect over the step relation: an event starts a
resolution exactly when, after its handler, the dependencies of the effect
changed, the external value is non-empty, the province list is non-empty and
the flag is clear; it starts at most one and the flag is set afterwards. While
the flag is set, no event other than a province change by the user starts a
resolution or clears the flag, so a run of such events starts at most one
resolution, and none from a state whose flag is set. The province handler
alone clears the flag. -/
theorem resolution_effect_facts (api : Api) (d : Dropdown) :
    (∀ ev : WidgetEvent,
      ((d.step api ev).2 = 1 ↔
        (depsChanged d (handleEvent api d ev) ev = true ∧ (handleEvent api d ev).value ≠ "" ∧
          0 < (handleEvent api d ev).provinces.length ∧
          (handleEvent api d ev).hierarchyLoaded = false)) ∧
      (d.step api ev).2 ≤ 1 ∧
      ((d.step api ev).2 = 1 → (d.step api ev).1.hierarchyLoaded = true)) ∧
    (∀ ev : WidgetEvent, d.hierarchyLoaded = true → ev.isProvinceChange = false →
      (d.step api ev).2 = 0 ∧ (d.step api ev).1.hierarchyLoaded = true) ∧
    (∀ evs : List WidgetEvent, (∀ ev ∈ evs, WidgetEvent.isProvinceChange ev = false) →
      (d.run api evs).2 ≤ 1 ∧ (d.hierarchyLoaded = true → (d.run api evs).2 = 0)) ∧
    (∀ ev : WidgetEvent, ev.isProvinceChange = false →
      (handleEvent api d ev).hierarchyLoaded = d.hierarchyLoaded) ∧
    (∀ id : String, (handleEvent api d (WidgetEvent.select Level.province id)).hierarchyLoaded
      = false) := by
  refine ⟨?_, ?_, ?_, ?_, ?_⟩
  · intro ev
    obtain ⟨e1, e2, e3, _⟩ := step_count api d ev
    exact ⟨e1, e2, e3⟩
  · intro ev hflag hev
    exact step_with_flag api d ev hflag hev
  · intro evs hall
    exact run_without_province_change api evs d hall
  · intro ev hev
    exact handleEvent_keeps_flag api d ev hev
  · intro id
    exact (handleProvinceChange_guard api d id).2.2

/-! ### Sidebar links and route guards (Sidebar.jsx, ProtectedRoute.jsx, App.jsx) -/

theorem mem_filteredMenuItems (a : Auth) (s : RoleViewProvider) (item : MenuItem)
    (h : item ∈ filteredMenuItems a s) : item ∈ allMenuItems ∧ canAccess a item.roles = true := by
  unfold filteredMenuItems menuItems at h
  rw [List.mem_filter, List.mem_filter] at h
  exact ⟨h.1.1, h.2⟩

/-- C30: for a logged-in user with any roles and any role view, every link
the sidebar renders leads to a route of App.jsx whose `ProtectedRoute` renders
the page for that user; for an administrator the menu of the finance-officer
view is the menu of the admin view without the Users link, which the admin
view has; for any other user the menu does not depend on the role view. -/
theorem menu_links_are_granted (a : Auth) (hu : a.user.isSome = true)
    (hl : a.loading = false) :
    (∀ (s : RoleViewProvider) (item : MenuItem), item ∈ filteredMenuItems a s →
      ∃ route : AppRoute, routeFor item.path = some route ∧ route.path = item.path ∧
        route ∈ routes ∧ routeGrants a route = true) ∧
    (isAdmin a = true → ∀ stored stored2 : Option String,
      filteredMenuItems a { roleView := some "finance-officer", stored := stored } =
        (filteredMenuItems a { roleView := none, stored := stored2 }).filter
          (fun item => item.label != "Users") ∧
      (filteredMenuItems a { roleView := none, stored := stored2 }).map MenuItem.label =
        ["Dashboard", "Users", "Scholarships", "Applications", "Payments"]) ∧
    (isAdmin a = false → ∀ s s2 : RoleViewProvider,
      filteredMenuItems a s = filteredMenuItems a s2) := by
  have hn : a.user.isNone = false := by
    cases hx : a.user with
    | none => rw [hx] at hu; exact absurd hu (by decide)
    | some u => rfl
  refine ⟨?_, ?_, ?_⟩
  · intro s item hitem
    obtain ⟨hmem, hacc⟩ := mem_filteredMenuItems a s item hitem
    simp only [allMenuItems, List.mem_cons, List.mem_singleton, List.not_mem_nil, or_false]
      at hmem
    rcases hmem with h | h | h | h | h <;> subst h
    · exact ⟨⟨"/dashboard", some []⟩, by decide, rfl, by decide,
        by simp [routeGrants, protectedRoute, hl, hn]⟩
    · refine ⟨⟨"/users", some ["ADMIN", "SCHOLARSHIP_OFFICER"]⟩, by decide, rfl, by decide, ?_⟩
      cases h1 : hasRole a "ADMIN" <;> cases h2 : hasRole a "SCHOLARSHIP_OFFICER" <;>
        simp [canAccess, routeGrants, protectedRoute, isAdmin, isApplicant, isReviewer,
          isFinanceOfficer, isScholarshipOfficer, h1, h2, hl, hn] at hacc ⊢
    · exact ⟨⟨"/scholarships", some []⟩, by decide, rfl, by decide,
        by simp [routeGrants, protectedRoute, hl, hn]⟩
    · exact ⟨⟨"/applications", some []⟩, by decide, rfl, by decide,
        by simp [routeGrants, protectedRoute, hl, hn]⟩
    · refine ⟨⟨"/payments", some ["ADMIN", "APPLICANT"]⟩, by decide, rfl, by decide, ?_⟩
      cases h1 : hasRole a "ADMIN" <;> cases h2 : hasRole a "APPLICANT" <;>
        simp [canAccess, routeGrants, protectedRoute, isAdmin, isApplicant, isReviewer,
          isFinanceOfficer, isScholarshipOfficer, h1, h2, hl, hn] at hacc ⊢
  · intro hadm stored stored2
    have hadm2 : hasRole a "ADMIN" = true := hadm
    constructor
    · simp [filteredMenuItems, menuItems, allMenuItems, canAccess, isAdmin, hadm2,
        isFinanceOfficerView, isAdminView, List.filter]
    · simp [filteredMenuItems, menuItems, allMenuItems, canAccess, isAdmin, hadm2,
        isFinanceOfficerView, isAdminView, List.filter]
  · intro hadm s s2
    simp [filteredMenuItems, menuItems, hadm]

theorem menu_links_are_granted_witness :
    (∃ route : AppRoute, routeFor "/users" = some route ∧ route.path = "/users" ∧
      route ∈ routes ∧ routeGrants officerAuth route = true) ∧
    (filteredMenuItems adminAuth { roleView := some "finance-officer" } =
        (filteredMenuItems adminAuth {}).filter (fun item => item.label != "Users") ∧
      (filteredMenuItems adminAuth {}).map MenuItem.label =
        ["Dashboard", "Users", "Scholarships", "Applications", "Payments"]) ∧
    filteredMenuItems applicantAuth { roleView := some "finance-officer" } =
      filteredMenuItems applicantAuth {} :=
  ⟨(menu_links_are_granted officerAuth rfl rfl).1 {}
      ⟨"/users", "Users", ["ADMIN", "SCHOLARSHIP_OFFICER"], ["admin"]⟩ (by decide),
    (menu_links_are_granted adminAuth rfl rfl).2.1 (by decide) none none,
    (menu_links_are_granted applicantAuth rfl rfl).2.2 (by decide)
      { roleView := some "finance-officer" } {}⟩

theorem menu_examples :
    (filteredMenuItems officerAuth {}).map MenuItem.label =
      ["Dashboard", "Users", "Scholarships", "Applications"] ∧
    (filteredMenuItems applicantAuth {}).map MenuItem.label =
      ["Dashboard", "Scholarships", "Applications", "Payments"] ∧
    (filteredMenuItems adminAuth { roleView := some "finance-officer" }).map MenuItem.label =
      ["Dashboard", "Scholarships", "Applications", "Payments"] ∧
    protectedRoute applicantAuth ["ADMIN", "SCHOLARSHIP_OFFICER"] = RouteOutcome.accessDenied ∧
    protectedRoute {} [] = RouteOutcome.toLogin := by
  decide

end Scholarship
